import Mathlib

/-!
# Xen paravirtualised block backend (`hw/block/xen-block.c`)

A shallow embedding of the vdev name codec (`disk_to_vbd_name`,
`vbd_name_to_disk`, `xen_block_get_vdev`, `xen_block_set_vdev`), of the
frontend state machine (`xen_block_disconnect`, `xen_block_connect`,
`xen_block_frontend_changed`), of realize and unrealize (`xen_block_realize`,
`xen_disk_realize`, `xen_cdrom_realize`, `xen_block_unrealize`) and of the
backend resource orchestration (`xen_block_drive_create`,
`xen_block_device_create`, `xen_block_device_destroy`), followed by theorems
about them.

Conventions.
* A C string is the list of its characters before the terminating NUL; the
  test `*p == 0` is `p = []`.
* `unsigned int` is 32 bits wide and `unsigned long` 64 bits wide (LP64);
  values are natural numbers, reduced explicitly where C arithmetic wraps.
* An `Error **errp` out-parameter is an `Option Error` in the result.
* Calls to collaborators outside this file are recorded, in program order, in
  a list of events; what a collaborator answers is a parameter.
* Where C leaves the outcome undefined (the `int` shift `1 << order` from
  order 31 on, the read of `v[1]` past the end of the empty vector) the
  outcome is a parameter too, kept with the collaborators.
-/

namespace XenBlock

/-! ## Machine integers -/

/-- Number of values of an `unsigned int`. -/
def UINT_RANGE : Nat := 2 ^ 32

/-- Largest `unsigned long`. -/
def ULONG_MAX : Nat := 2 ^ 64 - 1

/-- Error number `EINVAL`. -/
def EINVAL : Int := 22

/-- Error number `ERANGE`. -/
def ERANGE : Int := 34

/-- An error object, identified by its message. -/
abbrev Error := String

/-! ## Data model -/

/-- Modelled from the spec: the enumeration `XenBlockVdevType` is declared in
`hw/xen/xen-block.h`, which is not among the sources; the enumerators are the
five kinds of §3 under the names the code uses (`DP` is the explicit
disk/partition kind). -/
inductive XenBlockVdevType where
  | INVALID
  | DP
  | XVD
  | HD
  | SD
deriving DecidableEq, Repr

/-- Modelled from the spec: the record `XenBlockVdev` is declared in
`hw/xen/xen-block.h`, which is not among the sources; the fields are those of
the VirtualDeviceId of §3. The code prints and parses all three numeric fields
as `unsigned long`. -/
structure XenBlockVdev where
  type : XenBlockVdevType
  disk : Nat
  partition : Nat
  number : Nat
deriving DecidableEq, Repr

/-! ## Character classes and formatting from the C library -/

/-- Lowercase ASCII letter: `g_ascii_isalpha(c) && g_ascii_islower(c)`. -/
def g_ascii_islower (c : Char) : Bool := decide (97 ≤ c.toNat) && decide (c.toNat ≤ 122)

/-- Decimal digit, as `isdigit` in the C locale. -/
def isdigit (c : Char) : Bool := decide (48 ≤ c.toNat) && decide (c.toNat ≤ 57)

/-- White space, as `isspace` in the C locale. -/
def isspace (c : Char) : Bool :=
  decide (c.toNat = 32) || (decide (9 ≤ c.toNat) && decide (c.toNat ≤ 13))

/-- The conversion `%lu` / `%u` of `printf`: decimal, no padding. -/
def fmt_lu (n : Nat) : List Char :=
  if _h : n < 10 then [Nat.digitChar n]
  else fmt_lu (n / 10) ++ [Nat.digitChar (n % 10)]
termination_by n
decreasing_by omega

/-! ## `qemu_strtoul` -/

/-- Outcome of `qemu_strtoul`: the return value, the end pointer and the
value stored through `result`. -/
structure StrtoulResult where
  ret : Int
  endp : List Char
  result : Nat
deriving DecidableEq, Repr

/-- The digit loop of `strtoul` in base 10: consumes every leading decimal
digit, accumulating the exact value. -/
def strtoul_digits : List Char → Nat → Nat × List Char
  | [], acc => (acc, [])
  | c :: cs, acc =>
    if isdigit c then strtoul_digits cs (acc * 10 + (c.toNat - 48)) else (acc, c :: cs)

/-- Leading white space is skipped by `strtoul`. -/
def skip_space : List Char → List Char
  | [] => []
  | c :: cs => if isspace c then skip_space cs else c :: cs

/-- Modelled from the spec: `qemu_strtoul` (declared in `qemu/cutils.h`) is
called by the codec but is not among the sources; it is taken with its
documented behaviour, the lexical rules of `strtoul` in base 10. Leading
white space and one optional sign are skipped, then decimal digits are
consumed. With no digit the call stores 0, leaves the end pointer at the
start and returns `-EINVAL`; a magnitude above `ULONG_MAX` stores `ULONG_MAX`
and returns `-ERANGE`; otherwise it stores the value (negated modulo 2^64
after a minus sign) and returns 0. -/
def qemu_strtoul (nptr : List Char) : StrtoulResult :=
  let s := skip_space nptr
  let neg : Bool := match s with
    | c :: _ => decide (c = '-')
    | [] => false
  let body : List Char := match s with
    | c :: cs => if c = '-' ∨ c = '+' then cs else c :: cs
    | [] => []
  match body with
  | [] => { ret := -EINVAL, endp := nptr, result := 0 }
  | c :: _ =>
    if isdigit c then
      let r := strtoul_digits body 0
      if r.1 > ULONG_MAX then { ret := -ERANGE, endp := r.2, result := ULONG_MAX }
      else if neg then { ret := 0, endp := r.2, result := (ULONG_MAX + 1 - r.1) % (ULONG_MAX + 1) }
      else { ret := 0, endp := r.2, result := r.1 }
    else { ret := -EINVAL, endp := nptr, result := 0 }

/-! ## The vdev codec -/

/-- The function `disk_to_vbd_name`; the parameter is an `unsigned int`. -/
def disk_to_vbd_name (disk : Nat) : List Char :=
  if _h : disk ≥ 26 then
    disk_to_vbd_name (disk / 26 - 1) ++ [Char.ofNat (97 + disk % 26)]
  else
    [Char.ofNat (97 + disk % 26)]
termination_by disk
decreasing_by omega

/-- The function `xen_block_get_vdev`: the string handed to the visitor, or
the error set. The `unsigned long` disk is converted to the `unsigned int`
parameter of `disk_to_vbd_name`. -/
def xen_block_get_vdev (vdev : XenBlockVdev) : Except Error (List Char) :=
  match vdev.type with
  | .DP => .ok (['d'] ++ fmt_lu vdev.disk ++ ['p'] ++ fmt_lu vdev.partition)
  | .XVD | .HD | .SD =>
    let name := disk_to_vbd_name (vdev.disk % UINT_RANGE)
    .ok ((if vdev.type = .XVD then "xvd".toList
          else if vdev.type = .HD then "hd".toList
          else "sd".toList) ++ name ++ fmt_lu vdev.partition)
  | .INVALID => .error "invalid vdev type"

/-- The loop of `vbd_name_to_disk`, in `unsigned int` arithmetic. -/
def vbd_name_to_disk_loop : List Char → Nat → Nat × List Char
  | [], disk => (disk, [])
  | c :: cs, disk =>
    if !g_ascii_islower c then (disk, c :: cs)
    else vbd_name_to_disk_loop cs ((disk * 26 % UINT_RANGE + (c.toNat - 97 + 1)) % UINT_RANGE)

/-- The function `vbd_name_to_disk`: returns `disk - 1` (wrapping) and the
end pointer. -/
def vbd_name_to_disk (name : List Char) : Nat × List Char :=
  let r := vbd_name_to_disk_loop name 0
  ((r.1 + UINT_RANGE - 1) % UINT_RANGE, r.2)

/-- The call `strchr(s, c)`: the characters before the first `c` and the
string starting at it. -/
def strchr : List Char → Char → Option (List Char × List Char)
  | [], _ => none
  | x :: xs, c =>
    if x = c then some ([], x :: xs)
    else match strchr xs c with
      | none => none
      | some (pre, p) => some (x :: pre, p)

/-- The label `invalid:` of `xen_block_set_vdev`. -/
def set_vdev_invalid (vdev : XenBlockVdev) : XenBlockVdev × Option Error :=
  ({ vdev with type := .INVALID }, some "invalid virtual disk specifier")

/-- The final `switch` of `xen_block_set_vdev`, computing `number`. -/
def set_vdev_number (vdev : XenBlockVdev) : XenBlockVdev × Option Error :=
  match vdev.type with
  | .DP | .XVD =>
    if vdev.disk < 1 <<< 4 ∧ vdev.partition < 1 <<< 4 then
      ({ vdev with number := (202 <<< 8) ||| (vdev.disk <<< 4) ||| vdev.partition }, none)
    else if vdev.disk < 1 <<< 20 ∧ vdev.partition < 1 <<< 8 then
      ({ vdev with number := (1 <<< 28) ||| (vdev.disk <<< 8) ||| vdev.partition }, none)
    else set_vdev_invalid vdev
  | .HD =>
    if (vdev.disk = 0 ∨ vdev.disk = 1) ∧ vdev.partition < 1 <<< 6 then
      ({ vdev with number := (3 <<< 8) ||| (vdev.disk <<< 6) ||| vdev.partition }, none)
    else if (vdev.disk = 2 ∨ vdev.disk = 3) ∧ vdev.partition < 1 <<< 6 then
      ({ vdev with number := (22 <<< 8) ||| ((vdev.disk - 2) <<< 6) ||| vdev.partition }, none)
    else set_vdev_invalid vdev
  | .SD =>
    if vdev.disk < 1 <<< 4 ∧ vdev.partition < 1 <<< 4 then
      ({ vdev with number := (8 <<< 8) ||| (vdev.disk <<< 4) ||| vdev.partition }, none)
    else set_vdev_invalid vdev
  | .INVALID => set_vdev_invalid vdev

/-- The partition part of `xen_block_set_vdev`: from the test `*end != 0`
after the disk component down to the end of the function. -/
def set_vdev_partition (vdev : XenBlockVdev) (e : List Char) : XenBlockVdev × Option Error :=
  if e ≠ [] then
    let r := qemu_strtoul e
    let vdev := { vdev with partition := r.result }
    if r.ret ≠ 0 then set_vdev_invalid vdev
    else if r.endp ≠ [] then set_vdev_invalid vdev
    else set_vdev_number vdev
  else set_vdev_number { vdev with partition := 0 }

/-- The disk part of `xen_block_set_vdev`, entered once `vdev->type` is set
and `p` points just past the `d`. -/
def set_vdev_disk (vdev : XenBlockVdev) (p : List Char) : XenBlockVdev × Option Error :=
  if vdev.type = .DP then
    let r := qemu_strtoul p
    let vdev := { vdev with disk := r.result }
    if r.ret ≠ 0 then set_vdev_invalid vdev
    else if r.endp.head? = some 'p' then
      if r.endp.tail = [] then set_vdev_invalid vdev
      else set_vdev_partition vdev r.endp.tail
    else set_vdev_partition vdev r.endp
  else
    let r := vbd_name_to_disk p
    set_vdev_partition { vdev with disk := r.1 } r.2

/-- The function `xen_block_set_vdev`. `realized` is `dev->realized`, `visit`
the outcome of `visit_type_str`; the result is the vdev afterwards and the
error reported, if any. -/
def xen_block_set_vdev (realized : Bool) (vdev : XenBlockVdev)
    (visit : Except Error (List Char)) : XenBlockVdev × Option Error :=
  if realized then (vdev, some "Attempt to set property after realize")
  else match visit with
    | .error e => (vdev, some e)
    | .ok str =>
      match strchr str 'd' with
      | none => set_vdev_invalid vdev
      | some (pre, p) =>
        let p := p.tail
        if pre = [] then set_vdev_disk { vdev with type := .DP } p
        else if pre = "xv".toList then set_vdev_disk { vdev with type := .XVD } p
        else if pre = "h".toList then set_vdev_disk { vdev with type := .HD } p
        else if pre = "s".toList then set_vdev_disk { vdev with type := .SD } p
        else set_vdev_invalid vdev

/-! ## The frontend state machine -/

/-- Modelled from the spec: the enumeration `xenbus_state` comes from the Xen
interface headers, which are not among the sources; it has the four peer
states of §4.2, `Unknown`, and the remaining states of the protocol, which
the state machine ignores. -/
inductive xenbus_state where
  | XenbusStateUnknown
  | XenbusStateInitialising
  | XenbusStateInitWait
  | XenbusStateInitialised
  | XenbusStateConnected
  | XenbusStateClosing
  | XenbusStateClosed
  | XenbusStateReconfiguring
  | XenbusStateReconfigured
deriving DecidableEq, Repr

open xenbus_state

/-- Modelled from the spec: the wire-protocol variants of §3 (`BLKIF_PROTOCOL_*`
in `hw/block/xen_blkif.h`, which is not among the sources). -/
inductive blkif_protocol where
  | BLKIF_PROTOCOL_NATIVE
  | BLKIF_PROTOCOL_X86_32
  | BLKIF_PROTOCOL_X86_64
deriving DecidableEq, Repr

open blkif_protocol

/-- Modelled from the spec: the macro `XEN_IO_PROTO_ABI_X86_32` comes from the
Xen interface headers, which are not among the sources; §4.2 names the
protocol string `x86_32`. -/
def XEN_IO_PROTO_ABI_X86_32 : String := "x86_32"

/-- Modelled from the spec: the macro `XEN_IO_PROTO_ABI_X86_64` comes from the
Xen interface headers, which are not among the sources; §4.2 names the
protocol string `x86_64`. -/
def XEN_IO_PROTO_ABI_X86_64 : String := "x86_64"

/-- A call made to a collaborator, recorded in program order. -/
inductive Event where
  | frontend_scanf (key : String)
  | dataplane_stop
  | dataplane_start (ring_ref : List Nat) (nr_ring_ref : Nat) (event_channel : Nat)
      (protocol : blkif_protocol)
deriving DecidableEq, Repr

/-- The collaborators of one call: what `xen_device_frontend_scanf` yields
for a key with the conversion `%u` (`none` when the result is not 1) and with
`%ms`, the error `xen_block_dataplane_start` reports, if any, and the value
the compiled program gives the `int` shift `1 << order` where C leaves it
undefined (from order 31 on). -/
structure Collab where
  scanf_u : String → Option Nat
  scanf_s : String → Option String
  start_err : List Nat → Nat → Nat → blkif_protocol → Option Error
  shift_overflow : Nat → Nat

/-- The part of the device the state machine touches: the backend state, the
property `max-ring-page-order`, and the record of collaborator calls. -/
structure XenBlockDevice where
  backend_state : xenbus_state
  max_ring_page_order : Nat
  trace : List Event

/-- Modelled from the spec: `xen_device_backend_set_state` (in the bus
framework, not among the sources) publishes the new backend state. -/
def xen_device_backend_set_state (dev : XenBlockDevice) (s : xenbus_state) : XenBlockDevice :=
  { dev with backend_state := s }

/-- Modelled from the spec: `xen_device_backend_get_state` (in the bus
framework, not among the sources) returns the current backend state. -/
def xen_device_backend_get_state (dev : XenBlockDevice) : xenbus_state :=
  dev.backend_state

/-- The function `xen_block_disconnect`: stops the dataplane and never sets an
error. -/
def xen_block_disconnect (dev : XenBlockDevice) : XenBlockDevice × Option Error :=
  ({ dev with trace := dev.trace ++ [Event.dataplane_stop] }, none)

/-- The key `g_strdup_printf("ring-ref%u", i)`. -/
def ring_ref_key (i : Nat) : String := "ring-ref" ++ String.mk (fmt_lu i)

/-- The conversion `%d` of `printf` applied to an `unsigned int`: the value
is read as a 32-bit two's complement integer. -/
def fmt_d (n : Nat) : List Char :=
  if n % UINT_RANGE < 2 ^ 31 then fmt_lu (n % UINT_RANGE)
  else '-' :: fmt_lu (UINT_RANGE - n % UINT_RANGE)

/-- The `for` loop of `xen_block_connect` over the keys `ring-ref<i>`, with
`n` iterations left from index `i`. -/
def read_ring_refs (c : Collab) : Nat → Nat → List Event → List Nat →
    List Event × Except Error (List Nat)
  | 0, _, tr, acc => (tr, .ok acc)
  | n + 1, i, tr, acc =>
    let key := ring_ref_key i
    match c.scanf_u key with
    | none => (tr ++ [Event.frontend_scanf key], .error ("failed to read " ++ key))
    | some v => read_ring_refs c n (i + 1) (tr ++ [Event.frontend_scanf key]) (acc ++ [v])

/-- The protocol selection of `xen_block_connect`, from what the read of the
key `protocol` with `%ms` yields. -/
def connect_protocol (str : Option String) : blkif_protocol :=
  match str with
  | none => BLKIF_PROTOCOL_NATIVE
  | some str =>
    if str = XEN_IO_PROTO_ABI_X86_32 then BLKIF_PROTOCOL_X86_32
    else if str = XEN_IO_PROTO_ABI_X86_64 then BLKIF_PROTOCOL_X86_64
    else BLKIF_PROTOCOL_NATIVE

/-- The tail of `xen_block_connect`, from the read of `event-channel` on. -/
def connect_finish (c : Collab) (dev : XenBlockDevice) (tr : List Event)
    (ring_ref : List Nat) (nr_ring_ref : Nat) : XenBlockDevice × Option Error :=
  match c.scanf_u "event-channel" with
  | none =>
    ({ dev with trace := tr ++ [Event.frontend_scanf "event-channel"] },
      some "failed to read event-channel")
  | some event_channel =>
    let protocol := connect_protocol (c.scanf_s "protocol")
    ({ dev with trace := tr ++ [Event.frontend_scanf "event-channel",
        Event.frontend_scanf "protocol",
        Event.dataplane_start ring_ref nr_ring_ref event_channel protocol] },
      c.start_err ring_ref nr_ring_ref event_channel protocol)

/-- The statement `nr_ring_ref = 1 << order`: the shift is made in `int` and
its result stored in an `unsigned int`. Up to order 30 the value is 2^order;
from order 31 on C leaves the shift undefined, and the count is what the
compiled program yields, reduced to the range of `unsigned int`. -/
def ring_count (c : Collab) (order : Nat) : Nat :=
  if order < 31 then 1 <<< order else c.shift_overflow order % UINT_RANGE

/-- The function `xen_block_connect`. -/
def xen_block_connect (c : Collab) (dev : XenBlockDevice) : XenBlockDevice × Option Error :=
  match c.scanf_u "ring-page-order" with
  | none =>
    match c.scanf_u "ring-ref" with
    | none =>
      ({ dev with trace := dev.trace ++
          [Event.frontend_scanf "ring-page-order", Event.frontend_scanf "ring-ref"] },
        some "failed to read ring-ref")
    | some r =>
      connect_finish c dev (dev.trace ++
        [Event.frontend_scanf "ring-page-order", Event.frontend_scanf "ring-ref"]) [r] 1
  | some order =>
    if order ≤ dev.max_ring_page_order then
      let nr_ring_ref := ring_count c order
      match read_ring_refs c nr_ring_ref 0
          (dev.trace ++ [Event.frontend_scanf "ring-page-order"]) [] with
      | (tr, .error e) => ({ dev with trace := tr }, some e)
      | (tr, .ok ring_ref) => connect_finish c dev tr ring_ref nr_ring_ref
    else
      ({ dev with trace := dev.trace ++ [Event.frontend_scanf "ring-page-order"] },
        some ("invalid ring-page-order (" ++ String.mk (fmt_d order) ++ ")"))

/-- The function `xen_block_frontend_changed`. -/
def xen_block_frontend_changed (c : Collab) (dev : XenBlockDevice)
    (frontend_state : xenbus_state) : XenBlockDevice × Option Error :=
  let backend_state := xen_device_backend_get_state dev
  match frontend_state with
  | XenbusStateInitialised | XenbusStateConnected =>
    if backend_state = XenbusStateConnected then (dev, none)
    else
      match xen_block_disconnect dev with
      | (dev, some e) => (dev, some e)
      | (dev, none) =>
        match xen_block_connect c dev with
        | (dev, some e) => (dev, some e)
        | (dev, none) => (xen_device_backend_set_state dev XenbusStateConnected, none)
  | XenbusStateClosing => (xen_device_backend_set_state dev XenbusStateClosing, none)
  | XenbusStateClosed =>
    match xen_block_disconnect dev with
    | (dev, some e) => (dev, some e)
    | (dev, none) => (xen_device_backend_set_state dev XenbusStateClosed, none)
  | _ => (dev, none)

/-- Number of `xen_block_dataplane_start` calls in a record of calls. -/
def count_start : List Event → Nat
  | [] => 0
  | Event.dataplane_start _ _ _ _ :: es => count_start es + 1
  | _ :: es => count_start es

/-- Number of `xen_block_dataplane_stop` calls in a record of calls. -/
def count_stop : List Event → Nat
  | [] => 0
  | Event.dataplane_stop :: es => count_stop es + 1
  | _ :: es => count_stop es

/-! ## Realize and unrealize -/

/-- Modelled from the spec: the flag `VDISK_CDROM` of the `info` bitmask of §6
comes from the Xen interface headers, which are not among the sources. -/
def VDISK_CDROM : Nat := 1

/-- Modelled from the spec: the flag `VDISK_READONLY` of the `info` bitmask of
§6 comes from the Xen interface headers, which are not among the sources. -/
def VDISK_READONLY : Nat := 4

/-- The two concrete device classes, `xen-disk` and `xen-cdrom`; each installs
its own `realize` and `unrealize` in `XenBlockDeviceClass`. -/
inductive BlockClass where
  | disk
  | cdrom
deriving DecidableEq, Repr

/-- What realize observes of a `BlockBackend`: the answers of
`blk_is_inserted`, `blk_is_read_only` and `blk_getlength`. -/
structure BlockBackend where
  inserted : Bool
  read_only : Bool
  length : Nat
deriving DecidableEq, Repr

/-- The backend `blk_new(0, BLK_PERM_ALL)` creates: an empty drive, with no
medium inserted. -/
def blk_new : BlockBackend := { inserted := false, read_only := false, length := 0 }

/-- The fields of `BlockConf` that realize reads; `blk` is `none` when the
drive property is not set. -/
structure BlockConf where
  blk : Option BlockBackend
  logical_block_size : Nat
  physical_block_size : Nat
  discard_granularity : Nat
deriving DecidableEq, Repr

/-- A call made during realize or unrealize, recorded in program order. -/
inductive RealizeEvent where
  | class_realize (cls : BlockClass)
  | class_unrealize (cls : BlockClass)
  | blk_attach_dev
  | blk_set_guest_block_size (size : Nat)
  | backend_printf (key value : String)
  | frontend_printf (key value : String)
  | dataplane_create
  | dataplane_stop
  | dataplane_destroy
deriving DecidableEq, Repr

/-- The block device as realize and unrealize see it. -/
structure XenBlockDev where
  cls : BlockClass
  vdev : XenBlockVdev
  conf : BlockConf
  max_ring_page_order : Nat
  info : Nat
  device_type : Option String
  dataplane : Bool
  calls : List RealizeEvent

/-- The collaborators of realize: the return value of `blk_attach_dev`, the
error `blkconf_apply_backend_options` sets (given the read-only flag), the
error `blkconf_geometry` sets, and the effect of `blkconf_blocksizes`. -/
structure RealizeCollab where
  attach_rc : Int
  apply_backend_options : Bool → Option Error
  geometry : Option Error
  blocksizes : BlockConf → BlockConf

/-- The function `xen_disk_realize`. -/
def xen_disk_realize (dev : XenBlockDev) : XenBlockDev × Option Error :=
  let dev := { dev with device_type := some "disk" }
  match dev.conf.blk with
  | none => (dev, some "drive property not set")
  | some blk =>
    ({ dev with info := if blk.read_only then VDISK_READONLY else 0 }, none)

/-- The function `xen_cdrom_realize`. -/
def xen_cdrom_realize (rc : RealizeCollab) (dev : XenBlockDev) : XenBlockDev × Option Error :=
  let dev := { dev with device_type := some "cdrom" }
  match dev.conf.blk with
  | none =>
    let dev := { dev with conf := { dev.conf with blk := some blk_new },
                          calls := dev.calls ++ [RealizeEvent.blk_attach_dev] }
    if rc.attach_rc = 0 then (dev, some "failed to create drive")
    else ({ dev with info := VDISK_READONLY ||| VDISK_CDROM }, none)
  | some _ => ({ dev with info := VDISK_READONLY ||| VDISK_CDROM }, none)

/-- The call `blockdev_class->realize(blockdev, &local_err)`. -/
def class_realize (rc : RealizeCollab) (dev : XenBlockDev) : XenBlockDev × Option Error :=
  let dev := { dev with calls := dev.calls ++ [RealizeEvent.class_realize dev.cls] }
  match dev.cls with
  | .disk => xen_disk_realize dev
  | .cdrom => xen_cdrom_realize rc dev

/-- The keys `xen_block_realize` publishes, in program order. -/
def realize_keys (dev : XenBlockDev) (blk : BlockBackend) : List RealizeEvent :=
  (if dev.conf.discard_granularity > 0 then
      [RealizeEvent.backend_printf "feature-discard" "1"] else []) ++
  [ RealizeEvent.backend_printf "feature-flush-cache" "1",
    RealizeEvent.backend_printf "max-ring-page-order" (String.mk (fmt_lu dev.max_ring_page_order)),
    RealizeEvent.backend_printf "info" (String.mk (fmt_lu dev.info)),
    RealizeEvent.frontend_printf "virtual-device" (String.mk (fmt_lu dev.vdev.number)),
    RealizeEvent.frontend_printf "device-type" (dev.device_type.getD ""),
    RealizeEvent.backend_printf "sector-size" (String.mk (fmt_lu dev.conf.logical_block_size)),
    RealizeEvent.backend_printf "sectors"
      (String.mk (fmt_lu (blk.length / dev.conf.logical_block_size))) ]

/-- The function `xen_block_realize`, after the class-specific realize: from
`assert(conf->blk)` on. A failed assertion is reported as an error. -/
def realize_rest (rc : RealizeCollab) (dev : XenBlockDev) : XenBlockDev × Option Error :=
  match dev.conf.blk with
  | none => (dev, some "assertion failed: conf->blk")
  | some blk =>
    if !blk.inserted then (dev, some "device needs media, but drive is empty")
    else
      match rc.apply_backend_options (decide (dev.info &&& VDISK_READONLY ≠ 0)) with
      | some e => (dev, some e)
      | none =>
        match (if dev.info &&& VDISK_CDROM = 0 then rc.geometry else none) with
        | some e => (dev, some e)
        | none =>
          let dev := { dev with conf := rc.blocksizes dev.conf }
          if dev.conf.logical_block_size > dev.conf.physical_block_size then
            (dev, some "logical_block_size > physical_block_size not supported")
          else
            ({ dev with
                calls := dev.calls ++
                  [RealizeEvent.blk_set_guest_block_size dev.conf.logical_block_size] ++
                  realize_keys dev blk ++ [RealizeEvent.dataplane_create],
                dataplane := true }, none)

/-- The function `xen_block_realize`. -/
def xen_block_realize (rc : RealizeCollab) (dev : XenBlockDev) : XenBlockDev × Option Error :=
  if dev.vdev.type = .INVALID then (dev, some "vdev property not set")
  else
    match class_realize rc dev with
    | (dev, some e) => (dev, some e)
    | (dev, none) => realize_rest rc dev

/-- The function `xen_block_unrealize`; both classes install an `unrealize`. -/
def xen_block_unrealize (dev : XenBlockDev) : XenBlockDev × Option Error :=
  if dev.vdev.type = .INVALID then (dev, none)
  else
    ({ dev with
        calls := dev.calls ++ [RealizeEvent.dataplane_stop, RealizeEvent.dataplane_destroy,
          RealizeEvent.class_unrealize dev.cls],
        dataplane := false }, none)

/-- The event writes a control-store key. -/
def is_printf : RealizeEvent → Bool
  | .backend_printf _ _ => true
  | .frontend_printf _ _ => true
  | _ => false

/-! ## Backend resource orchestration -/

/-- An options dictionary, through `qdict_get_try_str`. -/
abbrev QDict := String → Option String

/-- The options `xen_block_drive_create` hands to `xen_block_blockdev_add`:
the driver layer (`driver`, `node-name`) over a file layer (`filename`,
`read-only`, `cache.direct` with `aio=native`, `discard=unmap`). -/
structure BlockdevOptions where
  node_name : String
  driver : String
  filename : String
  read_only : Bool
  direct : Bool
  discard_unmap : Bool
deriving DecidableEq, Repr

/-- The record `XenBlockDrive`; `node_name` is `none` for a null pointer. -/
structure XenBlockDrive where
  id : String
  node_name : Option String
deriving DecidableEq, Repr

/-- The record `XenBlockIOThread`. -/
structure XenBlockIOThread where
  id : String
deriving DecidableEq, Repr

/-- A call made by the orchestrator, recorded in program order; `device`
wraps a call made by the device itself while it is unrealized. -/
inductive OrchEvent where
  | blockdev_add (options : BlockdevOptions)
  | blockdev_del (node_name : String)
  | object_add (id : String)
  | object_del (id : String)
  | qdev_create (type : String)
  | set_prop (name value : String)
  | object_unparent
  | backend_set_device
  | device (e : RealizeEvent)
deriving DecidableEq, Repr

/-- The collaborators of the orchestrator: the errors the QMP commands and
the property setters report, whether `qemu_strtoul` in base 2 reads a whole
option string as a non-zero number, and the driver and file name
`xen_block_drive_create` is left with after it read `v[1]` past the end of
the vector (C leaves that read undefined). -/
structure OrchCollab where
  visit_options : BlockdevOptions → Option Error
  blockdev_add : BlockdevOptions → Option Error
  blockdev_del : String → Option Error
  object_add : String → Option Error
  object_del : String → Option Error
  flag_set : String → Bool
  set_drive : String → Option Error
  set_iothread : String → Option Error
  realize : Option Error
  stray_params : Option String × Option String

/-- Modelled from the spec: the type name macro `TYPE_XEN_DISK_DEVICE` is
declared in `hw/xen/xen-block.h`, which is not among the sources. -/
def TYPE_XEN_DISK_DEVICE : String := "xen-disk"

/-- Modelled from the spec: the type name macro `TYPE_XEN_CDROM_DEVICE` is
declared in `hw/xen/xen-block.h`, which is not among the sources. -/
def TYPE_XEN_CDROM_DEVICE : String := "xen-cdrom"

/-- The call `qemu_strtoul(s, NULL, 10, &value)`: with a null end pointer a
string that is not consumed whole is an error. -/
def qemu_strtoul_whole (s : List Char) : Int :=
  let r := qemu_strtoul s
  if r.ret = 0 ∧ r.endp ≠ [] then -EINVAL else r.ret

/-- The call `g_strsplit(s, ":", 2)`: at most two pieces, split at the first
colon; the empty string gives the empty vector. -/
def g_strsplit2 (s : List Char) : List (List Char) :=
  match strchr s ':' with
  | none => if s = [] then [] else [s]
  | some (pre, rest) => [pre, rest.tail]

/-- The function `xen_block_drive_destroy`: the error set and the calls made. -/
def xen_block_drive_destroy (c : OrchCollab) (drive : XenBlockDrive) :
    Option Error × List OrchEvent :=
  match drive.node_name with
  | some node_name => (c.blockdev_del node_name, [OrchEvent.blockdev_del node_name])
  | none => (none, [])

/-- The function `xen_block_blockdev_add`, given the options assembled by the
caller: the node name or the error, and the calls made. -/
def xen_block_blockdev_add (c : OrchCollab) (options : BlockdevOptions) :
    Except Error String × List OrchEvent :=
  match c.visit_options options with
  | some e => (.error e, [])
  | none =>
    match c.blockdev_add options with
    | some e => (.error e, [OrchEvent.blockdev_add options])
    | none => (.ok options.node_name, [OrchEvent.blockdev_add options])

/-- The driver and file name `xen_block_drive_create` derives from `params`
(`none` is a null pointer). The vector `v` ends with a null pointer, so with
one piece `v[1]` is null; with no piece, for the empty string, `v[0]` is
that null pointer and the test of `v[1]` reads past the end of the vector:
what the code is left with then is not defined by C and is taken from the
collaborators. -/
def drive_params (c : OrchCollab) (params : Option String) : Option String × Option String :=
  match params with
  | none => (none, none)
  | some p =>
    match g_strsplit2 p.toList with
    | [] => c.stray_params
    | [v0] => (some "raw", some (String.mk v0))
    | v0 :: v1 :: _ =>
      (some (if String.mk v0 = "aio" then "raw"
             else if String.mk v0 = "vhd" then "vpc"
             else String.mk v0), some (String.mk v1))

/-- The options `xen_block_drive_create` assembles for
`xen_block_blockdev_add` from the driver, the file name and the request. -/
def drive_options (c : OrchCollab) (id : String) (opts : QDict) (driver filename : String) :
    BlockdevOptions :=
  { node_name := id ++ "-" ++ driver
    driver := driver
    filename := filename
    read_only := match opts "mode" with
      | some mode => decide (mode.toList.head? ≠ some 'w')
      | none => false
    direct := match opts "direct-io-safe" with
      | some v => c.flag_set v
      | none => false
    discard_unmap := match opts "discard-enable" with
      | some v => c.flag_set v
      | none => false }

/-- The function `xen_block_drive_create`: the drive or the error, and the
calls made. -/
def xen_block_drive_create (c : OrchCollab) (id : String) (opts : QDict) :
    Except Error XenBlockDrive × List OrchEvent :=
  match drive_params c (opts "params") with
  | (_, none) => (.error "no filename", [])
  | (driver, some filename) =>
    match xen_block_blockdev_add c (drive_options c id opts (driver.getD "") filename) with
    | (.error e, evs) => (.error e, evs)
    | (.ok node_name, evs) => (.ok { id := id, node_name := some node_name }, evs)

/-- The function `xen_block_iothread_create`. -/
def xen_block_iothread_create (c : OrchCollab) (id : String) :
    Except Error XenBlockIOThread × List OrchEvent :=
  match c.object_add id with
  | some e => (.error e, [OrchEvent.object_add id])
  | none => (.ok { id := id }, [OrchEvent.object_add id])

/-- The function `xen_block_iothread_destroy`. -/
def xen_block_iothread_destroy (c : OrchCollab) (iothread : XenBlockIOThread) :
    Option Error × List OrchEvent :=
  (c.object_del iothread.id, [OrchEvent.object_del iothread.id])

/-- Outcome of `xen_block_device_create`: the error set, whether the device
was registered with `xen_backend_set_device`, and the calls made. -/
structure CreateResult where
  err : Option Error
  registered : Bool
  trace : List OrchEvent
deriving DecidableEq, Repr

/-- The label `fail:` of `xen_block_device_create`; errors of the destroy
functions are dropped (their `errp` is null). -/
def create_fail (c : OrchCollab) (e : Error) (trace : List OrchEvent) (xendev : Bool)
    (iothread : Option XenBlockIOThread) (drive : Option XenBlockDrive) : CreateResult :=
  { err := some e
    registered := false
    trace := trace ++ (if xendev then [OrchEvent.object_unparent] else []) ++
      (match iothread with
        | some io => (xen_block_iothread_destroy c io).2
        | none => []) ++
      (match drive with
        | some d => (xen_block_drive_destroy c d).2
        | none => []) }

/-- The function `xen_block_device_create`, from `qdev_create` on. -/
def create_device (c : OrchCollab) (vdev type : String) (trace : List OrchEvent)
    (iothread : XenBlockIOThread) (drive : XenBlockDrive) : CreateResult :=
  let trace := trace ++ [OrchEvent.qdev_create type, OrchEvent.set_prop "vdev" vdev]
  match (xen_block_set_vdev false { type := .INVALID, disk := 0, partition := 0, number := 0 }
      (.ok vdev.toList)).2 with
  | some e => create_fail c ("failed to set 'vdev': " ++ e) trace true (some iothread) (some drive)
  | none =>
    let trace := trace ++ [OrchEvent.set_prop "drive" (drive.node_name.getD "")]
    match c.set_drive (drive.node_name.getD "") with
    | some e =>
      create_fail c ("failed to set 'drive': " ++ e) trace true (some iothread) (some drive)
    | none =>
      let trace := trace ++ [OrchEvent.set_prop "iothread" iothread.id]
      match c.set_iothread iothread.id with
      | some e =>
        create_fail c ("failed to set 'iothread': " ++ e) trace true (some iothread) (some drive)
      | none =>
        let trace := trace ++ [OrchEvent.set_prop "realized" "true"]
        match c.realize with
        | some e =>
          create_fail c ("realization of device " ++ type ++ " failed: " ++ e) trace true
            (some iothread) (some drive)
        | none =>
          { err := none, registered := true,
            trace := trace ++ [OrchEvent.backend_set_device] }

/-- The function `xen_block_device_create`; `name` is the backend instance
name and `opts` the creation request. -/
def xen_block_device_create (c : OrchCollab) (name : String) (opts : QDict) : CreateResult :=
  if qemu_strtoul_whole name.toList ≠ 0 then
    create_fail c ("failed to parse name '" ++ name ++ "'") [] false none none
  else
    match opts "dev" with
    | none => create_fail c "no dev parameter" [] false none none
    | some vdev =>
      match opts "device-type" with
      | none => create_fail c "no device-type parameter" [] false none none
      | some device_type =>
        if device_type ≠ "disk" ∧ device_type ≠ "cdrom" then
          create_fail c ("invalid device-type parameter '" ++ device_type ++ "'") [] false
            none none
        else
          let type := if device_type = "disk" then TYPE_XEN_DISK_DEVICE
            else TYPE_XEN_CDROM_DEVICE
          match xen_block_drive_create c vdev opts with
          | (.error e, evs) => create_fail c ("failed to create drive: " ++ e) evs false none none
          | (.ok drive, evs) =>
            match xen_block_iothread_create c vdev with
            | (.error e, evs2) =>
              create_fail c ("failed to create iothread: " ++ e) (evs ++ evs2) false none
                (some drive)
            | (.ok iothread, evs2) => create_device c vdev type (evs ++ evs2) iothread drive

/-- Modelled from the spec: `object_unparent` belongs to the object framework,
which is not among the sources; removing a device from the bus unrealizes it
(§4.3: unregister the device first, then disconnect the data transport). The
calls of `xen_block_unrealize` are recorded after the unparent. -/
def object_unparent (dev : XenBlockDev) : XenBlockDev × List OrchEvent :=
  ((xen_block_unrealize dev).1,
    OrchEvent.object_unparent ::
      (((xen_block_unrealize dev).1.calls.drop dev.calls.length).map OrchEvent.device))

/-- The function `xen_block_device_destroy`: the error set and the calls
made. -/
def xen_block_device_destroy (c : OrchCollab) (dev : XenBlockDev)
    (drive : Option XenBlockDrive) (iothread : Option XenBlockIOThread) :
    Option Error × List OrchEvent :=
  let trace := (object_unparent dev).2
  match (match iothread with
      | some io => xen_block_iothread_destroy c io
      | none => (none, [])) with
  | (some e, evs) => (some ("failed to destroy iothread: " ++ e), trace ++ evs)
  | (none, evs) =>
    match drive with
    | some d =>
      match xen_block_drive_destroy c d with
      | (some e, evs2) => (some ("failed to destroy drive: " ++ e), trace ++ evs ++ evs2)
      | (none, evs2) => (none, trace ++ evs ++ evs2)
    | none => (none, trace ++ evs)

/-! ## Specification-side definitions -/

/-- One step of the digit loop: the value of a decimal digit appended. -/
def digit_step (acc : Nat) (c : Char) : Nat := acc * 10 + (c.toNat - 48)

/-- The string is empty or does not begin with a decimal digit. -/
def no_digit_head (s : List Char) : Prop := ∀ c ∈ s.head?, isdigit c = false

/-- The string is empty or does not begin with a lowercase letter. -/
def no_lower_head (s : List Char) : Prop := ∀ c ∈ s.head?, g_ascii_islower c = false

/-- Digit of a letter in the positional code of §4.1: `a` is 1, `z` is 26. -/
def spec_letter_digit (c : Char) : Nat := c.toNat - 96

/-- The sum Σ digit_i · 26^(n-1-i) of §4.1 over a run of n letters. -/
def spec_letters_sum : List Char → Nat
  | [] => 0
  | c :: cs => spec_letter_digit c * 26 ^ cs.length + spec_letters_sum cs

/-- The disk a run of letters denotes in §4.1: the sum minus one. -/
def spec_letters_to_disk (ls : List Char) : Nat := spec_letters_sum ls - 1

/-- The packed-number table of §4.1, read top to bottom: the value of the
first row that `(kind, disk, partition)` satisfies, `none` when no row does. -/
def spec_packed_number : XenBlockVdevType → Nat → Nat → Option Nat
  | .DP, d, p | .XVD, d, p =>
    if d < 16 ∧ p < 16 then some ((202 <<< 8) ||| (d <<< 4) ||| p)
    else if d < 2 ^ 20 ∧ p < 256 then some ((1 <<< 28) ||| (d <<< 8) ||| p)
    else none
  | .HD, d, p =>
    if (d = 0 ∨ d = 1) ∧ p < 64 then some ((3 <<< 8) ||| (d <<< 6) ||| p)
    else if (d = 2 ∨ d = 3) ∧ p < 64 then some ((22 <<< 8) ||| ((d - 2) <<< 6) ||| p)
    else none
  | .SD, d, p =>
    if d < 16 ∧ p < 16 then some ((8 <<< 8) ||| (d <<< 4) ||| p)
    else none
  | .INVALID, _, _ => none

/-- The outcome the table of §4.1 prescribes once `(kind, disk, partition)`
has been parsed: the number of the first matching row, or kind `Invalid`
with the invalid-specifier error. -/
def spec_number_outcome (vdev : XenBlockVdev) : XenBlockVdev × Option Error :=
  match spec_packed_number vdev.type vdev.disk vdev.partition with
  | some n => ({ vdev with number := n }, none)
  | none => ({ vdev with type := .INVALID }, some "invalid virtual disk specifier")

/-- Decimal digits in the grammar of §6: one or more digit characters. -/
def spec_decimal (s : List Char) : Prop := s ≠ [] ∧ ∀ c ∈ s, isdigit c = true

/-- Lowercase letters in the grammar of §6: one or more letters. -/
def spec_letters (s : List Char) : Prop := s ≠ [] ∧ ∀ c ∈ s, g_ascii_islower c = true

/-- The three prefixes of the letter forms. -/
def spec_letter_prefixes : List (List Char) := ["xv".toList, "h".toList, "s".toList]

/-- The virtual-disk specifier grammar of §6: a prefix, `d`, then decimal
digits optionally followed by `p` and decimal digits (explicit form), or
lowercase letters optionally followed directly by decimal digits (letter
forms). -/
def spec_grammar (s : List Char) : Prop :=
  (∃ ds, spec_decimal ds ∧ s = 'd' :: ds) ∨
  (∃ ds ps, spec_decimal ds ∧ spec_decimal ps ∧ s = 'd' :: (ds ++ 'p' :: ps)) ∨
  (∃ pre ls, pre ∈ spec_letter_prefixes ∧ spec_letters ls ∧ s = pre ++ 'd' :: ls) ∨
  (∃ pre ls ps, pre ∈ spec_letter_prefixes ∧ spec_letters ls ∧ spec_decimal ps ∧
    s = pre ++ 'd' :: (ls ++ ps))

/-- A number as `strtoul` reads it: optional white space, one optional sign,
then decimal digits. -/
def strtoul_numeral (n : List Char) : Prop :=
  ∃ ws sg ds, n = ws ++ sg ++ ds ∧ (∀ c ∈ ws, isspace c = true) ∧
    (sg = [] ∨ sg = ['+'] ∨ sg = ['-']) ∧ spec_decimal ds

/-- The grammar of §6 with every run of decimal digits widened to a number as
`strtoul` reads it; in the explicit form the `p` may then be missing before a
partition number that does not begin with a digit. -/
def strtoul_grammar (s : List Char) : Prop :=
  (∃ n, strtoul_numeral n ∧ s = 'd' :: n) ∨
  (∃ n m, strtoul_numeral n ∧ strtoul_numeral m ∧ s = 'd' :: (n ++ 'p' :: m)) ∨
  (∃ n m, strtoul_numeral n ∧ strtoul_numeral m ∧ no_digit_head m ∧ s = 'd' :: (n ++ m)) ∨
  (∃ pre ls, pre ∈ spec_letter_prefixes ∧ spec_letters ls ∧ s = pre ++ 'd' :: ls) ∨
  (∃ pre ls m, pre ∈ spec_letter_prefixes ∧ spec_letters ls ∧ strtoul_numeral m ∧
    s = pre ++ 'd' :: (ls ++ m))

/-- A frontend that published the legacy `ring-ref` and `event-channel` keys
and nothing else, with a dataplane that starts without error. -/
def sample_collab : Collab where
  scanf_u := fun key =>
    if key = "ring-ref" then some 8 else if key = "event-channel" then some 3 else none
  scanf_s := fun _ => none
  start_err := fun _ _ _ _ => none
  shift_overflow := fun order => 1 <<< (order % 32)

/-- A device whose backend state is Closed, with the default ring order limit
and no collaborator call recorded yet. -/
def sample_dev : XenBlockDevice :=
  { backend_state := XenbusStateClosed, max_ring_page_order := 4, trace := [] }

/-- A frontend that published the legacy `ring-ref` key but no
`event-channel`. -/
def sample_collab_no_channel : Collab where
  scanf_u := fun key => if key = "ring-ref" then some 8 else none
  scanf_s := fun _ => none
  start_err := fun _ _ _ _ => none
  shift_overflow := fun order => 1 <<< (order % 32)

/-- A frontend that published `ring-page-order` 2, the four keys `ring-ref0`
to `ring-ref3`, `event-channel` and the protocol `x86_64`. -/
def sample_collab_multi : Collab where
  scanf_u := fun key =>
    if key = "ring-page-order" then some 2
    else if key = "ring-ref0" then some 10
    else if key = "ring-ref1" then some 11
    else if key = "ring-ref2" then some 12
    else if key = "ring-ref3" then some 13
    else if key = "event-channel" then some 3
    else none
  scanf_s := fun key => if key = "protocol" then some "x86_64" else none
  start_err := fun _ _ _ _ => none
  shift_overflow := fun order => 1 <<< (order % 32)

/-- A frontend that published `ring-page-order` 5 and every other key. -/
def sample_collab_order5 : Collab where
  scanf_u := fun key => if key = "ring-page-order" then some 5 else some 1
  scanf_s := fun _ => none
  start_err := fun _ _ _ _ => none
  shift_overflow := fun order => 1 <<< (order % 32)

/-- A frontend that published `ring-page-order` 2 and the keys `ring-ref0`
and `ring-ref1` only. -/
def sample_collab_gap : Collab where
  scanf_u := fun key =>
    if key = "ring-page-order" then some 2
    else if key = "ring-ref0" then some 10
    else if key = "ring-ref1" then some 11
    else if key = "event-channel" then some 3
    else none
  scanf_s := fun _ => none
  start_err := fun _ _ _ _ => none
  shift_overflow := fun order => 1 <<< (order % 32)

/-- A frontend that published no key at all. -/
def sample_collab_empty : Collab where
  scanf_u := fun _ => none
  scanf_s := fun _ => none
  start_err := fun _ _ _ _ => none
  shift_overflow := fun order => 1 <<< (order % 32)

/-- A frontend that published `ring-page-order` 32 and every other key; the
undefined shift takes its count modulo 32, as the shift instruction of the
usual hosts does. -/
def sample_collab_order32 : Collab where
  scanf_u := fun key => if key = "ring-page-order" then some 32 else some 1
  scanf_s := fun _ => none
  start_err := fun _ _ _ _ => none
  shift_overflow := fun order => 1 <<< (order % 32)

/-- A frontend that published `ring-page-order` 32, `ring-ref0` and
`event-channel`, but no `ring-ref1`; the undefined shift takes its count
modulo 32. -/
def sample_collab_order32_gap : Collab where
  scanf_u := fun key =>
    if key = "ring-page-order" then some 32
    else if key = "ring-ref0" then some 10
    else if key = "event-channel" then some 3
    else none
  scanf_s := fun _ => none
  start_err := fun _ _ _ _ => none
  shift_overflow := fun order => 1 <<< (order % 32)

/-- A device whose property `max-ring-page-order` was set to 32. -/
def sample_dev_limit32 : XenBlockDevice :=
  { backend_state := XenbusStateClosed, max_ring_page_order := 32, trace := [] }

/-- Collaborators of realize for which attaching a fresh drive fails with
`-EBUSY` and every configuration helper succeeds, leaving the block sizes
alone. -/
def sample_realize_collab : RealizeCollab where
  attach_rc := -16
  apply_backend_options := fun _ => none
  geometry := none
  blocksizes := fun conf => conf

/-- Collaborators of realize for which `blk_attach_dev` succeeds. -/
def sample_realize_collab_ok : RealizeCollab where
  attach_rc := 0
  apply_backend_options := fun _ => none
  geometry := none
  blocksizes := fun conf => conf

/-- A CD-ROM device with the vdev of `xvda` and no drive configured. -/
def sample_cdrom_dev : XenBlockDev where
  cls := .cdrom
  vdev := { type := .XVD, disk := 0, partition := 0, number := 51712 }
  conf := { blk := none, logical_block_size := 512, physical_block_size := 512,
            discard_granularity := 0 }
  max_ring_page_order := 4
  info := 0
  device_type := none
  dataplane := false
  calls := []

/-- A disk device with the vdev of `xvda` and no drive configured. -/
def sample_disk_dev : XenBlockDev := { sample_cdrom_dev with cls := .disk }

/-- A disk device with the vdev of `xvda` whose drive holds a writable medium
and whose logical block size exceeds the physical one. -/
def sample_disk_dev_geometry : XenBlockDev :=
  { sample_cdrom_dev with
      cls := .disk
      conf := { blk := some { inserted := true, read_only := false, length := 1048576 },
                logical_block_size := 4096, physical_block_size := 512,
                discard_granularity := 0 } }

/-- A disk device whose vdev was never set. -/
def sample_disk_dev_unset : XenBlockDev :=
  { sample_disk_dev with vdev := { type := .INVALID, disk := 0, partition := 0, number := 0 } }

/-- The resources alive after a record of orchestrator calls: the block
nodes added and not yet deleted, the I/O contexts added and not yet deleted,
and whether a device object exists. -/
structure Live where
  nodes : List String
  iothreads : List String
  device : Bool
deriving DecidableEq, Repr

/-- Replay of one orchestrator call: an add that succeeds creates a resource,
a delete that succeeds destroys it, and a delete that reports an error leaves
it alive; unparenting the device object destroys it. -/
def spec_live_step (c : OrchCollab) (l : Live) : OrchEvent → Live
  | .blockdev_add o =>
    if c.blockdev_add o = none then { l with nodes := l.nodes ++ [o.node_name] } else l
  | .blockdev_del n =>
    if c.blockdev_del n = none then { l with nodes := l.nodes.filter (fun x => x != n) } else l
  | .object_add id =>
    if c.object_add id = none then { l with iothreads := l.iothreads ++ [id] } else l
  | .object_del id =>
    if c.object_del id = none then { l with iothreads := l.iothreads.filter (fun x => x != id) }
    else l
  | .qdev_create _ => { l with device := true }
  | .object_unparent => { l with device := false }
  | _ => l

/-- The resources alive after a record of orchestrator calls, starting from
none. -/
def spec_live (c : OrchCollab) (trace : List OrchEvent) : Live :=
  trace.foldl (spec_live_step c) { nodes := [], iothreads := [], device := false }

/-- The destroy calls of the unwinding of §4.3 for the resources alive: the
device is unparented, then the I/O contexts are deleted, then the drives. -/
def spec_rollback (l : Live) : List OrchEvent :=
  (if l.device then [OrchEvent.object_unparent] else []) ++
  l.iothreads.map OrchEvent.object_del ++ l.nodes.map OrchEvent.blockdev_del

/-- The call asks for the destruction of a resource. -/
def is_destroy : OrchEvent → Bool
  | .blockdev_del _ => true
  | .object_del _ => true
  | .object_unparent => true
  | _ => false

/-- A failed create-request has been unwound as far as its deletions went:
the device is not registered; the record of calls is a creation part, in
which nothing is destroyed, followed by the destroy calls of §4.3 for exactly
the resources alive after it; no device object is left, and a drive or an
I/O context still alive at the end is one whose deletion reported an
error. -/
def spec_unwound (c : OrchCollab) (r : CreateResult) : Prop :=
  r.registered = false ∧ OrchEvent.backend_set_device ∉ r.trace ∧
  (spec_live c r.trace).device = false ∧
  (∀ n ∈ (spec_live c r.trace).nodes, c.blockdev_del n ≠ none) ∧
  (∀ id ∈ (spec_live c r.trace).iothreads, c.object_del id ≠ none) ∧
  ∃ pre, r.trace = pre ++ spec_rollback (spec_live c pre) ∧ ∀ e ∈ pre, is_destroy e = false

/-- Orchestrator collaborators for which every command succeeds, and for
which a read past the end of the vector finds a null pointer. -/
def sample_orch : OrchCollab where
  visit_options := fun _ => none
  blockdev_add := fun _ => none
  blockdev_del := fun _ => none
  object_add := fun _ => none
  object_del := fun _ => none
  flag_set := fun _ => false
  set_drive := fun _ => none
  set_iothread := fun _ => none
  realize := none
  stray_params := (some "raw", none)

/-- Orchestrator collaborators for which deleting an I/O context fails. -/
def sample_orch_del_fails : OrchCollab :=
  { sample_orch with object_del := fun _ => some "object not found" }

/-- Orchestrator collaborators for which creating an I/O context fails. -/
def sample_orch_add_fails : OrchCollab :=
  { sample_orch with object_add := fun _ => some "duplicate ID" }

/-- Orchestrator collaborators for which creating an I/O context fails and
deleting a block node fails too. -/
def sample_orch_add_del_fail : OrchCollab :=
  { sample_orch_add_fails with blockdev_del := fun _ => some "node is in use" }

/-- A creation request with the given `dev`, for a disk on `raw:/img`. -/
def sample_opts (dev : String) : QDict := fun key =>
  if key = "dev" then some dev
  else if key = "device-type" then some "disk"
  else if key = "params" then some "raw:/img"
  else none

/-- A creation request for a disk whose `params` is the empty string. -/
def sample_opts_empty_params : QDict := fun key =>
  if key = "dev" then some "xvda"
  else if key = "device-type" then some "disk"
  else if key = "params" then some ""
  else none

/-- A realized disk device with the vdev of `xvda`. -/
def sample_realized_dev : XenBlockDev :=
  { sample_disk_dev_geometry with dataplane := true }

/-! # Theorems -/

/-! ## Lemmas on decimal formatting and parsing -/

theorem isdigit_digitChar (d : Nat) (h : d < 10) : isdigit (Nat.digitChar d) = true := by
  interval_cases d <;> decide

theorem digitChar_val (d : Nat) (h : d < 10) : (Nat.digitChar d).toNat - 48 = d := by
  interval_cases d <;> decide

theorem fmt_lu_ne_nil (n : Nat) : fmt_lu n ≠ [] := by
  rw [fmt_lu]; split <;> simp

theorem fmt_lu_all_digits (n : Nat) : ∀ c ∈ fmt_lu n, isdigit c = true := by
  induction n using Nat.strong_induction_on with
  | _ n ih =>
    rw [fmt_lu]
    split
    · intro c hc
      simp at hc
      subst hc
      exact isdigit_digitChar n (by assumption)
    · intro c hc
      simp at hc
      rcases hc with hc | hc
      · exact ih (n / 10) (by omega) c hc
      · subst hc
        exact isdigit_digitChar _ (by omega)

theorem foldl_fmt_lu (n : Nat) : (fmt_lu n).foldl digit_step 0 = n := by
  induction n using Nat.strong_induction_on with
  | _ n ih =>
    rw [fmt_lu]
    split
    · simp [digit_step, digitChar_val n (by assumption)]
    · rw [List.foldl_append, ih (n / 10) (by omega)]
      simp [digit_step, digitChar_val (n % 10) (by omega)]
      omega

theorem strtoul_digits_append (ds rest : List Char) (hds : ∀ c ∈ ds, isdigit c = true)
    (acc : Nat) :
    strtoul_digits (ds ++ rest) acc = strtoul_digits rest (ds.foldl digit_step acc) := by
  induction ds generalizing acc with
  | nil => rfl
  | cons c cs ih =>
    have hc : isdigit c = true := hds c (by simp)
    simp only [List.cons_append, strtoul_digits, hc, if_true, List.foldl_cons]
    exact ih (fun x hx => hds x (by simp [hx])) _

theorem strtoul_digits_stop (rest : List Char) (h : no_digit_head rest) (acc : Nat) :
    strtoul_digits rest acc = (acc, rest) := by
  cases rest with
  | nil => rfl
  | cons c cs =>
    have hc : isdigit c = false := h c (by simp)
    simp [strtoul_digits, hc]

theorem strtoul_digits_fmt_lu (n : Nat) (rest : List Char) (h : no_digit_head rest) :
    strtoul_digits (fmt_lu n ++ rest) 0 = (n, rest) := by
  rw [strtoul_digits_append _ _ (fmt_lu_all_digits n), foldl_fmt_lu, strtoul_digits_stop _ h]

theorem isdigit_not_space (c : Char) (h : isdigit c = true) : isspace c = false := by
  simp only [isdigit, isspace, Bool.and_eq_true, decide_eq_true_eq] at *
  simp only [Bool.or_eq_false_iff, Bool.and_eq_false_iff, decide_eq_false_iff_not]
  omega

theorem isdigit_not_sign (c : Char) (h : isdigit c = true) : c ≠ '-' ∧ c ≠ '+' := by
  constructor <;> (intro hc; subst hc; revert h; decide)

theorem qemu_strtoul_digit_head (c : Char) (cs : List Char) (h : isdigit c = true) :
    qemu_strtoul (c :: cs) =
      if (strtoul_digits (c :: cs) 0).1 > ULONG_MAX then
        { ret := -ERANGE, endp := (strtoul_digits (c :: cs) 0).2, result := ULONG_MAX }
      else { ret := 0, endp := (strtoul_digits (c :: cs) 0).2,
             result := (strtoul_digits (c :: cs) 0).1 } := by
  have h1 := isdigit_not_space c h
  have h2 := isdigit_not_sign c h
  simp [qemu_strtoul, skip_space, h1, h2.1, h2.2, h]

theorem qemu_strtoul_fmt_lu (n : Nat) (rest : List Char) (hn : n ≤ ULONG_MAX)
    (h : no_digit_head rest) :
    qemu_strtoul (fmt_lu n ++ rest) = { ret := 0, endp := rest, result := n } := by
  have hne := fmt_lu_ne_nil n
  have hall := fmt_lu_all_digits n
  have hp := strtoul_digits_fmt_lu n rest h
  cases hf : fmt_lu n with
  | nil => exact absurd hf hne
  | cons c cs =>
    rw [hf] at hall hp
    have hc : isdigit c = true := hall c (by simp)
    rw [List.cons_append] at hp ⊢
    rw [qemu_strtoul_digit_head c _ hc, hp]
    simp [Nat.not_lt.mpr hn]

/-! ## Lemmas on the letter code -/

theorem ofNat_letter_toNat (k : Nat) (h : k < 26) : (Char.ofNat (97 + k)).toNat = 97 + k := by
  interval_cases k <;> decide

theorem ofNat_letter_lower (k : Nat) (h : k < 26) :
    g_ascii_islower (Char.ofNat (97 + k)) = true := by
  simp [g_ascii_islower, ofNat_letter_toNat k h]; omega

theorem spec_letters_sum_append (l : List Char) (c : Char) :
    spec_letters_sum (l ++ [c]) = spec_letters_sum l * 26 + spec_letter_digit c := by
  induction l with
  | nil => simp [spec_letters_sum]
  | cons x xs ih =>
    have e : (x :: xs) ++ [c] = x :: (xs ++ [c]) := rfl
    rw [e, spec_letters_sum, spec_letters_sum, ih, List.length_append, List.length_singleton,
      pow_succ]
    ring

theorem disk_to_vbd_name_ne_nil (d : Nat) : disk_to_vbd_name d ≠ [] := by
  rw [disk_to_vbd_name]; split <;> simp

theorem disk_to_vbd_name_lower (d : Nat) : ∀ c ∈ disk_to_vbd_name d, g_ascii_islower c = true := by
  induction d using Nat.strong_induction_on with
  | _ d ih =>
    rw [disk_to_vbd_name]
    split
    · intro c hc
      simp at hc
      rcases hc with hc | hc
      · exact ih (d / 26 - 1) (by omega) c hc
      · subst hc; exact ofNat_letter_lower _ (Nat.mod_lt _ (by decide))
    · intro c hc
      simp at hc
      subst hc; exact ofNat_letter_lower _ (Nat.mod_lt _ (by decide))

theorem spec_letters_sum_disk_to_vbd_name (d : Nat) :
    spec_letters_sum (disk_to_vbd_name d) = d + 1 := by
  induction d using Nat.strong_induction_on with
  | _ d ih =>
    have hm : d % 26 < 26 := Nat.mod_lt _ (by decide)
    rw [disk_to_vbd_name]
    split
    · rw [spec_letters_sum_append, ih (d / 26 - 1) (by omega)]
      simp only [spec_letter_digit, ofNat_letter_toNat _ hm]
      omega
    · simp only [spec_letters_sum, spec_letter_digit, ofNat_letter_toNat _ hm]
      simp
      omega

theorem wrap_step (acc d k s : Nat) :
    (((acc * 26 % UINT_RANGE + d) % UINT_RANGE) * 26 ^ k + s) % UINT_RANGE =
      (acc * 26 ^ (k + 1) + (d * 26 ^ k + s)) % UINT_RANGE := by
  have e : acc * 26 ^ (k + 1) + (d * 26 ^ k + s) = (acc * 26 + d) * 26 ^ k + s := by
    rw [pow_succ]; ring
  rw [e]
  conv_lhs => rw [Nat.add_mod, Nat.mul_mod, Nat.mod_mod, Nat.add_mod (acc * 26 % UINT_RANGE) d,
    Nat.mod_mod, ← Nat.add_mod (acc * 26) d, ← Nat.mul_mod, ← Nat.add_mod]

theorem vbd_name_to_disk_loop_append (ls rest : List Char)
    (hls : ∀ c ∈ ls, g_ascii_islower c = true) (hrest : no_lower_head rest) (acc : Nat) :
    vbd_name_to_disk_loop (ls ++ rest) acc =
      (if ls = [] then acc else (acc * 26 ^ ls.length + spec_letters_sum ls) % UINT_RANGE, rest) := by
  induction ls generalizing acc with
  | nil =>
    cases rest with
    | nil => rfl
    | cons c cs =>
      have hc : g_ascii_islower c = false := hrest c (by simp)
      simp [vbd_name_to_disk_loop, hc]
  | cons c cs ih =>
    have hc : g_ascii_islower c = true := hls c (by simp)
    have hcs : ∀ x ∈ cs, g_ascii_islower x = true := fun x hx => hls x (by simp [hx])
    have h97 : 97 ≤ c.toNat := by
      simp [g_ascii_islower] at hc; omega
    have e : (c :: cs) ++ rest = c :: (cs ++ rest) := rfl
    have e1 : c.toNat - 97 + 1 = c.toNat - 96 := by omega
    rw [e, vbd_name_to_disk_loop, ih hcs, e1]
    simp only [hc, Bool.not_true, Bool.false_eq_true, if_false, reduceCtorEq, List.length_cons,
      spec_letters_sum, spec_letter_digit]
    congr 1
    by_cases hnil : cs = []
    · subst hnil
      simp [spec_letters_sum, Nat.add_mod]
    · simp only [hnil, if_false]
      exact wrap_step acc (c.toNat - 96) cs.length (spec_letters_sum cs)

theorem wrap_pred (d : Nat) (hd : d + 1 < UINT_RANGE) :
    ((d + 1) % UINT_RANGE + UINT_RANGE - 1) % UINT_RANGE = d := by
  rw [Nat.mod_eq_of_lt hd]
  have : d + 1 + UINT_RANGE - 1 = d + UINT_RANGE := by omega
  rw [this, Nat.add_mod_right, Nat.mod_eq_of_lt (by omega)]

theorem vbd_name_to_disk_name (d : Nat) (rest : List Char) (hd : d + 1 < UINT_RANGE)
    (hrest : no_lower_head rest) :
    vbd_name_to_disk (disk_to_vbd_name d ++ rest) = (d, rest) := by
  unfold vbd_name_to_disk
  rw [vbd_name_to_disk_loop_append _ _ (disk_to_vbd_name_lower d) hrest,
    if_neg (disk_to_vbd_name_ne_nil d), spec_letters_sum_disk_to_vbd_name, Nat.zero_mul,
    Nat.zero_add]
  show (((d + 1) % UINT_RANGE + UINT_RANGE - 1) % UINT_RANGE, rest) = (d, rest)
  rw [wrap_pred d hd]

/-! ## Lemmas on `xen_block_set_vdev` -/

theorem set_vdev_number_spec (vdev : XenBlockVdev) :
    set_vdev_number vdev = spec_number_outcome vdev := by
  obtain ⟨k, d, p, n⟩ := vdev
  cases k <;>
    simp only [set_vdev_number, spec_number_outcome, spec_packed_number, set_vdev_invalid,
      Nat.reduceShiftLeft, Nat.reducePow] <;>
    split_ifs <;> rfl

theorem fmt_lu_no_lower_head (n : Nat) (rest : List Char) : no_lower_head (fmt_lu n ++ rest) := by
  have hne := fmt_lu_ne_nil n
  have hall := fmt_lu_all_digits n
  cases hf : fmt_lu n with
  | nil => exact absurd hf hne
  | cons c cs =>
    rw [hf] at hall
    have hc : isdigit c = true := hall c (by simp)
    intro x hx
    simp at hx
    subst hx
    simp only [isdigit, g_ascii_islower, Bool.and_eq_true, decide_eq_true_eq,
      Bool.and_eq_false_iff, decide_eq_false_iff_not] at *
    omega

theorem no_digit_head_nil : no_digit_head [] := by
  intro c hc; simp at hc

theorem no_digit_head_p (e : List Char) : no_digit_head ('p' :: e) := by
  intro c hc
  simp at hc
  subst hc
  decide

theorem set_vdev_partition_fmt_lu (vdev : XenBlockVdev) (p : Nat) (hp : p ≤ ULONG_MAX) :
    set_vdev_partition vdev (fmt_lu p) = set_vdev_number { vdev with partition := p } := by
  have h := qemu_strtoul_fmt_lu p [] hp no_digit_head_nil
  rw [List.append_nil] at h
  simp [set_vdev_partition, fmt_lu_ne_nil, h]

theorem set_vdev_disk_letters (vdev : XenBlockVdev) (d p : Nat) (hk : vdev.type ≠ .DP)
    (hd : d + 1 < UINT_RANGE) (hp : p ≤ ULONG_MAX) :
    set_vdev_disk vdev (disk_to_vbd_name d ++ fmt_lu p) =
      set_vdev_number { vdev with disk := d, partition := p } := by
  have h := vbd_name_to_disk_name d (fmt_lu p) hd (by
    have := fmt_lu_no_lower_head p []
    rwa [List.append_nil] at this)
  simp only [set_vdev_disk, hk, if_false, h]
  exact set_vdev_partition_fmt_lu _ p hp

theorem set_vdev_disk_explicit (vdev : XenBlockVdev) (d p : Nat) (hk : vdev.type = .DP)
    (hd : d ≤ ULONG_MAX) (hp : p ≤ ULONG_MAX) :
    set_vdev_disk vdev (fmt_lu d ++ 'p' :: fmt_lu p) =
      set_vdev_number { vdev with disk := d, partition := p } := by
  have h := qemu_strtoul_fmt_lu d ('p' :: fmt_lu p) hd (no_digit_head_p _)
  simp only [set_vdev_disk, hk, if_true, h]
  simp only [ne_eq, not_true_eq_false, if_false, fmt_lu_ne_nil, List.head?_cons, List.tail_cons,
    if_true]
  exact set_vdev_partition_fmt_lu _ p hp

/-- Decoding the string `xen_block_get_vdev` produces reaches the final
`switch` with the kind, disk and partition that were encoded. -/
theorem set_vdev_get_vdev (v0 v : XenBlockVdev) (s : List Char)
    (hp : v.partition ≤ ULONG_MAX)
    (hd : v.type = .DP → v.disk ≤ ULONG_MAX)
    (hl : v.type ≠ .DP → v.disk + 1 < UINT_RANGE)
    (hs : xen_block_get_vdev v = .ok s) :
    xen_block_set_vdev false v0 (.ok s) =
      set_vdev_number { type := v.type, disk := v.disk, partition := v.partition,
                        number := v0.number } := by
  obtain ⟨k, d, p, n⟩ := v
  obtain ⟨k0, d0, p0, n0⟩ := v0
  simp only at hp hd hl
  cases k
  · simp [xen_block_get_vdev] at hs
  · simp only [xen_block_get_vdev, Except.ok.injEq] at hs
    have e : ['d'] ++ fmt_lu d ++ ['p'] ++ fmt_lu p = 'd' :: (fmt_lu d ++ 'p' :: fmt_lu p) := by
      simp
    rw [e] at hs
    subst hs
    simp only [xen_block_set_vdev, Bool.false_eq_true, if_false, strchr, if_true, List.tail_cons]
    exact set_vdev_disk_explicit ⟨.DP, d0, p0, n0⟩ d p rfl (hd rfl) hp
  · simp only [xen_block_get_vdev, Except.ok.injEq, reduceCtorEq, if_true, if_false] at hs
    have hm : d % UINT_RANGE = d := Nat.mod_eq_of_lt (by
      have := hl (by simp); omega)
    have e : "xvd".toList ++ disk_to_vbd_name d ++ fmt_lu p =
        'x' :: 'v' :: 'd' :: (disk_to_vbd_name d ++ fmt_lu p) := by simp
    rw [hm, e] at hs
    subst hs
    simp only [xen_block_set_vdev, Bool.false_eq_true, if_false, strchr]
    simp
    exact set_vdev_disk_letters ⟨.XVD, d0, p0, n0⟩ d p (by simp) (hl (by simp)) hp
  · simp only [xen_block_get_vdev, Except.ok.injEq, reduceCtorEq, if_true, if_false] at hs
    have hm : d % UINT_RANGE = d := Nat.mod_eq_of_lt (by
      have := hl (by simp); omega)
    have e : "hd".toList ++ disk_to_vbd_name d ++ fmt_lu p =
        'h' :: 'd' :: (disk_to_vbd_name d ++ fmt_lu p) := by simp
    rw [hm, e] at hs
    subst hs
    simp only [xen_block_set_vdev, Bool.false_eq_true, if_false, strchr]
    simp
    exact set_vdev_disk_letters ⟨.HD, d0, p0, n0⟩ d p (by simp) (hl (by simp)) hp
  · simp only [xen_block_get_vdev, Except.ok.injEq, reduceCtorEq, if_true, if_false] at hs
    have hm : d % UINT_RANGE = d := Nat.mod_eq_of_lt (by
      have := hl (by simp); omega)
    have e : "sd".toList ++ disk_to_vbd_name d ++ fmt_lu p =
        's' :: 'd' :: (disk_to_vbd_name d ++ fmt_lu p) := by simp
    rw [hm, e] at hs
    subst hs
    simp only [xen_block_set_vdev, Bool.false_eq_true, if_false, strchr]
    simp
    exact set_vdev_disk_letters ⟨.SD, d0, p0, n0⟩ d p (by simp) (hl (by simp)) hp

theorem spec_packed_number_bounds (k : XenBlockVdevType) (d p n : Nat)
    (h : spec_packed_number k d p = some n) :
    k ≠ .INVALID ∧ d < 2 ^ 20 ∧ p < 256 := by
  cases k <;> simp only [spec_packed_number, reduceCtorEq] at h
  all_goals
    split_ifs at h <;> (refine ⟨by simp, ?_, ?_⟩ <;> omega)

/-- Every outcome of `xen_block_set_vdev` on an unrealized device is produced
either by the label `invalid:` or by the final `switch`. -/
theorem set_vdev_cases (v0 : XenBlockVdev) (s : List Char) :
    (∃ v, xen_block_set_vdev false v0 (.ok s) = set_vdev_invalid v) ∨
    (∃ v, xen_block_set_vdev false v0 (.ok s) = set_vdev_number v) := by
  have hpart : ∀ (v : XenBlockVdev) (e : List Char),
      (∃ w, set_vdev_partition v e = set_vdev_invalid w) ∨
      (∃ w, set_vdev_partition v e = set_vdev_number w) := by
    intro v e
    unfold set_vdev_partition
    dsimp only
    split_ifs
    · exact Or.inl ⟨_, rfl⟩
    · exact Or.inl ⟨_, rfl⟩
    · exact Or.inr ⟨_, rfl⟩
    · exact Or.inr ⟨_, rfl⟩
  have hdisk : ∀ (v : XenBlockVdev) (p : List Char),
      (∃ w, set_vdev_disk v p = set_vdev_invalid w) ∨
      (∃ w, set_vdev_disk v p = set_vdev_number w) := by
    intro v p
    unfold set_vdev_disk
    dsimp only
    split_ifs
    · exact Or.inl ⟨_, rfl⟩
    · exact Or.inl ⟨_, rfl⟩
    · exact hpart _ _
    · exact hpart _ _
    · exact hpart _ _
  unfold xen_block_set_vdev
  simp only [Bool.false_eq_true, if_false]
  split
  · exact Or.inl ⟨_, rfl⟩
  · split_ifs
    · exact hdisk _ _
    · exact hdisk _ _
    · exact hdisk _ _
    · exact hdisk _ _
    · exact Or.inl ⟨_, rfl⟩

theorem set_vdev_invalid_err (v : XenBlockVdev) :
    (set_vdev_invalid v).2 = some "invalid virtual disk specifier" ∧
    (set_vdev_invalid v).1.type = .INVALID := ⟨rfl, rfl⟩

theorem spec_number_outcome_ok (v : XenBlockVdev) (h : (spec_number_outcome v).2 = none) :
    spec_packed_number (spec_number_outcome v).1.type (spec_number_outcome v).1.disk
      (spec_number_outcome v).1.partition = some (spec_number_outcome v).1.number := by
  unfold spec_number_outcome at h ⊢
  cases hs : spec_packed_number v.type v.disk v.partition with
  | none => rw [hs] at h; simp at h
  | some n => simp [hs]

/-- Whenever `xen_block_set_vdev` reports no error, the stored number is the
table value of the stored kind, disk and partition. -/
theorem packed_number_row (v0 : XenBlockVdev) (s : List Char)
    (h : (xen_block_set_vdev false v0 (.ok s)).2 = none) :
    spec_packed_number (xen_block_set_vdev false v0 (.ok s)).1.type
      (xen_block_set_vdev false v0 (.ok s)).1.disk
      (xen_block_set_vdev false v0 (.ok s)).1.partition =
      some (xen_block_set_vdev false v0 (.ok s)).1.number := by
  rcases set_vdev_cases v0 s with ⟨v, hv⟩ | ⟨v, hv⟩
  · rw [hv] at h; simp [set_vdev_invalid] at h
  · rw [hv, set_vdev_number_spec] at h ⊢
    exact spec_number_outcome_ok v h

/-- C1. Codec round trip: for a kind, disk and partition that satisfy a row of
the packed-number table (with value `n`), `xen_block_get_vdev` produces a
string, and `xen_block_set_vdev` on an unrealized device decodes that string
without error to the same kind, disk and partition with packed number `n`,
whatever the vdev held before. -/
theorem codec_round_trip (v0 : XenBlockVdev) (k : XenBlockVdevType) (d p n0 n : Nat)
    (hrow : spec_packed_number k d p = some n) :
    ∃ s, xen_block_get_vdev { type := k, disk := d, partition := p, number := n0 } = .ok s ∧
      xen_block_set_vdev false v0 (.ok s) =
        ({ type := k, disk := d, partition := p, number := n }, none) := by
  obtain ⟨hk, hd, hp⟩ := spec_packed_number_bounds k d p n hrow
  have hU : (2 : Nat) ^ 20 < UINT_RANGE := by decide
  have hL : (256 : Nat) ≤ ULONG_MAX := by decide
  have hUL : UINT_RANGE ≤ ULONG_MAX := by decide
  have hget : ∃ s, xen_block_get_vdev { type := k, disk := d, partition := p, number := n0 }
      = .ok s := by
    cases k
    · exact absurd rfl hk
    all_goals exact ⟨_, rfl⟩
  obtain ⟨s, hs⟩ := hget
  refine ⟨s, hs, ?_⟩
  rw [set_vdev_get_vdev v0 _ s (by simp only; omega) (by intro _; simp only; omega)
    (by intro _; simp only; omega) hs, set_vdev_number_spec]
  simp only [spec_number_outcome, hrow]

/-- Witness for C1: the XVD row `disk = 26, partition = 1`, i.e. `xvdaa1`. -/
theorem codec_round_trip_witness :
    spec_packed_number .XVD 26 1 = some 268442113 ∧
    ∃ s, xen_block_get_vdev { type := .XVD, disk := 26, partition := 1, number := 0 } = .ok s ∧
      xen_block_set_vdev false { type := .INVALID, disk := 7, partition := 9, number := 11 }
        (.ok s) = ({ type := .XVD, disk := 26, partition := 1, number := 268442113 }, none) :=
  ⟨by decide, codec_round_trip _ .XVD 26 1 0 268442113 (by decide)⟩

/-- C2. Packed number table: the final `switch` of `xen_block_set_vdev` maps
every parsed (kind, disk, partition) to the outcome of the table of §4.1
(number of the first matching row, otherwise kind Invalid with the
invalid-specifier error); whenever `xen_block_set_vdev` reports no error the
stored number is the table value of the stored kind, disk and partition; and
explicit `disk = 16, partition = 0` gets `(1<<28)|(16<<8)` while
`disk = 1<<20` is Invalid. -/
theorem packed_number_table :
    (∀ v : XenBlockVdev, set_vdev_number v = spec_number_outcome v) ∧
    (∀ (v0 : XenBlockVdev) (s : List Char),
      (xen_block_set_vdev false v0 (.ok s)).2 = none →
      spec_packed_number (xen_block_set_vdev false v0 (.ok s)).1.type
        (xen_block_set_vdev false v0 (.ok s)).1.disk
        (xen_block_set_vdev false v0 (.ok s)).1.partition =
        some (xen_block_set_vdev false v0 (.ok s)).1.number) ∧
    (∀ v0 : XenBlockVdev, xen_block_set_vdev false v0 (.ok "d16".toList) =
      ({ type := .DP, disk := 16, partition := 0, number := (1 <<< 28) ||| (16 <<< 8) }, none)) ∧
    (∀ v0 : XenBlockVdev, xen_block_set_vdev false v0 (.ok "d1048576".toList) =
      ({ type := .INVALID, disk := 1 <<< 20, partition := 0, number := v0.number },
        some "invalid virtual disk specifier")) := by
  refine ⟨set_vdev_number_spec, ?_, ?_, ?_⟩
  · exact packed_number_row
  · intro v0
    simp [xen_block_set_vdev, strchr, set_vdev_disk, qemu_strtoul, skip_space, isspace, isdigit,
      strtoul_digits, set_vdev_partition, set_vdev_number, ULONG_MAX]
  · intro v0
    simp [xen_block_set_vdev, strchr, set_vdev_disk, qemu_strtoul, skip_space, isspace, isdigit,
      strtoul_digits, set_vdev_partition, set_vdev_number, set_vdev_invalid, ULONG_MAX]

/-- Witness for C2: `hdc5` is accepted and stores the number of the second
HD row. -/
theorem packed_number_table_witness :
    (xen_block_set_vdev false { type := .INVALID, disk := 0, partition := 0, number := 0 }
      (.ok "hdc5".toList)).2 = none ∧
    spec_packed_number .HD 2 5 = some ((22 <<< 8) ||| ((2 - 2) <<< 6) ||| 5) ∧
    spec_packed_number
      (xen_block_set_vdev false { type := .INVALID, disk := 0, partition := 0, number := 0 }
        (.ok "hdc5".toList)).1.type
      (xen_block_set_vdev false { type := .INVALID, disk := 0, partition := 0, number := 0 }
        (.ok "hdc5".toList)).1.disk
      (xen_block_set_vdev false { type := .INVALID, disk := 0, partition := 0, number := 0 }
        (.ok "hdc5".toList)).1.partition =
      some (xen_block_set_vdev false { type := .INVALID, disk := 0, partition := 0, number := 0 }
        (.ok "hdc5".toList)).1.number :=
  ⟨by decide, by decide,
    packed_number_table.2.1 { type := .INVALID, disk := 0, partition := 0, number := 0 }
      "hdc5".toList (by decide)⟩

/-- The value `vbd_name_to_disk` returns on a run of lowercase letters: the
sum of §4.1 reduced modulo 2^32, minus one modulo 2^32. -/
theorem vbd_name_to_disk_letters (ls rest : List Char) (hne : ls ≠ [])
    (hls : ∀ c ∈ ls, g_ascii_islower c = true) (hrest : no_lower_head rest) :
    vbd_name_to_disk (ls ++ rest) =
      ((spec_letters_sum ls % UINT_RANGE + UINT_RANGE - 1) % UINT_RANGE, rest) := by
  unfold vbd_name_to_disk
  rw [vbd_name_to_disk_loop_append ls rest hls hrest, if_neg hne, Nat.zero_mul, Nat.zero_add]

/-- C3. Letter decoding formula, at the failing input: the seven-letter run
`mwlqkww` denotes disk 2^32 by the formula of §4.1, but `vbd_name_to_disk`
computes in `unsigned int`, wraps, and returns disk 0 with the end pointer
past the run; `xen_block_set_vdev` then accepts `xvdmwlqkww` with exactly the
result of `xvda`. -/
theorem vbd_name_to_disk_wraps :
    spec_letters_to_disk "mwlqkww".toList = 2 ^ 32 ∧
    vbd_name_to_disk "mwlqkww".toList = (0, []) ∧
    xen_block_set_vdev false { type := .INVALID, disk := 0, partition := 0, number := 0 }
      (.ok "xvdmwlqkww".toList) =
      ({ type := .XVD, disk := 0, partition := 0, number := 51712 }, none) ∧
    xen_block_set_vdev false { type := .INVALID, disk := 0, partition := 0, number := 0 }
      (.ok "xvda".toList) =
      ({ type := .XVD, disk := 0, partition := 0, number := 51712 }, none) := by
  refine ⟨by decide, by decide, by decide, by decide⟩

/-- C4. Letter encoding: `disk_to_vbd_name` is defined for every disk value
(the recursion on `disk / 26 - 1` is well founded), satisfies the recursion
of the source, returns a non-empty run of lowercase letters whose positional
value by the formula of §4.1 is the disk, and maps 0, 25, 26, 51, 52 to `a`,
`z`, `aa`, `az`, `ba`. -/
theorem disk_to_vbd_name_inverse :
    (∀ d : Nat, disk_to_vbd_name d ≠ [] ∧
      (∀ c ∈ disk_to_vbd_name d, g_ascii_islower c = true) ∧
      spec_letters_to_disk (disk_to_vbd_name d) = d) ∧
    (∀ d : Nat, disk_to_vbd_name d =
      (if d ≥ 26 then disk_to_vbd_name (d / 26 - 1) else []) ++ [Char.ofNat (97 + d % 26)]) ∧
    disk_to_vbd_name 0 = "a".toList ∧
    disk_to_vbd_name 25 = "z".toList ∧
    disk_to_vbd_name 26 = "aa".toList ∧
    disk_to_vbd_name 51 = "az".toList ∧
    disk_to_vbd_name 52 = "ba".toList := by
  refine ⟨fun d => ⟨disk_to_vbd_name_ne_nil d, disk_to_vbd_name_lower d, ?_⟩, ?_, ?_, ?_, ?_,
    ?_, ?_⟩
  · simp [spec_letters_to_disk, spec_letters_sum_disk_to_vbd_name]
  · intro d
    rw [disk_to_vbd_name]
    split <;> simp
  all_goals simp [disk_to_vbd_name]

/-! ## Prefix selection -/

theorem strchr_eq (s : List Char) (c : Char) :
    strchr s c =
      if c ∈ s then some (s.takeWhile (fun x => x != c), s.dropWhile (fun x => x != c))
      else none := by
  induction s with
  | nil => simp [strchr]
  | cons x xs ih =>
    by_cases hx : x = c
    · subst hx
      simp [strchr, List.takeWhile, List.dropWhile]
    · have hx2 : ¬ c = x := fun h => hx h.symm
      simp only [strchr, hx, if_false, ih, List.mem_cons, hx2, false_or]
      have hb : (x != c) = true := by simp [hx]
      by_cases hm : c ∈ xs
      · simp [hm, List.takeWhile, List.dropWhile, hb]
      · simp [hm]

theorem set_vdev_number_fields (v : XenBlockVdev) :
    (set_vdev_number v).1.disk = v.disk ∧ (set_vdev_number v).1.partition = v.partition ∧
    ((set_vdev_number v).2 = none → (set_vdev_number v).1.type = v.type) ∧
    ((set_vdev_number v).2 ≠ none →
      (set_vdev_number v).2 = some "invalid virtual disk specifier" ∧
      (set_vdev_number v).1.type = .INVALID ∧ (set_vdev_number v).1.number = v.number) := by
  obtain ⟨k, d, p, n⟩ := v
  cases k <;> simp only [set_vdev_number, set_vdev_invalid] <;> (try split_ifs) <;> simp

theorem set_vdev_partition_type (v : XenBlockVdev) (e : List Char)
    (h : (set_vdev_partition v e).2 = none) :
    (set_vdev_partition v e).1.type = v.type ∧ (set_vdev_partition v e).1.disk = v.disk := by
  unfold set_vdev_partition at h ⊢
  dsimp only at h ⊢
  split_ifs at h ⊢
  · simp [set_vdev_invalid] at h
  · simp [set_vdev_invalid] at h
  · exact ⟨(set_vdev_number_fields _).2.2.1 h, (set_vdev_number_fields _).1⟩
  · exact ⟨(set_vdev_number_fields _).2.2.1 h, (set_vdev_number_fields _).1⟩

theorem set_vdev_disk_type (v : XenBlockVdev) (p : List Char)
    (h : (set_vdev_disk v p).2 = none) : (set_vdev_disk v p).1.type = v.type := by
  unfold set_vdev_disk at h ⊢
  dsimp only at h ⊢
  split_ifs at h ⊢
  · simp [set_vdev_invalid] at h
  · simp [set_vdev_invalid] at h
  · exact (set_vdev_partition_type _ _ h).1
  · exact (set_vdev_partition_type _ _ h).1
  · exact (set_vdev_partition_type _ _ h).1

/-- The body of `xen_block_set_vdev` on an unrealized device, in terms of the
text before the first `d` and the text after it. -/
theorem set_vdev_unfold (v0 : XenBlockVdev) (s : List Char) :
    xen_block_set_vdev false v0 (.ok s) =
      if 'd' ∈ s then
        if s.takeWhile (fun x => x != 'd') = [] then
          set_vdev_disk { v0 with type := .DP } (s.dropWhile (fun x => x != 'd')).tail
        else if s.takeWhile (fun x => x != 'd') = "xv".toList then
          set_vdev_disk { v0 with type := .XVD } (s.dropWhile (fun x => x != 'd')).tail
        else if s.takeWhile (fun x => x != 'd') = "h".toList then
          set_vdev_disk { v0 with type := .HD } (s.dropWhile (fun x => x != 'd')).tail
        else if s.takeWhile (fun x => x != 'd') = "s".toList then
          set_vdev_disk { v0 with type := .SD } (s.dropWhile (fun x => x != 'd')).tail
        else set_vdev_invalid v0
      else set_vdev_invalid v0 := by
  unfold xen_block_set_vdev
  simp only [Bool.false_eq_true, if_false, strchr_eq]
  by_cases hm : 'd' ∈ s
  · simp only [hm, if_true]
  · simp only [hm, if_false]

/-- A specifier that starts with one of the four prefixes followed by `d` is
decoded with the kind of that prefix. -/
theorem unknown_prefix_selects (v0 : XenBlockVdev) (p : List Char) :
    xen_block_set_vdev false v0 (.ok ("d".toList ++ p)) =
      set_vdev_disk { v0 with type := .DP } p ∧
    xen_block_set_vdev false v0 (.ok ("xvd".toList ++ p)) =
      set_vdev_disk { v0 with type := .XVD } p ∧
    xen_block_set_vdev false v0 (.ok ("hd".toList ++ p)) =
      set_vdev_disk { v0 with type := .HD } p ∧
    xen_block_set_vdev false v0 (.ok ("sd".toList ++ p)) =
      set_vdev_disk { v0 with type := .SD } p := by
  simp [xen_block_set_vdev, strchr]

/-- C5. Unknown prefix is rejected: a specifier with no `d`, or whose text
before the first `d` is not one of the empty string, `xv`, `h`, `s` (such as
`zzd5`), makes `xen_block_set_vdev` report the invalid-specifier error and
leave kind Invalid, the other fields untouched; a specifier made of one of
the four prefixes, `d` and a rest is decoded with the kind set to DP, XVD,
HD and SD respectively, and an accepted specifier stores the kind of its
prefix. -/
theorem unknown_prefix_rejected :
    (∀ (v0 : XenBlockVdev) (s : List Char),
      ('d' ∉ s ∨ s.takeWhile (fun x => x != 'd') ∉
          [[], "xv".toList, "h".toList, "s".toList]) →
      xen_block_set_vdev false v0 (.ok s) =
        ({ v0 with type := .INVALID }, some "invalid virtual disk specifier")) ∧
    (∀ v0 : XenBlockVdev, xen_block_set_vdev false v0 (.ok "zzd5".toList) =
        ({ v0 with type := .INVALID }, some "invalid virtual disk specifier")) ∧
    (∀ (v0 : XenBlockVdev) (p : List Char),
      xen_block_set_vdev false v0 (.ok ("d".toList ++ p)) =
        set_vdev_disk { v0 with type := .DP } p ∧
      xen_block_set_vdev false v0 (.ok ("xvd".toList ++ p)) =
        set_vdev_disk { v0 with type := .XVD } p ∧
      xen_block_set_vdev false v0 (.ok ("hd".toList ++ p)) =
        set_vdev_disk { v0 with type := .HD } p ∧
      xen_block_set_vdev false v0 (.ok ("sd".toList ++ p)) =
        set_vdev_disk { v0 with type := .SD } p) ∧
    (∀ (v0 : XenBlockVdev) (s : List Char),
      (xen_block_set_vdev false v0 (.ok s)).2 = none →
      (s.takeWhile (fun x => x != 'd') = [] ∧
        (xen_block_set_vdev false v0 (.ok s)).1.type = .DP) ∨
      (s.takeWhile (fun x => x != 'd') = "xv".toList ∧
        (xen_block_set_vdev false v0 (.ok s)).1.type = .XVD) ∨
      (s.takeWhile (fun x => x != 'd') = "h".toList ∧
        (xen_block_set_vdev false v0 (.ok s)).1.type = .HD) ∨
      (s.takeWhile (fun x => x != 'd') = "s".toList ∧
        (xen_block_set_vdev false v0 (.ok s)).1.type = .SD)) := by
  refine ⟨?_, ?_, ?_, ?_⟩
  · intro v0 s h
    rw [set_vdev_unfold]
    rcases h with h | h
    · simp only [h, if_false]; rfl
    · simp only [List.mem_cons, List.mem_singleton, List.not_mem_nil, or_false, not_or] at h
      simp only [h.1, h.2.1, h.2.2.1, h.2.2.2, if_false, ite_self]
      rfl
  · intro v0
    simp [xen_block_set_vdev, strchr, set_vdev_invalid]
  · intro v0 p
    exact unknown_prefix_selects v0 p
  · intro v0 s h
    rw [set_vdev_unfold] at h ⊢
    split_ifs at h ⊢ with h1 h2 h3 h4 h5
    · exact Or.inl ⟨h2, set_vdev_disk_type _ _ h⟩
    · exact Or.inr (Or.inl ⟨h3, set_vdev_disk_type _ _ h⟩)
    · exact Or.inr (Or.inr (Or.inl ⟨h4, set_vdev_disk_type _ _ h⟩))
    · exact Or.inr (Or.inr (Or.inr ⟨h5, set_vdev_disk_type _ _ h⟩))
    · simp [set_vdev_invalid] at h
    · simp [set_vdev_invalid] at h

/-- Witness for C5: `xzd1` has a `d` after the unknown prefix `xz`. -/
theorem unknown_prefix_rejected_witness :
    ('d' ∉ "xzd1".toList ∨ "xzd1".toList.takeWhile (fun x => x != 'd') ∉
        [[], "xv".toList, "h".toList, "s".toList]) ∧
    xen_block_set_vdev false { type := .SD, disk := 1, partition := 2, number := 2066 }
      (.ok "xzd1".toList) =
      ({ type := .INVALID, disk := 1, partition := 2, number := 2066 },
        some "invalid virtual disk specifier") :=
  ⟨by decide, unknown_prefix_rejected.1 _ _ (by decide)⟩

/-! ## Missing disk component -/

theorem set_vdev_number_big (v : XenBlockVdev) (h : 2 ^ 20 ≤ v.disk) :
    set_vdev_number v = set_vdev_invalid v := by
  obtain ⟨k, d, p, n⟩ := v
  simp only at h
  cases k <;> simp only [set_vdev_number, Nat.reduceShiftLeft] <;>
    (try split_ifs) <;> first | rfl | omega

theorem set_vdev_partition_big (v : XenBlockVdev) (e : List Char) (h : 2 ^ 20 ≤ v.disk) :
    (set_vdev_partition v e).2 = some "invalid virtual disk specifier" ∧
    (set_vdev_partition v e).1.type = .INVALID := by
  unfold set_vdev_partition
  dsimp only
  split_ifs
  · exact ⟨rfl, rfl⟩
  · exact ⟨rfl, rfl⟩
  · rw [set_vdev_number_big _ (by simpa using h)]; exact ⟨rfl, rfl⟩
  · rw [set_vdev_number_big _ (by simpa using h)]; exact ⟨rfl, rfl⟩

theorem vbd_name_to_disk_no_letter (rest : List Char) (h : no_lower_head rest) :
    vbd_name_to_disk rest = (UINT_RANGE - 1, rest) := by
  have := vbd_name_to_disk_loop_append [] rest (by simp) h 0
  simp only [List.nil_append, if_true] at this
  have e : (0 + UINT_RANGE - 1) % UINT_RANGE = UINT_RANGE - 1 := by decide
  unfold vbd_name_to_disk
  rw [this]
  dsimp only
  rw [e]

theorem set_vdev_disk_no_letter (v : XenBlockVdev) (rest : List Char) (hk : v.type ≠ .DP)
    (h : no_lower_head rest) :
    (set_vdev_disk v rest).2 = some "invalid virtual disk specifier" ∧
    (set_vdev_disk v rest).1.type = .INVALID := by
  unfold set_vdev_disk
  simp only [hk, if_false, vbd_name_to_disk_no_letter rest h]
  exact set_vdev_partition_big _ _ (by simp only; decide)

theorem set_vdev_disk_dangling (v : XenBlockVdev) (ds : List Char) (hk : v.type = .DP)
    (hds : ∀ c ∈ ds, isdigit c = true) :
    (set_vdev_disk v (ds ++ ['p'])).2 = some "invalid virtual disk specifier" ∧
    (set_vdev_disk v (ds ++ ['p'])).1.type = .INVALID := by
  unfold set_vdev_disk
  simp only [hk, if_true]
  cases ds with
  | nil =>
    have h : qemu_strtoul ([] ++ ['p']) = { ret := -EINVAL, endp := ['p'], result := 0 } := by
      decide
    have hne : (-EINVAL : Int) ≠ 0 := by decide
    rw [h]
    simp only [ne_eq, hne, not_false_eq_true, if_true]
    exact set_vdev_invalid_err _
  | cons c cs =>
    have hc : isdigit c = true := hds c (by simp)
    have e : (c :: cs) ++ ['p'] = c :: (cs ++ ['p']) := rfl
    have hsd : strtoul_digits (c :: (cs ++ ['p'])) 0 =
        ((c :: cs).foldl digit_step 0, ['p']) := by
      rw [← e, strtoul_digits_append _ _ hds, strtoul_digits_stop _ (no_digit_head_p [])]
    rw [e, qemu_strtoul_digit_head c _ hc, hsd]
    by_cases hov : (c :: cs).foldl digit_step 0 > ULONG_MAX
    · have hne : (-ERANGE : Int) ≠ 0 := by decide
      simp only [hov, if_true, ne_eq, hne, not_false_eq_true]
      exact set_vdev_invalid_err _
    · simp only [hov, if_false, ne_eq, not_true_eq_false, List.head?_cons, List.tail_cons,
        if_true]
      exact set_vdev_invalid_err _

/-- C6. Missing disk component or dangling partition marker is rejected:
`xen_block_set_vdev` reports the invalid-specifier error and leaves kind
Invalid for `d`, for every `d<digits>p` with nothing after the `p`, for
`xvd5p`, and for every letter-kind specifier whose text after the `d` does
not begin with a lowercase letter (`xvd`, `hd1`, `sd`, ...). -/
theorem missing_disk_rejected (v0 : XenBlockVdev) :
    ((xen_block_set_vdev false v0 (.ok "d".toList)).2 = some "invalid virtual disk specifier" ∧
      (xen_block_set_vdev false v0 (.ok "d".toList)).1.type = .INVALID) ∧
    (∀ ds : List Char, (∀ c ∈ ds, isdigit c = true) →
      (xen_block_set_vdev false v0 (.ok ("d".toList ++ ds ++ "p".toList))).2 =
        some "invalid virtual disk specifier" ∧
      (xen_block_set_vdev false v0 (.ok ("d".toList ++ ds ++ "p".toList))).1.type = .INVALID) ∧
    ((xen_block_set_vdev false v0 (.ok "xvd5p".toList)).2 =
        some "invalid virtual disk specifier" ∧
      (xen_block_set_vdev false v0 (.ok "xvd5p".toList)).1.type = .INVALID) ∧
    (∀ (pre rest : List Char), pre ∈ ["xv".toList, "h".toList, "s".toList] →
      no_lower_head rest →
      (xen_block_set_vdev false v0 (.ok (pre ++ "d".toList ++ rest))).2 =
        some "invalid virtual disk specifier" ∧
      (xen_block_set_vdev false v0 (.ok (pre ++ "d".toList ++ rest))).1.type = .INVALID) := by
  refine ⟨?_, ?_, ?_, ?_⟩
  · simp [xen_block_set_vdev, strchr, set_vdev_disk, qemu_strtoul, skip_space, set_vdev_invalid,
      EINVAL]
  · intro ds hds
    have e : "d".toList ++ ds ++ "p".toList = "d".toList ++ (ds ++ ['p']) := by simp
    rw [e, (unknown_prefix_selects v0 (ds ++ ['p'])).1]
    exact set_vdev_disk_dangling _ ds rfl hds
  · have h : no_lower_head "5p".toList := by
      intro c hc; simp at hc; subst hc; decide
    have e : "xvd5p".toList = "xvd".toList ++ "5p".toList := by decide
    rw [e, (unknown_prefix_selects v0 _).2.1]
    exact set_vdev_disk_no_letter _ _ (by simp) h
  · intro pre rest hpre hrest
    simp only [List.mem_cons, List.mem_singleton, List.not_mem_nil, or_false] at hpre
    rcases hpre with h | h | h
    · have e : pre ++ "d".toList ++ rest = "xvd".toList ++ rest := by subst h; simp
      rw [e, (unknown_prefix_selects v0 _).2.1]
      exact set_vdev_disk_no_letter _ _ (by simp) hrest
    · have e : pre ++ "d".toList ++ rest = "hd".toList ++ rest := by subst h; simp
      rw [e, (unknown_prefix_selects v0 _).2.2.1]
      exact set_vdev_disk_no_letter _ _ (by simp) hrest
    · have e : pre ++ "d".toList ++ rest = "sd".toList ++ rest := by subst h; simp
      rw [e, (unknown_prefix_selects v0 _).2.2.2]
      exact set_vdev_disk_no_letter _ _ (by simp) hrest

/-- Witness for C6: `d12p` has digits and a dangling partition marker. -/
theorem missing_disk_rejected_witness :
    (∀ c ∈ "12".toList, isdigit c = true) ∧
    (xen_block_set_vdev false { type := .DP, disk := 3, partition := 4, number := 51764 }
        (.ok ("d".toList ++ "12".toList ++ "p".toList))).2 =
      some "invalid virtual disk specifier" ∧
    (xen_block_set_vdev false { type := .DP, disk := 3, partition := 4, number := 51764 }
        (.ok ("d".toList ++ "12".toList ++ "p".toList))).1.type = .INVALID :=
  ⟨by decide, (missing_disk_rejected _).2.1 "12".toList (by decide)⟩

/-! ## Grammar of accepted specifiers -/

theorem skip_space_decomp (s : List Char) :
    ∃ ws, s = ws ++ skip_space s ∧ (∀ c ∈ ws, isspace c = true) := by
  induction s with
  | nil => exact ⟨[], rfl, by simp⟩
  | cons c cs ih =>
    by_cases hc : isspace c = true
    · obtain ⟨ws, h1, h2⟩ := ih
      refine ⟨c :: ws, ?_, ?_⟩
      · simp only [skip_space, hc, if_true, List.cons_append]
        rw [← h1]
      · intro x hx
        simp at hx
        rcases hx with hx | hx
        · subst hx; exact hc
        · exact h2 x hx
    · refine ⟨[], ?_, by simp⟩
      simp [skip_space, hc]

theorem strtoul_digits_decomp (s : List Char) (acc : Nat) :
    ∃ ds, s = ds ++ (strtoul_digits s acc).2 ∧ (∀ c ∈ ds, isdigit c = true) ∧
      no_digit_head (strtoul_digits s acc).2 := by
  induction s generalizing acc with
  | nil => exact ⟨[], rfl, by simp, no_digit_head_nil⟩
  | cons c cs ih =>
    by_cases hc : isdigit c = true
    · obtain ⟨ds, h1, h2, h3⟩ := ih (acc * 10 + (c.toNat - 48))
      refine ⟨c :: ds, ?_, ?_, ?_⟩
      · simp only [strtoul_digits, hc, if_true, List.cons_append]
        rw [← h1]
      · intro x hx
        simp at hx
        rcases hx with hx | hx
        · subst hx; exact hc
        · exact h2 x hx
      · simpa only [strtoul_digits, hc, if_true] using h3
    · refine ⟨[], ?_, by simp, ?_⟩
      · simp [strtoul_digits, hc]
      · simp only [strtoul_digits, hc, Bool.false_eq_true, if_false]
        intro x hx
        simp at hx
        subst hx
        simpa using hc

theorem digits_numeral_decomp (c : Char) (cs : List Char) (hc : isdigit c = true) :
    ∃ ds, spec_decimal ds ∧ c :: cs = ds ++ (strtoul_digits (c :: cs) 0).2 ∧
      no_digit_head (strtoul_digits (c :: cs) 0).2 := by
  obtain ⟨ds, h1, h2, h3⟩ := strtoul_digits_decomp (c :: cs) 0
  refine ⟨ds, ⟨?_, h2⟩, h1, h3⟩
  intro hnil
  subst hnil
  rw [List.nil_append] at h1
  rw [← h1] at h3
  have := h3 c (by simp)
  rw [hc] at this
  exact absurd this (by simp)

theorem qemu_strtoul_body (body : List Char)
    (r : StrtoulResult) (nptr : List Char) (neg : Bool)
    (hr : (match body with
      | [] => ({ ret := -EINVAL, endp := nptr, result := 0 } : StrtoulResult)
      | c :: _ =>
        if isdigit c then
          if (strtoul_digits body 0).1 > ULONG_MAX then
            { ret := -ERANGE, endp := (strtoul_digits body 0).2, result := ULONG_MAX }
          else if neg then
            { ret := 0, endp := (strtoul_digits body 0).2,
              result := (ULONG_MAX + 1 - (strtoul_digits body 0).1) % (ULONG_MAX + 1) }
          else { ret := 0, endp := (strtoul_digits body 0).2, result := (strtoul_digits body 0).1 }
        else { ret := -EINVAL, endp := nptr, result := 0 }) = r)
    (h0 : r.ret = 0) :
    ∃ ds, spec_decimal ds ∧ body = ds ++ r.endp ∧ no_digit_head r.endp := by
  cases body with
  | nil => subst hr; simp [EINVAL] at h0
  | cons c cs =>
    simp only at hr
    by_cases hc : isdigit c = true
    · obtain ⟨ds, h1, h2, h3⟩ := digits_numeral_decomp c cs hc
      simp only [hc, if_true] at hr
      split_ifs at hr
      · subst hr; simp [ERANGE] at h0
      · subst hr; exact ⟨ds, h1, h2, h3⟩
      · subst hr; exact ⟨ds, h1, h2, h3⟩
    · simp only [hc, Bool.false_eq_true, if_false] at hr
      subst hr; simp [EINVAL] at h0

/-- A successful `qemu_strtoul` has read a number in the lexical form of
`strtoul` and stopped at the first character that is not a digit. -/
theorem qemu_strtoul_numeral (s : List Char) (h0 : (qemu_strtoul s).ret = 0) :
    ∃ n, strtoul_numeral n ∧ s = n ++ (qemu_strtoul s).endp ∧
      no_digit_head (qemu_strtoul s).endp := by
  obtain ⟨ws, hws, hsp⟩ := skip_space_decomp s
  cases hss : skip_space s with
  | nil =>
    simp [qemu_strtoul, hss, EINVAL] at h0
  | cons c cs =>
    rw [hss] at hws
    by_cases hsg : c = '-' ∨ c = '+'
    · have hb := qemu_strtoul_body cs (qemu_strtoul s) s (decide (c = '-'))
        (by simp only [qemu_strtoul, hss, hsg, if_true]) h0
      obtain ⟨ds, h1, h2, h3⟩ := hb
      refine ⟨ws ++ [c] ++ ds, ⟨ws, [c], ds, rfl, hsp, ?_, h1⟩, ?_, h3⟩
      · rcases hsg with h | h <;> subst h <;> simp
      · conv_lhs => rw [hws, h2]
        simp
    · have hb := qemu_strtoul_body (c :: cs) (qemu_strtoul s) s (decide (c = '-'))
        (by simp only [qemu_strtoul, hss, hsg, if_false]) h0
      obtain ⟨ds, h1, h2, h3⟩ := hb
      refine ⟨ws ++ [] ++ ds, ⟨ws, [], ds, rfl, hsp, Or.inl rfl, h1⟩, ?_, h3⟩
      conv_lhs => rw [hws, h2]
      simp

theorem vbd_name_to_disk_loop_decomp (s : List Char) (acc : Nat) :
    ∃ ls, s = ls ++ (vbd_name_to_disk_loop s acc).2 ∧ (∀ c ∈ ls, g_ascii_islower c = true) ∧
      no_lower_head (vbd_name_to_disk_loop s acc).2 := by
  induction s generalizing acc with
  | nil => exact ⟨[], rfl, by simp, by intro c hc; simp [vbd_name_to_disk_loop] at hc⟩
  | cons c cs ih =>
    by_cases hc : g_ascii_islower c = true
    · obtain ⟨ls, h1, h2, h3⟩ :=
        ih ((acc * 26 % UINT_RANGE + (c.toNat - 97 + 1)) % UINT_RANGE)
      refine ⟨c :: ls, ?_, ?_, ?_⟩
      · simp only [vbd_name_to_disk_loop, hc, Bool.not_true, Bool.false_eq_true, if_false,
          List.cons_append]
        rw [← h1]
      · intro x hx
        simp at hx
        rcases hx with hx | hx
        · subst hx; exact hc
        · exact h2 x hx
      · simpa only [vbd_name_to_disk_loop, hc, Bool.not_true, Bool.false_eq_true, if_false]
          using h3
    · have hc2 : g_ascii_islower c = false := by simpa using hc
      refine ⟨[], ?_, by simp, ?_⟩
      · simp [vbd_name_to_disk_loop, hc2]
      · simp only [vbd_name_to_disk_loop, hc2, Bool.not_false, if_true]
        intro x hx
        simp at hx
        subst hx
        exact hc2

theorem set_vdev_partition_grammar (v : XenBlockVdev) (e : List Char)
    (h : (set_vdev_partition v e).2 = none) : e = [] ∨ strtoul_numeral e := by
  unfold set_vdev_partition at h
  dsimp only at h
  split_ifs at h with h1 h2 h3
  · simp [set_vdev_invalid] at h
  · simp [set_vdev_invalid] at h
  · right
    obtain ⟨n, hn, hs, _⟩ := qemu_strtoul_numeral e (by simpa using h2)
    have h3' : (qemu_strtoul e).endp = [] := by simpa using h3
    rw [h3', List.append_nil] at hs
    rw [hs]; exact hn
  · left; simpa using h1

theorem set_vdev_disk_explicit_grammar (v : XenBlockVdev) (p : List Char) (hk : v.type = .DP)
    (h : (set_vdev_disk v p).2 = none) :
    ∃ n, strtoul_numeral n ∧
      (p = n ∨ ∃ m, strtoul_numeral m ∧ (p = n ++ 'p' :: m ∨ (no_digit_head m ∧ p = n ++ m))) := by
  unfold set_vdev_disk at h
  simp only [hk, if_true] at h
  split_ifs at h with h1 h2 h3
  · simp [set_vdev_invalid] at h
  · simp [set_vdev_invalid] at h
  · obtain ⟨n, hn, hs, _⟩ := qemu_strtoul_numeral p (by simpa using h1)
    refine ⟨n, hn, Or.inr ?_⟩
    have hcons : (qemu_strtoul p).endp = 'p' :: (qemu_strtoul p).endp.tail := by
      cases he : (qemu_strtoul p).endp with
      | nil => rw [he] at h2; simp at h2
      | cons c cs => rw [he] at h2; simp at h2; subst h2; rfl
    rcases set_vdev_partition_grammar _ _ h with he | he
    · exact absurd he h3
    · exact ⟨_, he, Or.inl (by rw [← hcons]; exact hs)⟩
  · obtain ⟨n, hn, hs, hnd⟩ := qemu_strtoul_numeral p (by simpa using h1)
    refine ⟨n, hn, ?_⟩
    rcases set_vdev_partition_grammar _ _ h with he | he
    · left; rw [he, List.append_nil] at hs; exact hs
    · right; exact ⟨_, he, Or.inr ⟨hnd, hs⟩⟩

theorem set_vdev_disk_letter_grammar (v : XenBlockVdev) (p : List Char) (hk : v.type ≠ .DP)
    (h : (set_vdev_disk v p).2 = none) :
    ∃ ls, spec_letters ls ∧ (p = ls ∨ ∃ m, strtoul_numeral m ∧ p = ls ++ m) := by
  obtain ⟨ls, h1, h2, h3⟩ := vbd_name_to_disk_loop_decomp p 0
  have hne : ls ≠ [] := by
    intro hnil
    subst hnil
    rw [List.nil_append] at h1
    rw [← h1] at h3
    have := (set_vdev_disk_no_letter v p hk h3).1
    rw [h] at this
    simp at this
  refine ⟨ls, ⟨hne, h2⟩, ?_⟩
  unfold set_vdev_disk at h
  simp only [hk, if_false] at h
  have hend : (vbd_name_to_disk p).2 = (vbd_name_to_disk_loop p 0).2 := by
    rw [vbd_name_to_disk]
  rcases set_vdev_partition_grammar _ _ h with he | he
  · left
    rw [hend] at he
    rw [he, List.append_nil] at h1
    exact h1
  · right
    rw [hend] at he
    exact ⟨_, he, h1⟩

theorem split_at_d (s : List Char) :
    s = s.takeWhile (fun x => x != 'd') ++ s.dropWhile (fun x => x != 'd') :=
  (List.takeWhile_append_dropWhile _ s).symm

theorem dropWhile_d (s : List Char) (h : 'd' ∈ s) :
    s.dropWhile (fun x => x != 'd') = 'd' :: (s.dropWhile (fun x => x != 'd')).tail := by
  induction s with
  | nil => simp at h
  | cons c cs ih =>
    by_cases hc : c = 'd'
    · subst hc; simp [List.dropWhile]
    · have hb : (c != 'd') = true := by simp [hc]
      have hm : 'd' ∈ cs := by
        simp at h
        rcases h with h | h
        · exact absurd h.symm hc
        · exact h
      simp only [List.dropWhile, hb]
      exact ih hm

/-- Every specifier `xen_block_set_vdev` accepts is a prefix, `d`, and a body
in which each number has the lexical form `strtoul` reads. -/
theorem accepted_grammar (v0 : XenBlockVdev) (s : List Char)
    (h : (xen_block_set_vdev false v0 (.ok s)).2 = none) : strtoul_grammar s := by
  rw [set_vdev_unfold] at h
  by_cases hm : 'd' ∈ s
  · have hs : s = s.takeWhile (fun x => x != 'd') ++
        'd' :: (s.dropWhile (fun x => x != 'd')).tail := by
      rw [← dropWhile_d s hm]; exact split_at_d s
    simp only [hm, if_true] at h
    have letter : ∀ (pre : List Char) (k : XenBlockVdevType), k ≠ .DP →
        pre ∈ spec_letter_prefixes → s.takeWhile (fun x => x != 'd') = pre →
        (set_vdev_disk { v0 with type := k } (s.dropWhile (fun x => x != 'd')).tail).2 = none →
        strtoul_grammar s := by
      intro pre k hk hpre htw hacc
      rw [htw] at hs
      obtain ⟨ls, hls, hp | ⟨m, hm1, hp⟩⟩ := set_vdev_disk_letter_grammar _ _ hk hacc
      · exact Or.inr (Or.inr (Or.inr (Or.inl ⟨pre, ls, hpre, hls, by rw [← hp]; exact hs⟩)))
      · exact Or.inr (Or.inr (Or.inr (Or.inr ⟨pre, ls, m, hpre, hls, hm1,
          by rw [← hp]; exact hs⟩)))
    split_ifs at h with h1 h2 h3 h4
    · rw [h1, List.nil_append] at hs
      obtain ⟨n, hn, hp | ⟨m, hm1, hp | ⟨hnd, hp⟩⟩⟩ := set_vdev_disk_explicit_grammar _ _ rfl h
      · exact Or.inl ⟨n, hn, by rw [← hp]; exact hs⟩
      · exact Or.inr (Or.inl ⟨n, m, hn, hm1, by rw [← hp]; exact hs⟩)
      · exact Or.inr (Or.inr (Or.inl ⟨n, m, hn, hm1, hnd, by rw [← hp]; exact hs⟩))
    · exact letter _ .XVD (by simp) (by simp [spec_letter_prefixes]) h2 h
    · exact letter _ .HD (by simp) (by simp [spec_letter_prefixes]) h3 h
    · exact letter _ .SD (by simp) (by simp [spec_letter_prefixes]) h4 h
    · simp [set_vdev_invalid] at h
  · simp [hm, set_vdev_invalid] at h

theorem spec_grammar_chars (s : List Char) (h : spec_grammar s) :
    ∀ c ∈ s, g_ascii_islower c = true ∨ isdigit c = true := by
  have hpre : ∀ pre ∈ spec_letter_prefixes, ∀ c ∈ pre, g_ascii_islower c = true := by decide
  rcases h with ⟨ds, hds, rfl⟩ | ⟨ds, ps, hds, hps, rfl⟩ | ⟨pre, ls, hp, hls, rfl⟩ |
    ⟨pre, ls, ps, hp, hls, hps, rfl⟩
  · intro c hc
    simp only [List.mem_cons] at hc
    rcases hc with hc | hc
    · subst hc; left; decide
    · right; exact hds.2 c hc
  · intro c hc
    simp only [List.mem_cons, List.mem_append] at hc
    rcases hc with hc | hc | hc | hc
    · subst hc; left; decide
    · right; exact hds.2 c hc
    · subst hc; left; decide
    · right; exact hps.2 c hc
  · intro c hc
    simp only [List.mem_cons, List.mem_append] at hc
    rcases hc with hc | hc | hc
    · left; exact hpre pre hp c hc
    · subst hc; left; decide
    · left; exact hls.2 c hc
  · intro c hc
    simp only [List.mem_cons, List.mem_append] at hc
    rcases hc with hc | hc | hc | hc
    · left; exact hpre pre hp c hc
    · subst hc; left; decide
    · left; exact hls.2 c hc
    · right; exact hps.2 c hc

/-- C7, counterexample. `xen_block_set_vdev` accepts `d+5` as explicit disk 5,
partition 0, although the string contains a `+` and so does not match the
specifier grammar of §6. -/
theorem grammar_counterexample :
    xen_block_set_vdev false { type := .INVALID, disk := 0, partition := 0, number := 0 }
      (.ok "d+5".toList) =
      ({ type := .DP, disk := 5, partition := 0, number := 51792 }, none) ∧
    ¬ spec_grammar "d+5".toList := by
  refine ⟨by decide, fun h => ?_⟩
  have := spec_grammar_chars _ h '+' (by decide)
  revert this
  decide

/-- C7, amended. Every specifier `xen_block_set_vdev` accepts (no error; the
kind is then not Invalid) matches the grammar of §6 with each run of decimal
digits widened to a number as `strtoul` reads it (optional white space, one
optional sign, decimal digits), the `p` of the explicit form being optional
before a partition number that does not begin with a digit; no other
character occurs, so any leftover suffix makes decoding fail. -/
theorem accepted_specifier_grammar (v0 : XenBlockVdev) (s : List Char)
    (h : (xen_block_set_vdev false v0 (.ok s)).2 = none) :
    (xen_block_set_vdev false v0 (.ok s)).1.type ≠ .INVALID ∧ strtoul_grammar s := by
  refine ⟨?_, accepted_grammar v0 s h⟩
  have hrow := packed_number_row v0 s h
  intro hk
  rw [hk] at hrow
  simp [spec_packed_number] at hrow

/-- Witness for C7: `d0p1` is accepted. -/
theorem accepted_specifier_grammar_witness :
    (xen_block_set_vdev false { type := .INVALID, disk := 0, partition := 0, number := 0 }
      (.ok "d0p1".toList)).2 = none ∧
    (xen_block_set_vdev false { type := .INVALID, disk := 0, partition := 0, number := 0 }
      (.ok "d0p1".toList)).1.type ≠ .INVALID ∧ strtoul_grammar "d0p1".toList :=
  ⟨by decide, accepted_specifier_grammar _ _ (by decide)⟩

/-! ## Partition default -/

theorem set_vdev_partition_nil (v : XenBlockVdev) :
    (set_vdev_partition v []).1.partition = 0 := by
  unfold set_vdev_partition
  simp only [ne_eq, not_true_eq_false, if_false]
  exact (set_vdev_number_fields _).2.1

theorem qemu_strtoul_digits_only (ds : List Char) (hne : ds ≠ [])
    (hds : ∀ c ∈ ds, isdigit c = true) (hv : ds.foldl digit_step 0 ≤ ULONG_MAX) :
    qemu_strtoul ds = { ret := 0, endp := [], result := ds.foldl digit_step 0 } := by
  cases ds with
  | nil => exact absurd rfl hne
  | cons c cs =>
    have hc : isdigit c = true := hds c (by simp)
    have hsd : strtoul_digits (c :: cs) 0 = ((c :: cs).foldl digit_step 0, []) := by
      have := strtoul_digits_append (c :: cs) [] hds 0
      rw [List.append_nil] at this
      rw [this, strtoul_digits_stop _ no_digit_head_nil]
    rw [qemu_strtoul_digit_head c cs hc, hsd]
    simp only [gt_iff_lt, Nat.not_lt.mpr hv, if_false]

theorem qemu_strtoul_digits_overflow (ds : List Char)
    (hds : ∀ c ∈ ds, isdigit c = true) (hv : ULONG_MAX < ds.foldl digit_step 0) :
    qemu_strtoul ds = { ret := -ERANGE, endp := [], result := ULONG_MAX } := by
  cases ds with
  | nil => exact absurd hv (by decide)
  | cons c cs =>
    have hc : isdigit c = true := hds c (by simp)
    have hsd : strtoul_digits (c :: cs) 0 = ((c :: cs).foldl digit_step 0, []) := by
      have := strtoul_digits_append (c :: cs) [] hds 0
      rw [List.append_nil] at this
      rw [this, strtoul_digits_stop _ no_digit_head_nil]
    rw [qemu_strtoul_digit_head c cs hc, hsd]
    simp only [gt_iff_lt, hv, if_true]

/-- C8, counterexample. The specifier `d18446744073709551616` ends right
after its decimal disk, which is 2^64 and does not fit an `unsigned long`:
over a vdev that held partition 9, `xen_block_set_vdev` takes the `invalid`
exit before the partition is assigned, and the partition is still 9. -/
theorem partition_default_counterexample :
    (∀ c ∈ "18446744073709551616".toList, isdigit c = true) ∧
    xen_block_set_vdev false { type := .SD, disk := 1, partition := 9, number := 2073 }
        (.ok "d18446744073709551616".toList) =
      ({ type := .INVALID, disk := 18446744073709551615, partition := 9, number := 2073 },
        some "invalid virtual disk specifier") ∧
    (xen_block_set_vdev false { type := .SD, disk := 1, partition := 9, number := 2073 }
        (.ok "d18446744073709551616".toList)).1.partition ≠ 0 := by
  have h : xen_block_set_vdev false { type := .SD, disk := 1, partition := 9, number := 2073 }
        (.ok "d18446744073709551616".toList) =
      ({ type := .INVALID, disk := 18446744073709551615, partition := 9, number := 2073 },
        some "invalid virtual disk specifier") := by decide
  refine ⟨by decide, h, ?_⟩
  rw [h]
  decide

/-- C8, amended. Partition default: when the specifier ends right after the
disk component, `xen_block_set_vdev` stores partition 0 whatever partition
the vdev held before: after the decimal disk of the explicit kind when its
value fits an `unsigned long`, and after the letter run of a letter kind; an
explicit disk that does not fit is rejected as an invalid specifier with the
partition left as it was; `d5`, `xvda`, `sda` decode with partition 0 and
`d0p1`, `xvdaa1`, `hdb3` with partitions 1, 1 and 3. -/
theorem partition_default (v0 : XenBlockVdev) :
    (∀ ds : List Char, ds ≠ [] → (∀ c ∈ ds, isdigit c = true) →
      ds.foldl digit_step 0 ≤ ULONG_MAX →
      (xen_block_set_vdev false v0 (.ok ("d".toList ++ ds))).1.partition = 0) ∧
    (∀ ds : List Char, (∀ c ∈ ds, isdigit c = true) →
      ULONG_MAX < ds.foldl digit_step 0 →
      xen_block_set_vdev false v0 (.ok ("d".toList ++ ds)) =
        ({ v0 with type := .INVALID, disk := ULONG_MAX },
          some "invalid virtual disk specifier")) ∧
    (∀ (pre ls : List Char), pre ∈ spec_letter_prefixes →
      (∀ c ∈ ls, g_ascii_islower c = true) →
      (xen_block_set_vdev false v0 (.ok (pre ++ "d".toList ++ ls))).1.partition = 0) ∧
    xen_block_set_vdev false v0 (.ok "d5".toList) =
      ({ type := .DP, disk := 5, partition := 0, number := 51792 }, none) ∧
    xen_block_set_vdev false v0 (.ok "xvda".toList) =
      ({ type := .XVD, disk := 0, partition := 0, number := 51712 }, none) ∧
    xen_block_set_vdev false v0 (.ok "sda".toList) =
      ({ type := .SD, disk := 0, partition := 0, number := 2048 }, none) ∧
    xen_block_set_vdev false v0 (.ok "d0p1".toList) =
      ({ type := .DP, disk := 0, partition := 1, number := 51713 }, none) ∧
    xen_block_set_vdev false v0 (.ok "xvdaa1".toList) =
      ({ type := .XVD, disk := 26, partition := 1, number := 268442113 }, none) ∧
    xen_block_set_vdev false v0 (.ok "hdb3".toList) =
      ({ type := .HD, disk := 1, partition := 3, number := 835 }, none) := by
  have letters : ∀ (v : XenBlockVdev) (ls : List Char), v.type ≠ .DP →
      (∀ c ∈ ls, g_ascii_islower c = true) → (set_vdev_disk v ls).1.partition = 0 := by
    intro v ls hk hls
    have hl := vbd_name_to_disk_loop_append ls [] hls (by intro c hc; simp at hc) 0
    rw [List.append_nil] at hl
    have h2 : (vbd_name_to_disk ls).2 = [] := by
      unfold vbd_name_to_disk; dsimp only; rw [hl]
    unfold set_vdev_disk
    simp only [hk, if_false, h2]
    exact set_vdev_partition_nil _
  refine ⟨?_, ?_, ?_, ?_, ?_, ?_, ?_, ?_, ?_⟩
  · intro ds hne hds hv
    rw [(unknown_prefix_selects v0 ds).1]
    unfold set_vdev_disk
    simp only [if_true, qemu_strtoul_digits_only ds hne hds hv, ne_eq, not_true_eq_false,
      if_false, List.head?_nil, reduceCtorEq]
    exact set_vdev_partition_nil _
  · intro ds hds hv
    have hne : (-ERANGE : Int) ≠ 0 := by decide
    rw [(unknown_prefix_selects v0 ds).1]
    unfold set_vdev_disk
    simp only [if_true, qemu_strtoul_digits_overflow ds hds hv, ne_eq, hne, not_false_eq_true]
    rfl
  · intro pre ls hpre hls
    simp only [spec_letter_prefixes, List.mem_cons, List.mem_singleton, List.not_mem_nil,
      or_false] at hpre
    rcases hpre with h | h | h
    · have e : pre ++ "d".toList ++ ls = "xvd".toList ++ ls := by subst h; simp
      rw [e, (unknown_prefix_selects v0 _).2.1]
      exact letters _ ls (by simp) hls
    · have e : pre ++ "d".toList ++ ls = "hd".toList ++ ls := by subst h; simp
      rw [e, (unknown_prefix_selects v0 _).2.2.1]
      exact letters _ ls (by simp) hls
    · have e : pre ++ "d".toList ++ ls = "sd".toList ++ ls := by subst h; simp
      rw [e, (unknown_prefix_selects v0 _).2.2.2]
      exact letters _ ls (by simp) hls
  all_goals
    simp [xen_block_set_vdev, strchr, set_vdev_disk, qemu_strtoul, skip_space, isspace, isdigit,
      strtoul_digits, set_vdev_partition, set_vdev_number, ULONG_MAX, vbd_name_to_disk,
      vbd_name_to_disk_loop, g_ascii_islower, UINT_RANGE]

/-- Witness for C8: `d12`, `d18446744073709551616` and `xvdab` over a vdev
that held partition 9. -/
theorem partition_default_witness :
    ("12".toList ≠ [] ∧ (∀ c ∈ "12".toList, isdigit c = true) ∧
      "12".toList.foldl digit_step 0 ≤ ULONG_MAX ∧
      (xen_block_set_vdev false { type := .SD, disk := 1, partition := 9, number := 2073 }
        (.ok ("d".toList ++ "12".toList))).1.partition = 0) ∧
    ((∀ c ∈ "18446744073709551616".toList, isdigit c = true) ∧
      ULONG_MAX < "18446744073709551616".toList.foldl digit_step 0 ∧
      xen_block_set_vdev false { type := .SD, disk := 1, partition := 9, number := 2073 }
          (.ok ("d".toList ++ "18446744073709551616".toList)) =
        ({ type := .INVALID, disk := ULONG_MAX, partition := 9, number := 2073 },
          some "invalid virtual disk specifier")) ∧
    ("xv".toList ∈ spec_letter_prefixes ∧ (∀ c ∈ "ab".toList, g_ascii_islower c = true) ∧
      (xen_block_set_vdev false { type := .SD, disk := 1, partition := 9, number := 2073 }
        (.ok ("xv".toList ++ "d".toList ++ "ab".toList))).1.partition = 0) :=
  ⟨⟨by decide, by decide, by decide,
      (partition_default _).1 "12".toList (by decide) (by decide) (by decide)⟩,
    ⟨by decide, by decide,
      (partition_default _).2.1 "18446744073709551616".toList (by decide) (by decide)⟩,
    ⟨by decide, by decide,
      (partition_default _).2.2.1 "xv".toList "ab".toList (by decide) (by decide)⟩⟩

/-! ## Encode format -/

theorem toDigitsCore_fmt_lu (fuel n : Nat) (acc : List Char) (h : n < fuel) :
    Nat.toDigitsCore 10 fuel n acc = fmt_lu n ++ acc := by
  induction fuel generalizing n acc with
  | zero => omega
  | succ f ih =>
    rw [Nat.toDigitsCore, fmt_lu]
    by_cases h10 : n < 10
    · have e1 : n / 10 = 0 := by omega
      have e2 : n % 10 = n := by omega
      simp [h10, e1, e2]
    · have e1 : ¬ n / 10 = 0 := by omega
      simp only [e1, if_false, h10, dite_false]
      rw [ih (n / 10) _ (by omega)]
      simp

/-- The model of `%lu` agrees with the decimal representation of the standard
library. -/
theorem fmt_lu_eq_repr (n : Nat) : fmt_lu n = (Nat.repr n).toList := by
  have h := toDigitsCore_fmt_lu (n + 1) n [] (by omega)
  rw [List.append_nil] at h
  simp only [Nat.repr, Nat.toDigits, h]
  rfl

/-- C9. Encode format: `xen_block_get_vdev` produces `d<disk>p<partition>`
with both numbers in decimal for the explicit kind, and
`<prefix><letters><partition>` for the letter kinds, with prefix `xvd`, `hd`
or `sd`, letters `disk_to_vbd_name(disk)` (the disk converted to the
`unsigned int` parameter) and the partition in decimal; for kind Invalid it
produces no string and sets the error `invalid vdev type`. -/
theorem get_vdev_format (d p n : Nat) :
    xen_block_get_vdev { type := .DP, disk := d, partition := p, number := n } =
      .ok ("d".toList ++ (Nat.repr d).toList ++ "p".toList ++ (Nat.repr p).toList) ∧
    xen_block_get_vdev { type := .XVD, disk := d, partition := p, number := n } =
      .ok ("xvd".toList ++ disk_to_vbd_name (d % UINT_RANGE) ++ (Nat.repr p).toList) ∧
    xen_block_get_vdev { type := .HD, disk := d, partition := p, number := n } =
      .ok ("hd".toList ++ disk_to_vbd_name (d % UINT_RANGE) ++ (Nat.repr p).toList) ∧
    xen_block_get_vdev { type := .SD, disk := d, partition := p, number := n } =
      .ok ("sd".toList ++ disk_to_vbd_name (d % UINT_RANGE) ++ (Nat.repr p).toList) ∧
    xen_block_get_vdev { type := .INVALID, disk := d, partition := p, number := n } =
      .error "invalid vdev type" ∧
    xen_block_get_vdev { type := .DP, disk := 27, partition := 0, number := 0 } =
      .ok "d27p0".toList ∧
    xen_block_get_vdev { type := .XVD, disk := 27, partition := 3, number := 0 } =
      .ok "xvdab3".toList ∧
    xen_block_get_vdev { type := .HD, disk := 1, partition := 3, number := 0 } =
      .ok "hdb3".toList ∧
    xen_block_get_vdev { type := .SD, disk := 0, partition := 0, number := 0 } =
      .ok "sda0".toList := by
  refine ⟨?_, ?_, ?_, ?_, ?_, ?_, ?_, ?_, ?_⟩
  · simp only [xen_block_get_vdev, fmt_lu_eq_repr]; rfl
  · simp only [xen_block_get_vdev, fmt_lu_eq_repr, if_true]
  · simp only [xen_block_get_vdev, fmt_lu_eq_repr, reduceCtorEq, if_true, if_false]
  · simp only [xen_block_get_vdev, fmt_lu_eq_repr, reduceCtorEq, if_false]
  · rfl
  all_goals
    simp only [xen_block_get_vdev, fmt_lu_eq_repr, reduceCtorEq, if_true, if_false]
    simp [disk_to_vbd_name, UINT_RANGE]
    try decide

/-! ## The frontend state machine -/

theorem count_start_append (a b : List Event) :
    count_start (a ++ b) = count_start a + count_start b := by
  induction a with
  | nil => simp [count_start]
  | cons e es ih =>
    have h : (e :: es) ++ b = e :: (es ++ b) := rfl
    rw [h]
    cases e with
    | frontend_scanf k => simp only [count_start, ih]
    | dataplane_stop => simp only [count_start, ih]
    | dataplane_start r n ev pr => simp only [count_start, ih]; omega

theorem count_stop_append (a b : List Event) :
    count_stop (a ++ b) = count_stop a + count_stop b := by
  induction a with
  | nil => simp [count_stop]
  | cons e es ih =>
    have h : (e :: es) ++ b = e :: (es ++ b) := rfl
    rw [h]
    cases e with
    | frontend_scanf k => simp only [count_stop, ih]
    | dataplane_stop => simp only [count_stop, ih]; omega
    | dataplane_start r n ev pr => simp only [count_stop, ih]

/-- The ring-ref loop only appends frontend reads to the record of calls. -/
theorem read_ring_refs_trace (c : Collab) (n i : Nat) (tr : List Event) (acc : List Nat) :
    ∃ evs, (read_ring_refs c n i tr acc).1 = tr ++ evs ∧ count_start evs = 0 ∧
      count_stop evs = 0 := by
  induction n generalizing i tr acc with
  | zero => exact ⟨[], by simp [read_ring_refs], rfl, rfl⟩
  | succ n ih =>
    unfold read_ring_refs
    dsimp only
    cases c.scanf_u (ring_ref_key i) with
    | none => exact ⟨[Event.frontend_scanf (ring_ref_key i)], rfl, rfl, rfl⟩
    | some v =>
      obtain ⟨evs, h1, h2, h3⟩ :=
        ih (i + 1) (tr ++ [Event.frontend_scanf (ring_ref_key i)]) (acc ++ [v])
      refine ⟨Event.frontend_scanf (ring_ref_key i) :: evs, ?_, ?_, ?_⟩
      · simp only [h1, List.append_assoc, List.singleton_append]
      · simpa [count_start] using h2
      · simpa [count_stop] using h3

/-- The tail of `xen_block_connect` when the key `event-channel` is missing. -/
theorem connect_finish_no_channel (c : Collab) (dev : XenBlockDevice) (tr : List Event)
    (ring_ref : List Nat) (nr : Nat) (h : c.scanf_u "event-channel" = none) :
    connect_finish c dev tr ring_ref nr =
      ({ dev with trace := tr ++ [Event.frontend_scanf "event-channel"] },
        some "failed to read event-channel") := by
  simp only [connect_finish, h]

/-- The tail of `xen_block_connect` when the key `event-channel` is present. -/
theorem connect_finish_channel (c : Collab) (dev : XenBlockDevice) (tr : List Event)
    (ring_ref : List Nat) (nr ev : Nat) (h : c.scanf_u "event-channel" = some ev) :
    connect_finish c dev tr ring_ref nr =
      ({ dev with trace := tr ++ [Event.frontend_scanf "event-channel",
          Event.frontend_scanf "protocol",
          Event.dataplane_start ring_ref nr ev (connect_protocol (c.scanf_s "protocol"))] },
        c.start_err ring_ref nr ev (connect_protocol (c.scanf_s "protocol"))) := by
  simp only [connect_finish, h]

/-- Effect of the tail of `xen_block_connect` on the device. -/
theorem connect_finish_fields (c : Collab) (dev : XenBlockDevice) (tr : List Event)
    (ring_ref : List Nat) (nr : Nat) :
    (connect_finish c dev tr ring_ref nr).1.backend_state = dev.backend_state ∧
    (connect_finish c dev tr ring_ref nr).1.max_ring_page_order = dev.max_ring_page_order ∧
    ∃ evs, (connect_finish c dev tr ring_ref nr).1.trace = tr ++ evs ∧ count_stop evs = 0 ∧
      count_start evs ≤ 1 ∧
      ((connect_finish c dev tr ring_ref nr).2 = none → count_start evs = 1) := by
  cases h : c.scanf_u "event-channel" with
  | none =>
    rw [connect_finish_no_channel c dev tr ring_ref nr h]
    refine ⟨rfl, rfl, [Event.frontend_scanf "event-channel"], rfl, rfl, by decide, ?_⟩
    intro h; simp at h
  | some ev =>
    rw [connect_finish_channel c dev tr ring_ref nr ev h]
    exact ⟨rfl, rfl, _, rfl, rfl, by simp [count_start], fun _ => rfl⟩

/-- The ring-ref loop when every key it asks for is present: it reads the
`n` keys from index `i` upward, in order, and collects their values. -/
theorem read_ring_refs_all (c : Collab) (n i : Nat) (tr : List Event) (acc : List Nat)
    (h : ∀ j, j < n → c.scanf_u (ring_ref_key (i + j)) ≠ none) :
    read_ring_refs c n i tr acc =
      (tr ++ (List.range n).map (fun j => Event.frontend_scanf (ring_ref_key (i + j))),
        .ok (acc ++ (List.range n).map (fun j => (c.scanf_u (ring_ref_key (i + j))).getD 0))) := by
  induction n generalizing i tr acc with
  | zero => simp [read_ring_refs]
  | succ n ih =>
    have h0 := h 0 (by omega)
    rw [Nat.add_zero] at h0
    cases hv : c.scanf_u (ring_ref_key i) with
    | none => exact absurd hv h0
    | some v =>
      have hrec := ih (i + 1) (tr ++ [Event.frontend_scanf (ring_ref_key i)]) (acc ++ [v])
        (fun j hj => by
          have := h (j + 1) (by omega)
          rwa [show i + (j + 1) = i + 1 + j by omega] at this)
      simp only [read_ring_refs, hv, hrec, List.range_succ_eq_map, List.map_cons, List.map_map,
        Nat.add_zero, Option.getD_some, List.append_assoc, List.singleton_append]
      have e : ∀ j, i + 1 + j = i + (j + 1) := fun j => by omega
      simp only [Function.comp_def, e, Nat.succ_eq_add_one]

/-- The ring-ref loop when the key of index `i + j` is the first one
missing: it reads the keys up to that one and reports it. -/
theorem read_ring_refs_missing (c : Collab) (n i j : Nat) (tr : List Event) (acc : List Nat)
    (hj : j < n) (hpre : ∀ k, k < j → c.scanf_u (ring_ref_key (i + k)) ≠ none)
    (hmiss : c.scanf_u (ring_ref_key (i + j)) = none) :
    read_ring_refs c n i tr acc =
      (tr ++ (List.range (j + 1)).map (fun k => Event.frontend_scanf (ring_ref_key (i + k))),
        .error ("failed to read " ++ ring_ref_key (i + j))) := by
  induction n generalizing i j tr acc with
  | zero => omega
  | succ n ih =>
    cases j with
    | zero =>
      rw [Nat.add_zero] at hmiss
      have e : List.range (0 + 1) = [0] := rfl
      simp [read_ring_refs, hmiss, e]
    | succ j =>
      have h0 := hpre 0 (by omega)
      rw [Nat.add_zero] at h0
      cases hv : c.scanf_u (ring_ref_key i) with
      | none => exact absurd hv h0
      | some v =>
        have hrec := ih (i + 1) j (tr ++ [Event.frontend_scanf (ring_ref_key i)]) (acc ++ [v])
          (by omega)
          (fun k hk => by
            have := hpre (k + 1) (by omega)
            rwa [show i + (k + 1) = i + 1 + k by omega] at this)
          (by rwa [show i + (j + 1) = i + 1 + j by omega] at hmiss)
        simp only [read_ring_refs, hv, hrec, List.append_assoc, List.singleton_append]
        rw [List.range_succ_eq_map (j + 1)]
        simp only [List.map_cons, List.map_map, Nat.add_zero]
        have e : ∀ k, i + 1 + k = i + (k + 1) := fun k => by omega
        simp only [Function.comp_def, e, Nat.succ_eq_add_one]

/-- Effect of `xen_block_connect` on the device: the backend state is left
alone, the calls made are frontend reads followed by at most one
`xen_block_dataplane_start`, and a call that reports no error has started
the dataplane exactly once. -/
theorem xen_block_connect_fields (c : Collab) (dev : XenBlockDevice) :
    (xen_block_connect c dev).1.backend_state = dev.backend_state ∧
    (xen_block_connect c dev).1.max_ring_page_order = dev.max_ring_page_order ∧
    ∃ evs, (xen_block_connect c dev).1.trace = dev.trace ++ evs ∧ count_stop evs = 0 ∧
      count_start evs ≤ 1 ∧ ((xen_block_connect c dev).2 = none → count_start evs = 1) := by
  unfold xen_block_connect
  cases c.scanf_u "ring-page-order" with
  | none =>
    dsimp only
    cases c.scanf_u "ring-ref" with
    | none =>
      refine ⟨rfl, rfl, _, rfl, rfl, by decide, ?_⟩
      intro h; simp at h
    | some r =>
      dsimp only
      obtain ⟨h1, h2, evs, h3, h4, h5, h6⟩ := connect_finish_fields c dev
        (dev.trace ++ [Event.frontend_scanf "ring-page-order", Event.frontend_scanf "ring-ref"])
        [r] 1
      refine ⟨h1, h2, [Event.frontend_scanf "ring-page-order", Event.frontend_scanf "ring-ref"]
        ++ evs, ?_, ?_, ?_, ?_⟩
      · rw [h3]; simp
      · rw [count_stop_append, h4]; rfl
      · rw [count_start_append]; simpa [count_start] using h5
      · intro h; rw [count_start_append, h6 h]; rfl
  | some order =>
    dsimp only
    split_ifs with hle
    · obtain ⟨revs, hr1, hr2, hr3⟩ := read_ring_refs_trace c (ring_count c order) 0
        (dev.trace ++ [Event.frontend_scanf "ring-page-order"]) []
      cases hrr : read_ring_refs c (ring_count c order) 0
          (dev.trace ++ [Event.frontend_scanf "ring-page-order"]) [] with
      | mk tr res =>
        rw [hrr] at hr1
        simp only at hr1
        cases res with
        | error e =>
          refine ⟨rfl, rfl, Event.frontend_scanf "ring-page-order" :: revs, ?_, ?_, ?_, ?_⟩
          · simp only [hr1, List.append_assoc, List.singleton_append]
          · simpa [count_stop] using hr3
          · simp [count_start, hr2]
          · intro h; simp at h
        | ok ring_ref =>
          dsimp only
          obtain ⟨h1, h2, evs, h3, h4, h5, h6⟩ :=
            connect_finish_fields c dev tr ring_ref (ring_count c order)
          refine ⟨h1, h2, Event.frontend_scanf "ring-page-order" :: (revs ++ evs), ?_, ?_, ?_,
            ?_⟩
          · rw [h3, hr1]; simp
          · simp [count_stop, count_stop_append, hr3, h4]
          · simpa [count_start, count_start_append, hr2] using h5
          · intro h; simp [count_start, count_start_append, hr2, h6 h]
    · refine ⟨rfl, rfl, [Event.frontend_scanf "ring-page-order"], rfl, rfl, by decide, ?_⟩
      intro h; simp at h


/-! ## Case equations of `xen_block_connect` -/

theorem connect_legacy_missing (c : Collab) (dev : XenBlockDevice)
    (ho : c.scanf_u "ring-page-order" = none) (hr : c.scanf_u "ring-ref" = none) :
    xen_block_connect c dev =
      ({ dev with trace := dev.trace ++
          [Event.frontend_scanf "ring-page-order", Event.frontend_scanf "ring-ref"] },
        some "failed to read ring-ref") := by
  simp only [xen_block_connect, ho, hr]

theorem connect_legacy (c : Collab) (dev : XenBlockDevice) (r : Nat)
    (ho : c.scanf_u "ring-page-order" = none) (hr : c.scanf_u "ring-ref" = some r) :
    xen_block_connect c dev =
      connect_finish c dev (dev.trace ++
        [Event.frontend_scanf "ring-page-order", Event.frontend_scanf "ring-ref"]) [r] 1 := by
  simp only [xen_block_connect, ho, hr]

theorem connect_order_too_large (c : Collab) (dev : XenBlockDevice) (order : Nat)
    (ho : c.scanf_u "ring-page-order" = some order) (hgt : dev.max_ring_page_order < order) :
    xen_block_connect c dev =
      ({ dev with trace := dev.trace ++ [Event.frontend_scanf "ring-page-order"] },
        some ("invalid ring-page-order (" ++ String.mk (fmt_d order) ++ ")")) := by
  simp only [xen_block_connect, ho, Nat.not_le.mpr hgt, if_false]

/-- Up to order 30 the count `1 << order` is 2^order. -/
theorem ring_count_defined (c : Collab) (order : Nat) (h : order < 31) :
    ring_count c order = 2 ^ order := by
  rw [ring_count, if_pos h, Nat.one_shiftLeft]

/-- The count `nr_ring_ref` is an `unsigned int`, whatever the shift yields. -/
theorem ring_count_lt (c : Collab) (order : Nat) : ring_count c order < 2 ^ 32 := by
  rw [ring_count]
  split_ifs with h
  · rw [Nat.one_shiftLeft]
    exact Nat.pow_lt_pow_right (by decide) (by omega)
  · exact Nat.mod_lt _ (by decide)

/-- The multi-page branch of `xen_block_connect` when the keys below the
count `nr_ring_ref` are all present. -/
theorem connect_count_all (c : Collab) (dev : XenBlockDevice) (order : Nat)
    (ho : c.scanf_u "ring-page-order" = some order) (hle : order ≤ dev.max_ring_page_order)
    (hall : ∀ j, j < ring_count c order → c.scanf_u (ring_ref_key j) ≠ none) :
    xen_block_connect c dev =
      connect_finish c dev
        (dev.trace ++ Event.frontend_scanf "ring-page-order" ::
          (List.range (ring_count c order)).map
            (fun j => Event.frontend_scanf (ring_ref_key j)))
        ((List.range (ring_count c order)).map (fun j => (c.scanf_u (ring_ref_key j)).getD 0))
        (ring_count c order) := by
  have h := read_ring_refs_all c (ring_count c order) 0
    (dev.trace ++ [Event.frontend_scanf "ring-page-order"]) []
    (fun j hj => by rw [Nat.zero_add]; exact hall j hj)
  simp only [Nat.zero_add, List.nil_append, List.append_assoc, List.singleton_append] at h
  simp only [xen_block_connect, ho, hle, if_true, h]

/-- The multi-page branch of `xen_block_connect` when the key of index `j`,
below the count `nr_ring_ref`, is the first one missing. -/
theorem connect_count_missing (c : Collab) (dev : XenBlockDevice) (order j : Nat)
    (ho : c.scanf_u "ring-page-order" = some order) (hle : order ≤ dev.max_ring_page_order)
    (hj : j < ring_count c order) (hpre : ∀ k, k < j → c.scanf_u (ring_ref_key k) ≠ none)
    (hmiss : c.scanf_u (ring_ref_key j) = none) :
    xen_block_connect c dev =
      ({ dev with trace := dev.trace ++ Event.frontend_scanf "ring-page-order" ::
          (List.range (j + 1)).map (fun k => Event.frontend_scanf (ring_ref_key k)) },
        some ("failed to read " ++ ring_ref_key j)) := by
  have h := read_ring_refs_missing c (ring_count c order) 0 j
    (dev.trace ++ [Event.frontend_scanf "ring-page-order"]) [] hj
    (fun k hk => by rw [Nat.zero_add]; exact hpre k hk) (by rw [Nat.zero_add]; exact hmiss)
  simp only [Nat.zero_add, List.append_assoc, List.singleton_append] at h
  simp only [xen_block_connect, ho, hle, if_true, h]

theorem connect_order_all (c : Collab) (dev : XenBlockDevice) (order : Nat)
    (ho : c.scanf_u "ring-page-order" = some order) (hle : order ≤ dev.max_ring_page_order)
    (h31 : order < 31) (hall : ∀ j, j < 2 ^ order → c.scanf_u (ring_ref_key j) ≠ none) :
    xen_block_connect c dev =
      connect_finish c dev
        (dev.trace ++ Event.frontend_scanf "ring-page-order" ::
          (List.range (2 ^ order)).map (fun j => Event.frontend_scanf (ring_ref_key j)))
        ((List.range (2 ^ order)).map (fun j => (c.scanf_u (ring_ref_key j)).getD 0))
        (2 ^ order) := by
  have h := connect_count_all c dev order ho hle
    (by rw [ring_count_defined c order h31]; exact hall)
  rw [ring_count_defined c order h31] at h
  exact h

theorem connect_order_missing (c : Collab) (dev : XenBlockDevice) (order j : Nat)
    (ho : c.scanf_u "ring-page-order" = some order) (hle : order ≤ dev.max_ring_page_order)
    (h31 : order < 31) (hj : j < 2 ^ order)
    (hpre : ∀ k, k < j → c.scanf_u (ring_ref_key k) ≠ none)
    (hmiss : c.scanf_u (ring_ref_key j) = none) :
    xen_block_connect c dev =
      ({ dev with trace := dev.trace ++ Event.frontend_scanf "ring-page-order" ::
          (List.range (j + 1)).map (fun k => Event.frontend_scanf (ring_ref_key k)) },
        some ("failed to read " ++ ring_ref_key j)) :=
  connect_count_missing c dev order j ho hle
    (by rw [ring_count_defined c order h31]; exact hj) hpre hmiss

/-- The Initialised/Connected case of `xen_block_frontend_changed` on a
backend that is not Connected: disconnect, then connect, then the state. -/
theorem frontend_changed_connect (c : Collab) (dev : XenBlockDevice) (fs : xenbus_state)
    (hfs : fs = XenbusStateInitialised ∨ fs = XenbusStateConnected)
    (hnc : dev.backend_state ≠ XenbusStateConnected) :
    xen_block_frontend_changed c dev fs =
      if (xen_block_connect c (xen_block_disconnect dev).1).2 = none then
        (xen_device_backend_set_state (xen_block_connect c (xen_block_disconnect dev).1).1
          XenbusStateConnected, none)
      else xen_block_connect c (xen_block_disconnect dev).1 := by
  have key : (match xen_block_connect c (xen_block_disconnect dev).1 with
      | (d, some e) => (d, some e)
      | (d, none) => (xen_device_backend_set_state d XenbusStateConnected, none)) =
      if (xen_block_connect c (xen_block_disconnect dev).1).2 = none then
        (xen_device_backend_set_state (xen_block_connect c (xen_block_disconnect dev).1).1
          XenbusStateConnected, none)
      else xen_block_connect c (xen_block_disconnect dev).1 := by
    cases xen_block_connect c (xen_block_disconnect dev).1 with
    | mk d err => cases err <;> simp
  rcases hfs with h | h <;> subst h <;>
    simp only [xen_block_frontend_changed, xen_device_backend_get_state, hnc, if_false,
      xen_block_disconnect] <;> exact key

/-- The Initialised/Connected case of `xen_block_frontend_changed` on a
backend that is already Connected: nothing happens. -/
theorem frontend_changed_connected (c : Collab) (dev : XenBlockDevice)
    (h : dev.backend_state = XenbusStateConnected) :
    xen_block_frontend_changed c dev XenbusStateInitialised = (dev, none) ∧
    xen_block_frontend_changed c dev XenbusStateConnected = (dev, none) := by
  simp [xen_block_frontend_changed, xen_device_backend_get_state, h]


/-! ## Transitions of the state machine -/

/-- C10. State machine idempotence: when the backend state is already
Connected, a frontend notification of Initialised or Connected returns the
device unchanged (no dataplane stop, no connect, backend state still
Connected) and no error; hence from a backend that is not Connected,
delivering Connected twice, the first connect succeeding, leaves the backend
Connected with exactly one `xen_block_dataplane_start` call more than
before, whatever the collaborators answer the second time. -/
theorem connected_idempotent (c c2 : Collab) (dev : XenBlockDevice) :
    (dev.backend_state = XenbusStateConnected →
      xen_block_frontend_changed c dev XenbusStateInitialised = (dev, none) ∧
      xen_block_frontend_changed c dev XenbusStateConnected = (dev, none)) ∧
    (dev.backend_state ≠ XenbusStateConnected →
      (xen_block_frontend_changed c dev XenbusStateConnected).2 = none →
      (xen_block_frontend_changed c dev XenbusStateConnected).1.backend_state =
        XenbusStateConnected ∧
      xen_block_frontend_changed c2 (xen_block_frontend_changed c dev XenbusStateConnected).1
        XenbusStateConnected =
        ((xen_block_frontend_changed c dev XenbusStateConnected).1, none) ∧
      count_start (xen_block_frontend_changed c2
        (xen_block_frontend_changed c dev XenbusStateConnected).1
        XenbusStateConnected).1.trace = count_start dev.trace + 1) := by
  refine ⟨frontend_changed_connected c dev, fun hnc hok => ?_⟩
  have hfc := frontend_changed_connect c dev XenbusStateConnected (Or.inr rfl) hnc
  obtain ⟨_, _, evs, htr, _, _, hone⟩ := xen_block_connect_fields c (xen_block_disconnect dev).1
  by_cases hc : (xen_block_connect c (xen_block_disconnect dev).1).2 = none
  · rw [if_pos hc] at hfc
    have hst : (xen_block_frontend_changed c dev XenbusStateConnected).1.backend_state =
        XenbusStateConnected := by rw [hfc]; rfl
    have h2 := (frontend_changed_connected c2 _ hst).2
    refine ⟨hst, h2, ?_⟩
    rw [h2, hfc]
    simp only [xen_device_backend_set_state]
    rw [htr, count_start_append, hone hc]
    simp [xen_block_disconnect, count_start_append, count_start]
  · rw [if_neg hc] at hfc
    rw [hfc] at hok
    exact absurd hok hc

/-- Witness for C10: a Closed backend, a frontend with the legacy keys. -/
theorem connected_idempotent_witness :
    sample_dev.backend_state ≠ XenbusStateConnected ∧
    (xen_block_frontend_changed sample_collab sample_dev XenbusStateConnected).2 = none ∧
    (xen_block_frontend_changed sample_collab sample_dev XenbusStateConnected).1.backend_state =
      XenbusStateConnected ∧
    xen_block_frontend_changed sample_collab
        (xen_block_frontend_changed sample_collab sample_dev XenbusStateConnected).1
        XenbusStateConnected =
      ((xen_block_frontend_changed sample_collab sample_dev XenbusStateConnected).1, none) ∧
    count_start (xen_block_frontend_changed sample_collab
        (xen_block_frontend_changed sample_collab sample_dev XenbusStateConnected).1
        XenbusStateConnected).1.trace = count_start sample_dev.trace + 1 :=
  ⟨by decide, by rfl,
    (connected_idempotent sample_collab sample_collab sample_dev).2 (by decide) (by rfl)⟩


/-- C11. Connect transition: when the backend state is not Connected and the
frontend state is Initialised or Connected, `xen_block_frontend_changed`
first calls disconnect (one `xen_block_dataplane_stop`), then connect (whose
calls follow, none of them a stop), reports the error of connect, and the
backend state afterwards is Connected if and only if connect reported no
error. -/
theorem connect_transition (c : Collab) (dev : XenBlockDevice) (fs : xenbus_state)
    (hfs : fs = XenbusStateInitialised ∨ fs = XenbusStateConnected)
    (hnc : dev.backend_state ≠ XenbusStateConnected) :
    (∃ evs, (xen_block_frontend_changed c dev fs).1.trace =
        dev.trace ++ Event.dataplane_stop :: evs ∧
      (xen_block_connect c (xen_block_disconnect dev).1).1.trace =
        (xen_block_disconnect dev).1.trace ++ evs ∧
      (xen_block_disconnect dev).1.trace = dev.trace ++ [Event.dataplane_stop] ∧
      count_stop evs = 0) ∧
    (xen_block_frontend_changed c dev fs).2 =
      (xen_block_connect c (xen_block_disconnect dev).1).2 ∧
    ((xen_block_frontend_changed c dev fs).1.backend_state = XenbusStateConnected ↔
      (xen_block_connect c (xen_block_disconnect dev).1).2 = none) := by
  have hfc := frontend_changed_connect c dev fs hfs hnc
  obtain ⟨hbs, _, evs, htr, hstop, _, _⟩ :=
    xen_block_connect_fields c (xen_block_disconnect dev).1
  have hd : (xen_block_disconnect dev).1.trace = dev.trace ++ [Event.dataplane_stop] := rfl
  have hdb : (xen_block_disconnect dev).1.backend_state = dev.backend_state := rfl
  by_cases hc : (xen_block_connect c (xen_block_disconnect dev).1).2 = none
  · rw [if_pos hc] at hfc
    refine ⟨⟨evs, ?_, htr, hd, hstop⟩, ?_, ?_⟩
    · rw [hfc]
      simp only [xen_device_backend_set_state]
      rw [htr, hd]; simp
    · rw [hfc, hc]
    · rw [hfc]; simp [xen_device_backend_set_state, hc]
  · rw [if_neg hc] at hfc
    refine ⟨⟨evs, ?_, htr, hd, hstop⟩, ?_, ?_⟩
    · rw [hfc, htr, hd]; simp
    · rw [hfc]
    · rw [hfc, hbs, hdb]
      exact ⟨fun h => absurd h hnc, fun h => absurd h hc⟩

/-- Witness for C11: a Closed backend receives Initialised. -/
theorem connect_transition_witness :
    (XenbusStateInitialised = XenbusStateInitialised ∨
      XenbusStateInitialised = XenbusStateConnected) ∧
    sample_dev.backend_state ≠ XenbusStateConnected ∧
    ((∃ evs, (xen_block_frontend_changed sample_collab sample_dev
          XenbusStateInitialised).1.trace = sample_dev.trace ++ Event.dataplane_stop :: evs ∧
      (xen_block_connect sample_collab (xen_block_disconnect sample_dev).1).1.trace =
        (xen_block_disconnect sample_dev).1.trace ++ evs ∧
      (xen_block_disconnect sample_dev).1.trace = sample_dev.trace ++ [Event.dataplane_stop] ∧
      count_stop evs = 0) ∧
    (xen_block_frontend_changed sample_collab sample_dev XenbusStateInitialised).2 =
      (xen_block_connect sample_collab (xen_block_disconnect sample_dev).1).2 ∧
    ((xen_block_frontend_changed sample_collab sample_dev
        XenbusStateInitialised).1.backend_state = XenbusStateConnected ↔
      (xen_block_connect sample_collab (xen_block_disconnect sample_dev).1).2 = none)) :=
  ⟨Or.inl rfl, by decide,
    connect_transition sample_collab sample_dev XenbusStateInitialised (Or.inl rfl) (by decide)⟩

/-- C12. Connect failure leaves the state alone: during an
Initialised/Connected notification on a backend that is not Connected, an
error of connect is the error `xen_block_frontend_changed` reports and the
backend state is unchanged; a missing legacy `ring-ref`, a missing
`event-channel`, a ring order above the limit and a failing dataplane start
each make connect report an error. -/
theorem connect_failure_keeps_state (c : Collab) (dev : XenBlockDevice) :
    (∀ (fs : xenbus_state) (e : Error),
      (fs = XenbusStateInitialised ∨ fs = XenbusStateConnected) →
      dev.backend_state ≠ XenbusStateConnected →
      (xen_block_connect c (xen_block_disconnect dev).1).2 = some e →
      (xen_block_frontend_changed c dev fs).2 = some e ∧
      (xen_block_frontend_changed c dev fs).1.backend_state = dev.backend_state) ∧
    (c.scanf_u "ring-page-order" = none → c.scanf_u "ring-ref" = none →
      (xen_block_connect c dev).2 = some "failed to read ring-ref") ∧
    (c.scanf_u "event-channel" = none → (xen_block_connect c dev).2 ≠ none) ∧
    (∀ order, c.scanf_u "ring-page-order" = some order → dev.max_ring_page_order < order →
      (xen_block_connect c dev).2 =
        some ("invalid ring-page-order (" ++ String.mk (fmt_d order) ++ ")")) ∧
    ((∀ r n ev p, c.start_err r n ev p ≠ none) → (xen_block_connect c dev).2 ≠ none) := by
  have tail_chan : ∀ tr r n, c.scanf_u "event-channel" = none →
      (connect_finish c dev tr r n).2 ≠ none := by
    intro tr r n h
    rw [connect_finish_no_channel c dev tr r n h]; simp
  have tail_start : ∀ tr r n, (∀ r n ev p, c.start_err r n ev p ≠ none) →
      (connect_finish c dev tr r n).2 ≠ none := by
    intro tr r n h
    cases hec : c.scanf_u "event-channel" with
    | none => rw [connect_finish_no_channel c dev tr r n hec]; simp
    | some ev => rw [connect_finish_channel c dev tr r n ev hec]; exact h _ _ _ _
  have through : (∀ tr r n, (connect_finish c dev tr r n).2 ≠ none) →
      (xen_block_connect c dev).2 ≠ none := by
    intro h
    unfold xen_block_connect
    cases c.scanf_u "ring-page-order" with
    | none =>
      dsimp only
      cases c.scanf_u "ring-ref" with
      | none => simp
      | some r => exact h _ _ _
    | some order =>
      dsimp only
      split_ifs
      · cases read_ring_refs c (ring_count c order) 0
            (dev.trace ++ [Event.frontend_scanf "ring-page-order"]) [] with
        | mk tr res =>
          cases res with
          | error e => simp
          | ok r => exact h _ _ _
      · simp
  refine ⟨?_, ?_, ?_, ?_, ?_⟩
  · intro fs e hfs hnc he
    have hfc := frontend_changed_connect c dev fs hfs hnc
    have hne : ¬ (xen_block_connect c (xen_block_disconnect dev).1).2 = none := by
      rw [he]; simp
    rw [if_neg hne] at hfc
    rw [hfc]
    exact ⟨he, (xen_block_connect_fields c (xen_block_disconnect dev).1).1⟩
  · intro ho hr
    rw [connect_legacy_missing c dev ho hr]
  · intro h
    exact through (fun tr r n => tail_chan tr r n h)
  · intro order ho hgt
    rw [connect_order_too_large c dev order ho hgt]
  · intro h
    exact through (fun tr r n => tail_start tr r n h)


/-- Witness for C12: the frontend published no `event-channel`. -/
theorem connect_failure_keeps_state_witness :
    (XenbusStateConnected = XenbusStateInitialised ∨
      XenbusStateConnected = XenbusStateConnected) ∧
    sample_dev.backend_state ≠ XenbusStateConnected ∧
    (xen_block_connect sample_collab_no_channel (xen_block_disconnect sample_dev).1).2 =
      some "failed to read event-channel" ∧
    (xen_block_frontend_changed sample_collab_no_channel sample_dev XenbusStateConnected).2 =
      some "failed to read event-channel" ∧
    (xen_block_frontend_changed sample_collab_no_channel sample_dev
      XenbusStateConnected).1.backend_state = sample_dev.backend_state :=
  ⟨Or.inr rfl, by decide, by rfl,
    (connect_failure_keeps_state sample_collab_no_channel sample_dev).1 XenbusStateConnected
      "failed to read event-channel" (Or.inr rfl) (by decide) (by rfl)⟩

/-- C13. Closed transition: for every backend state, a frontend notification
of Closed calls `xen_block_dataplane_stop` exactly once, reports no error
and leaves the backend state Closed; a second Closed notification stops the
dataplane once more, again without error; `xen_block_disconnect` never
reports an error. -/
theorem closed_transition (c c2 : Collab) (dev : XenBlockDevice) :
    xen_block_frontend_changed c dev XenbusStateClosed =
      ({ dev with trace := dev.trace ++ [Event.dataplane_stop],
                  backend_state := XenbusStateClosed }, none) ∧
    xen_block_frontend_changed c2 (xen_block_frontend_changed c dev XenbusStateClosed).1
        XenbusStateClosed =
      ({ dev with trace := dev.trace ++ [Event.dataplane_stop, Event.dataplane_stop],
                  backend_state := XenbusStateClosed }, none) ∧
    count_stop (xen_block_frontend_changed c dev XenbusStateClosed).1.trace =
      count_stop dev.trace + 1 ∧
    count_start (xen_block_frontend_changed c dev XenbusStateClosed).1.trace =
      count_start dev.trace ∧
    (xen_block_disconnect dev).2 = none := by
  have h1 : ∀ (c : Collab) (d : XenBlockDevice),
      xen_block_frontend_changed c d XenbusStateClosed =
        ({ d with trace := d.trace ++ [Event.dataplane_stop],
                  backend_state := XenbusStateClosed }, none) := by
    intro c d
    simp [xen_block_frontend_changed, xen_block_disconnect, xen_device_backend_set_state]
  refine ⟨h1 c dev, ?_, ?_, ?_, rfl⟩
  · rw [h1 c dev, h1 c2]
    simp
  · rw [h1 c dev]
    simp [count_stop_append, count_stop]
  · rw [h1 c dev]
    simp [count_start_append, count_start]

/-- C14. Closing and ignored states: a frontend notification of Closing makes
no collaborator call and sets the backend state to Closing; a notification
of any frontend state other than Initialised, Connected, Closing and Closed
returns the device unchanged and no error. -/
theorem closing_and_ignored (c : Collab) (dev : XenBlockDevice) :
    xen_block_frontend_changed c dev XenbusStateClosing =
      ({ dev with backend_state := XenbusStateClosing }, none) ∧
    (∀ fs : xenbus_state, fs ≠ XenbusStateInitialised → fs ≠ XenbusStateConnected →
      fs ≠ XenbusStateClosing → fs ≠ XenbusStateClosed →
      xen_block_frontend_changed c dev fs = (dev, none)) := by
  refine ⟨rfl, ?_⟩
  intro fs h1 h2 h3 h4
  cases fs <;> first | rfl | contradiction

/-- Witness for C14: the frontend state Reconfiguring is ignored. -/
theorem closing_and_ignored_witness :
    XenbusStateReconfiguring ≠ XenbusStateInitialised ∧
    XenbusStateReconfiguring ≠ XenbusStateConnected ∧
    XenbusStateReconfiguring ≠ XenbusStateClosing ∧
    XenbusStateReconfiguring ≠ XenbusStateClosed ∧
    xen_block_frontend_changed sample_collab sample_dev XenbusStateReconfiguring =
      (sample_dev, none) :=
  ⟨by decide, by decide, by decide, by decide,
    (closing_and_ignored sample_collab sample_dev).2 XenbusStateReconfiguring (by decide)
      (by decide) (by decide) (by decide)⟩


/-! ## Ring negotiation -/

theorem ring_ref_key_0 : ring_ref_key 0 = "ring-ref0" := by
  simp [ring_ref_key, fmt_lu]; rfl

theorem ring_ref_key_1 : ring_ref_key 1 = "ring-ref1" := by
  simp [ring_ref_key, fmt_lu]; rfl

theorem ring_ref_key_2 : ring_ref_key 2 = "ring-ref2" := by
  simp [ring_ref_key, fmt_lu]; rfl

theorem ring_ref_key_3 : ring_ref_key 3 = "ring-ref3" := by
  simp [ring_ref_key, fmt_lu]; rfl

/-- The frontend of `sample_collab_multi` published the four keys of order 2. -/
theorem sample_collab_multi_keys :
    ∀ j, j < 2 ^ 2 → sample_collab_multi.scanf_u (ring_ref_key j) ≠ none := by
  intro j hj
  have hj4 : j < 4 := hj
  interval_cases j
  · rw [ring_ref_key_0]; decide
  · rw [ring_ref_key_1]; decide
  · rw [ring_ref_key_2]; decide
  · rw [ring_ref_key_3]; decide

/-- The count of `sample_collab_order32` and of `sample_collab_order32_gap`
at order 32 is 1. -/
theorem ring_count_order32 :
    ring_count sample_collab_order32 32 = 1 ∧ ring_count sample_collab_order32_gap 32 = 1 := by
  have e : (1 : Nat) % UINT_RANGE = 1 := by decide
  constructor
  · rw [ring_count, if_neg (by decide)]; exact e
  · rw [ring_count, if_neg (by decide)]; exact e

/-- C15, counterexample. At `ring-page-order` 32 with the limit raised to 32
and every key present, the claim has `xen_block_connect` read the 2^32 keys
`ring-ref0` ..., `ring-ref1` among them, and pass the count 2^32. The count
is an `unsigned int`, below 2^32 whatever the shift yields; here the call
reads `ring-ref0` only and passes one reference with the count 1. -/
theorem ring_negotiation_counterexample :
    sample_collab_order32.scanf_u "ring-page-order" = some 32 ∧
    32 ≤ sample_dev_limit32.max_ring_page_order ∧
    (∀ key, sample_collab_order32.scanf_u key ≠ none) ∧
    xen_block_connect sample_collab_order32 sample_dev_limit32 =
      ({ sample_dev_limit32 with trace :=
          [Event.frontend_scanf "ring-page-order", Event.frontend_scanf "ring-ref0",
            Event.frontend_scanf "event-channel", Event.frontend_scanf "protocol",
            Event.dataplane_start [1] 1 1 BLKIF_PROTOCOL_NATIVE] }, none) ∧
    Event.frontend_scanf "ring-ref1" ∉
      (xen_block_connect sample_collab_order32 sample_dev_limit32).1.trace ∧
    (∀ c : Collab, ring_count c 32 ≠ 2 ^ 32) := by
  have hkeys : ∀ key, sample_collab_order32.scanf_u key ≠ none := by
    intro key
    simp only [sample_collab_order32]
    split_ifs <;> simp
  have hev : xen_block_connect sample_collab_order32 sample_dev_limit32 =
      ({ sample_dev_limit32 with trace :=
          [Event.frontend_scanf "ring-page-order", Event.frontend_scanf "ring-ref0",
            Event.frontend_scanf "event-channel", Event.frontend_scanf "protocol",
            Event.dataplane_start [1] 1 1 BLKIF_PROTOCOL_NATIVE] }, none) := by
    have hr : List.range 1 = [0] := by decide
    rw [connect_count_all sample_collab_order32 sample_dev_limit32 32 rfl (by decide)
        (fun j _ => hkeys _),
      connect_finish_channel _ _ _ _ _ 1 rfl, ring_count_order32.1, hr]
    simp only [List.map_cons, List.map_nil, ring_ref_key_0]
    rfl
  refine ⟨rfl, by decide, hkeys, hev, ?_, fun c => Nat.ne_of_lt (ring_count_lt c 32)⟩
  rw [hev]
  decide

/-- C15, amended. Ring negotiation: with `ring-page-order` present, `order`
within the limit and at most 30 (where the shift `1 << order` is defined) and
every key present, `xen_block_connect` reads exactly the 2^order keys
`ring-ref0` ... `ring-ref(2^order - 1)` in ascending order (between the
reads of `ring-page-order` and `event-channel`) and passes their values in
that order, with count 2^order, to `xen_block_dataplane_start`; with
`ring-page-order` absent it reads only the legacy key `ring-ref` and passes a
one-element list; order 2 with limit 4 reads the four keys of indices 0 to
3. -/
theorem ring_negotiation (c : Collab) (dev : XenBlockDevice) :
    (∀ order ev : Nat, c.scanf_u "ring-page-order" = some order →
      order ≤ dev.max_ring_page_order → order < 31 →
      (∀ j, j < 2 ^ order → c.scanf_u (ring_ref_key j) ≠ none) →
      c.scanf_u "event-channel" = some ev →
      xen_block_connect c dev =
        ({ dev with trace := dev.trace ++ Event.frontend_scanf "ring-page-order" ::
            (List.range (2 ^ order)).map (fun j => Event.frontend_scanf (ring_ref_key j)) ++
            [Event.frontend_scanf "event-channel", Event.frontend_scanf "protocol",
              Event.dataplane_start
                ((List.range (2 ^ order)).map (fun j => (c.scanf_u (ring_ref_key j)).getD 0))
                (2 ^ order) ev (connect_protocol (c.scanf_s "protocol"))] },
          c.start_err
            ((List.range (2 ^ order)).map (fun j => (c.scanf_u (ring_ref_key j)).getD 0))
            (2 ^ order) ev (connect_protocol (c.scanf_s "protocol")))) ∧
    (∀ r ev : Nat, c.scanf_u "ring-page-order" = none → c.scanf_u "ring-ref" = some r →
      c.scanf_u "event-channel" = some ev →
      xen_block_connect c dev =
        ({ dev with trace := dev.trace ++
            [Event.frontend_scanf "ring-page-order", Event.frontend_scanf "ring-ref",
              Event.frontend_scanf "event-channel", Event.frontend_scanf "protocol",
              Event.dataplane_start [r] 1 ev (connect_protocol (c.scanf_s "protocol"))] },
          c.start_err [r] 1 ev (connect_protocol (c.scanf_s "protocol")))) ∧
    xen_block_connect sample_collab_multi sample_dev =
      ({ sample_dev with trace :=
          [Event.frontend_scanf "ring-page-order", Event.frontend_scanf "ring-ref0",
            Event.frontend_scanf "ring-ref1", Event.frontend_scanf "ring-ref2",
            Event.frontend_scanf "ring-ref3", Event.frontend_scanf "event-channel",
            Event.frontend_scanf "protocol",
            Event.dataplane_start [10, 11, 12, 13] 4 3 BLKIF_PROTOCOL_X86_64] }, none) := by
  refine ⟨?_, ?_, ?_⟩
  · intro order ev ho hle h31 hall hec
    rw [connect_order_all c dev order ho hle h31 hall, connect_finish_channel _ _ _ _ _ ev hec]
  · intro r ev ho hr hec
    rw [connect_legacy c dev r ho hr, connect_finish_channel _ _ _ _ _ ev hec]
    simp
  · have hr : List.range (2 ^ 2) = [0, 1, 2, 3] := by decide
    rw [connect_order_all sample_collab_multi sample_dev 2 rfl (by decide) (by decide)
        sample_collab_multi_keys,
      connect_finish_channel _ _ _ _ _ 3 rfl, hr]
    simp only [List.map_cons, List.map_nil, ring_ref_key_0, ring_ref_key_1, ring_ref_key_2,
      ring_ref_key_3]
    rfl

/-- Witness for C15: the frontend that published order 2 and its four keys,
and the legacy single-page frontend. -/
theorem ring_negotiation_witness :
    (sample_collab_multi.scanf_u "ring-page-order" = some 2 ∧
      2 ≤ sample_dev.max_ring_page_order ∧ 2 < 31 ∧
      (∀ j, j < 2 ^ 2 → sample_collab_multi.scanf_u (ring_ref_key j) ≠ none) ∧
      sample_collab_multi.scanf_u "event-channel" = some 3 ∧
      xen_block_connect sample_collab_multi sample_dev =
        ({ sample_dev with trace := sample_dev.trace ++
            Event.frontend_scanf "ring-page-order" ::
            (List.range (2 ^ 2)).map (fun j => Event.frontend_scanf (ring_ref_key j)) ++
            [Event.frontend_scanf "event-channel", Event.frontend_scanf "protocol",
              Event.dataplane_start
                ((List.range (2 ^ 2)).map
                  (fun j => (sample_collab_multi.scanf_u (ring_ref_key j)).getD 0))
                (2 ^ 2) 3 (connect_protocol (sample_collab_multi.scanf_s "protocol"))] },
          sample_collab_multi.start_err
            ((List.range (2 ^ 2)).map
              (fun j => (sample_collab_multi.scanf_u (ring_ref_key j)).getD 0))
            (2 ^ 2) 3 (connect_protocol (sample_collab_multi.scanf_s "protocol")))) ∧
    (sample_collab.scanf_u "ring-page-order" = none ∧
      sample_collab.scanf_u "ring-ref" = some 8 ∧
      sample_collab.scanf_u "event-channel" = some 3 ∧
      xen_block_connect sample_collab sample_dev =
        ({ sample_dev with trace := sample_dev.trace ++
            [Event.frontend_scanf "ring-page-order", Event.frontend_scanf "ring-ref",
              Event.frontend_scanf "event-channel", Event.frontend_scanf "protocol",
              Event.dataplane_start [8] 1 3
                (connect_protocol (sample_collab.scanf_s "protocol"))] },
          sample_collab.start_err [8] 1 3
            (connect_protocol (sample_collab.scanf_s "protocol")))) :=
  ⟨⟨rfl, by decide, by decide, sample_collab_multi_keys, rfl,
      (ring_negotiation sample_collab_multi sample_dev).1 2 3 rfl (by decide) (by decide)
        sample_collab_multi_keys rfl⟩,
    ⟨rfl, rfl, rfl, (ring_negotiation sample_collab sample_dev).2.1 8 3 rfl rfl rfl⟩⟩

/-- C16. Ring order limit: when `ring-page-order` is present with a value
above the device's `max_ring_page_order`, `xen_block_connect` fails with the
error `invalid ring-page-order (<order>)` after reading that one key: it
reads no ring-ref key and no `event-channel` key and does not call
`xen_block_dataplane_start`; order 5 against the limit 4 fails so. -/
theorem ring_order_limit (c : Collab) (dev : XenBlockDevice) (order : Nat)
    (ho : c.scanf_u "ring-page-order" = some order) (hgt : dev.max_ring_page_order < order) :
    xen_block_connect c dev =
      ({ dev with trace := dev.trace ++ [Event.frontend_scanf "ring-page-order"] },
        some ("invalid ring-page-order (" ++ String.mk (fmt_d order) ++ ")")) ∧
    count_start (xen_block_connect c dev).1.trace = count_start dev.trace ∧
    xen_block_connect sample_collab_order5 sample_dev =
      ({ sample_dev with trace := [Event.frontend_scanf "ring-page-order"] },
        some "invalid ring-page-order (5)") := by
  have h := connect_order_too_large c dev order ho hgt
  refine ⟨h, ?_, ?_⟩
  · rw [h]
    simp [count_start_append, count_start]
  · rw [connect_order_too_large sample_collab_order5 sample_dev 5 rfl (by decide)]
    have e : fmt_d 5 = ['5'] := by
      simp [fmt_d, fmt_lu, UINT_RANGE]
      rfl
    rw [e]
    rfl

/-- Witness for C16: order 5 against the default limit 4. -/
theorem ring_order_limit_witness :
    sample_collab_order5.scanf_u "ring-page-order" = some 5 ∧
    sample_dev.max_ring_page_order < 5 ∧
    (xen_block_connect sample_collab_order5 sample_dev =
      ({ sample_dev with trace :=
          sample_dev.trace ++ [Event.frontend_scanf "ring-page-order"] },
        some ("invalid ring-page-order (" ++ String.mk (fmt_d 5) ++ ")")) ∧
    count_start (xen_block_connect sample_collab_order5 sample_dev).1.trace =
      count_start sample_dev.trace ∧
    xen_block_connect sample_collab_order5 sample_dev =
      ({ sample_dev with trace := [Event.frontend_scanf "ring-page-order"] },
        some "invalid ring-page-order (5)")) :=
  ⟨rfl, by decide, ring_order_limit sample_collab_order5 sample_dev 5 rfl (by decide)⟩

/-- When `event-channel` is missing `xen_block_connect` fails without
calling `xen_block_dataplane_start`. -/
theorem connect_no_channel (c : Collab) (dev : XenBlockDevice)
    (h : c.scanf_u "event-channel" = none) :
    (xen_block_connect c dev).2 ≠ none ∧
    count_start (xen_block_connect c dev).1.trace = count_start dev.trace := by
  have tail : ∀ tr r n, (connect_finish c dev tr r n).2 ≠ none ∧
      count_start (connect_finish c dev tr r n).1.trace = count_start tr := by
    intro tr r n
    rw [connect_finish_no_channel c dev tr r n h]
    exact ⟨by simp, by simp [count_start_append, count_start]⟩
  unfold xen_block_connect
  cases c.scanf_u "ring-page-order" with
  | none =>
    dsimp only
    cases c.scanf_u "ring-ref" with
    | none => exact ⟨by simp, by simp [count_start_append, count_start]⟩
    | some r =>
      dsimp only
      refine ⟨(tail _ _ _).1, ?_⟩
      rw [(tail _ _ _).2]
      simp [count_start_append, count_start]
  | some order =>
    dsimp only
    split_ifs
    · obtain ⟨revs, hr1, hr2, _⟩ := read_ring_refs_trace c (ring_count c order) 0
        (dev.trace ++ [Event.frontend_scanf "ring-page-order"]) []
      cases hrr : read_ring_refs c (ring_count c order) 0
          (dev.trace ++ [Event.frontend_scanf "ring-page-order"]) [] with
      | mk tr res =>
        rw [hrr] at hr1
        simp only at hr1
        cases res with
        | error e =>
          refine ⟨by simp, ?_⟩
          simp [hr1, count_start_append, count_start, hr2]
        | ok r =>
          dsimp only
          refine ⟨(tail _ _ _).1, ?_⟩
          rw [(tail _ _ _).2, hr1]
          simp [count_start_append, count_start, hr2]
    · exact ⟨by simp, by simp [count_start_append, count_start]⟩

/-- The frontend of `sample_collab_gap` published `ring-ref0` and
`ring-ref1` but no `ring-ref2`. -/
theorem sample_collab_gap_keys :
    (∀ k, k < 2 → sample_collab_gap.scanf_u (ring_ref_key k) ≠ none) ∧
    sample_collab_gap.scanf_u (ring_ref_key 2) = none := by
  refine ⟨?_, ?_⟩
  · intro k hk
    interval_cases k
    · rw [ring_ref_key_0]; decide
    · rw [ring_ref_key_1]; decide
  · rw [ring_ref_key_2]; decide

/-- C28, counterexample. At `ring-page-order` 32 with the limit raised to 32
the key `ring-ref1` is required by the claim (1 < 2^32) and absent, yet
`xen_block_connect` reads `ring-ref0` only, reports no error and calls
`xen_block_dataplane_start`. Whatever the shift yields the count is below
2^32, so at order 32 some required index is never read. -/
theorem missing_key_aborts_counterexample :
    sample_collab_order32_gap.scanf_u "ring-page-order" = some 32 ∧
    32 ≤ sample_dev_limit32.max_ring_page_order ∧
    1 < 2 ^ 32 ∧
    sample_collab_order32_gap.scanf_u (ring_ref_key 1) = none ∧
    xen_block_connect sample_collab_order32_gap sample_dev_limit32 =
      ({ sample_dev_limit32 with trace :=
          [Event.frontend_scanf "ring-page-order", Event.frontend_scanf "ring-ref0",
            Event.frontend_scanf "event-channel", Event.frontend_scanf "protocol",
            Event.dataplane_start [10] 1 3 BLKIF_PROTOCOL_NATIVE] }, none) ∧
    (xen_block_connect sample_collab_order32_gap sample_dev_limit32).2 = none ∧
    count_start (xen_block_connect sample_collab_order32_gap sample_dev_limit32).1.trace =
      1 ∧
    (∀ c : Collab, ring_count c 32 < 2 ^ 32) := by
  have hev : xen_block_connect sample_collab_order32_gap sample_dev_limit32 =
      ({ sample_dev_limit32 with trace :=
          [Event.frontend_scanf "ring-page-order", Event.frontend_scanf "ring-ref0",
            Event.frontend_scanf "event-channel", Event.frontend_scanf "protocol",
            Event.dataplane_start [10] 1 3 BLKIF_PROTOCOL_NATIVE] }, none) := by
    have hr : List.range 1 = [0] := by decide
    have hall : ∀ j, j < ring_count sample_collab_order32_gap 32 →
        sample_collab_order32_gap.scanf_u (ring_ref_key j) ≠ none := by
      intro j hj
      rw [ring_count_order32.2] at hj
      interval_cases j
      rw [ring_ref_key_0]; decide
    rw [connect_count_all sample_collab_order32_gap sample_dev_limit32 32 rfl (by decide) hall,
      connect_finish_channel _ _ _ _ _ 3 rfl, ring_count_order32.2, hr]
    simp only [List.map_cons, List.map_nil, ring_ref_key_0]
    rfl
  refine ⟨rfl, by decide, by decide, ?_, hev, ?_, ?_, fun c => ring_count_lt c 32⟩
  · rw [ring_ref_key_1]; decide
  · rw [hev]
  · rw [hev]; decide

/-- C28, amended. Missing handshake key aborts before the dataplane: a
missing legacy `ring-ref` (with `ring-page-order` absent), a missing
`ring-ref<j>` with j < 2^order for an order within the limit and at most 30
(where the shift `1 << order` is defined), and a missing `event-channel` each
make `xen_block_connect` report an error without calling
`xen_block_dataplane_start`; for a multi-page ring the reads stop at the
first missing index j: the keys read are `ring-page-order` and `ring-ref0`
... `ring-ref<j>`, no later ring-ref key and no `event-channel`. -/
theorem missing_key_aborts (c : Collab) (dev : XenBlockDevice) :
    (c.scanf_u "ring-page-order" = none → c.scanf_u "ring-ref" = none →
      xen_block_connect c dev =
        ({ dev with trace := dev.trace ++
            [Event.frontend_scanf "ring-page-order", Event.frontend_scanf "ring-ref"] },
          some "failed to read ring-ref")) ∧
    (∀ order j : Nat, c.scanf_u "ring-page-order" = some order →
      order ≤ dev.max_ring_page_order → order < 31 → j < 2 ^ order →
      (∀ k, k < j → c.scanf_u (ring_ref_key k) ≠ none) →
      c.scanf_u (ring_ref_key j) = none →
      xen_block_connect c dev =
        ({ dev with trace := dev.trace ++ Event.frontend_scanf "ring-page-order" ::
            (List.range (j + 1)).map (fun k => Event.frontend_scanf (ring_ref_key k)) },
          some ("failed to read " ++ ring_ref_key j))) ∧
    (c.scanf_u "event-channel" = none →
      (xen_block_connect c dev).2 ≠ none ∧
      count_start (xen_block_connect c dev).1.trace = count_start dev.trace ∧
      ∀ tr ring_ref nr, connect_finish c dev tr ring_ref nr =
        ({ dev with trace := tr ++ [Event.frontend_scanf "event-channel"] },
          some "failed to read event-channel")) := by
  refine ⟨connect_legacy_missing c dev, ?_, ?_⟩
  · intro order j ho hle h31 hj hpre hmiss
    exact connect_order_missing c dev order j ho hle h31 hj hpre hmiss
  · intro h
    exact ⟨(connect_no_channel c dev h).1, (connect_no_channel c dev h).2,
      fun tr r n => connect_finish_no_channel c dev tr r n h⟩

/-- Witness for C28: the frontend that published nothing (no legacy
`ring-ref`), the frontend of order 2 whose `ring-ref2` is the first key
missing, and the frontend that published no `event-channel`. -/
theorem missing_key_aborts_witness :
    (sample_collab_empty.scanf_u "ring-page-order" = none ∧
      sample_collab_empty.scanf_u "ring-ref" = none ∧
      xen_block_connect sample_collab_empty sample_dev =
        ({ sample_dev with trace := sample_dev.trace ++
            [Event.frontend_scanf "ring-page-order", Event.frontend_scanf "ring-ref"] },
          some "failed to read ring-ref")) ∧
    (sample_collab_gap.scanf_u "ring-page-order" = some 2 ∧
      2 ≤ sample_dev.max_ring_page_order ∧ 2 < 31 ∧ 2 < 2 ^ 2 ∧
      (∀ k, k < 2 → sample_collab_gap.scanf_u (ring_ref_key k) ≠ none) ∧
      sample_collab_gap.scanf_u (ring_ref_key 2) = none ∧
      xen_block_connect sample_collab_gap sample_dev =
        ({ sample_dev with trace := sample_dev.trace ++
            Event.frontend_scanf "ring-page-order" ::
            (List.range (2 + 1)).map (fun k => Event.frontend_scanf (ring_ref_key k)) },
          some ("failed to read " ++ ring_ref_key 2))) ∧
    (sample_collab_no_channel.scanf_u "event-channel" = none ∧
      (xen_block_connect sample_collab_no_channel sample_dev).2 ≠ none ∧
      count_start (xen_block_connect sample_collab_no_channel sample_dev).1.trace =
        count_start sample_dev.trace ∧
      ∀ tr ring_ref nr, connect_finish sample_collab_no_channel sample_dev tr ring_ref nr =
        ({ sample_dev with trace := tr ++ [Event.frontend_scanf "event-channel"] },
          some "failed to read event-channel")) :=
  ⟨⟨rfl, rfl, (missing_key_aborts sample_collab_empty sample_dev).1 rfl rfl⟩,
    ⟨rfl, by decide, by decide, by decide, sample_collab_gap_keys.1, sample_collab_gap_keys.2,
      (missing_key_aborts sample_collab_gap sample_dev).2.1 2 2 rfl (by decide) (by decide)
        (by decide) sample_collab_gap_keys.1 sample_collab_gap_keys.2⟩,
    ⟨rfl, (missing_key_aborts sample_collab_no_channel sample_dev).2.2 rfl⟩⟩


/-! ## Packed numbers -/

/-- A packed number is a sum: the three fields occupy disjoint bits. -/
theorem pack_eq_add (m k1 k2 d p : Nat) (hk : k2 ≤ k1) (hd : d < 2 ^ (k1 - k2))
    (hp : p < 2 ^ k2) :
    (m <<< k1) ||| (d <<< k2) ||| p = m * 2 ^ k1 + d * 2 ^ k2 + p := by
  have hpow : 2 ^ k1 = 2 ^ k2 * 2 ^ (k1 - k2) := by
    rw [← pow_add]; congr 1; omega
  have hb : 2 ^ k2 * d < 2 ^ k1 := by
    rw [hpow]
    exact Nat.mul_lt_mul_of_pos_left hd (Nat.two_pow_pos k2)
  have h1 : (m <<< k1) ||| (d <<< k2) = 2 ^ k1 * m + 2 ^ k2 * d := by
    rw [Nat.shiftLeft_eq, Nat.shiftLeft_eq, Nat.mul_comm m, Nat.mul_comm d]
    exact (Nat.mul_add_lt_is_or hb m).symm
  have h2 : 2 ^ k1 * m + 2 ^ k2 * d = 2 ^ k2 * (2 ^ (k1 - k2) * m + d) := by
    rw [hpow]; ring
  rw [h1, h2, ← Nat.mul_add_lt_is_or hp, ← h2]
  ring

/-- The table of §4.1 in arithmetic form. -/
theorem spec_packed_number_arith (k : XenBlockVdevType) (d p n : Nat)
    (h : spec_packed_number k d p = some n) :
    ((k = .DP ∨ k = .XVD) ∧ d < 16 ∧ p < 16 ∧ n = 51712 + 16 * d + p) ∨
    ((k = .DP ∨ k = .XVD) ∧ ¬ (d < 16 ∧ p < 16) ∧ d < 1048576 ∧ p < 256 ∧
      n = 268435456 + 256 * d + p) ∨
    (k = .HD ∧ d < 2 ∧ p < 64 ∧ n = 768 + 64 * d + p) ∨
    (k = .HD ∧ 2 ≤ d ∧ d < 4 ∧ p < 64 ∧ n = 5632 + 64 * (d - 2) + p) ∨
    (k = .SD ∧ d < 16 ∧ p < 16 ∧ n = 2048 + 16 * d + p) := by
  have short := fun (hd : d < 16) (hp : p < 16) => pack_eq_add 202 8 4 d p (by decide) hd hp
  have ext := fun (hd : d < 1048576) (hp : p < 256) =>
    pack_eq_add 1 28 8 d p (by decide) hd hp
  have hd0 := fun (hd : d < 4) (hp : p < 64) => pack_eq_add 3 8 6 d p (by decide) hd hp
  have hd1 := fun (hd : d - 2 < 4) (hp : p < 64) =>
    pack_eq_add 22 8 6 (d - 2) p (by decide) hd hp
  have sd := fun (hd : d < 16) (hp : p < 16) => pack_eq_add 8 8 4 d p (by decide) hd hp
  cases k <;> simp only [spec_packed_number, reduceCtorEq] at h
  · split_ifs at h with h1 h2
    · rw [short h1.1 h1.2] at h
      simp only [Option.some.injEq] at h
      exact Or.inl ⟨Or.inl rfl, h1.1, h1.2, by omega⟩
    · rw [ext (by omega) h2.2] at h
      simp only [Option.some.injEq] at h
      exact Or.inr (Or.inl ⟨Or.inl rfl, h1, by omega, h2.2, by omega⟩)
  · split_ifs at h with h1 h2
    · rw [short h1.1 h1.2] at h
      simp only [Option.some.injEq] at h
      exact Or.inl ⟨Or.inr rfl, h1.1, h1.2, by omega⟩
    · rw [ext (by omega) h2.2] at h
      simp only [Option.some.injEq] at h
      exact Or.inr (Or.inl ⟨Or.inr rfl, h1, by omega, h2.2, by omega⟩)
  · split_ifs at h with h1 h2
    · rw [hd0 (by omega) h1.2] at h
      simp only [Option.some.injEq] at h
      exact Or.inr (Or.inr (Or.inl ⟨rfl, by omega, h1.2, by omega⟩))
    · rw [hd1 (by omega) h2.2] at h
      simp only [Option.some.injEq] at h
      exact Or.inr (Or.inr (Or.inr (Or.inl ⟨rfl, by omega, by omega, h2.2, by omega⟩)))
  · split_ifs at h with h1
    rw [sd h1.1 h1.2] at h
    simp only [Option.some.injEq] at h
    exact Or.inr (Or.inr (Or.inr (Or.inr ⟨rfl, h1.1, h1.2, by omega⟩)))

/-- Within one kind the table of §4.1 is injective. -/
theorem spec_packed_number_inj (k : XenBlockVdevType) (d1 p1 d2 p2 n : Nat)
    (h1 : spec_packed_number k d1 p1 = some n) (h2 : spec_packed_number k d2 p2 = some n) :
    d1 = d2 ∧ p1 = p2 := by
  have a1 := spec_packed_number_arith k d1 p1 n h1
  have a2 := spec_packed_number_arith k d2 p2 n h2
  cases k <;> simp only [reduceCtorEq, false_and, false_or, or_false, true_and, or_true,
    true_or] at a1 a2 <;> omega

/-- C29. Packed number is injective within a kind: two specifiers that
`xen_block_set_vdev` accepts with the same kind and the same packed number
have the same disk and partition (so the short and the extended form never
collide, nor do the two HD majors); the explicit and the XVD kind get the
same outcome and number from the final `switch` for equal disk and
partition, e.g. `d3p4` and `xvdd4`. -/
theorem packed_number_injective (v0 w0 : XenBlockVdev) (s t : List Char)
    (hs : (xen_block_set_vdev false v0 (.ok s)).2 = none)
    (ht : (xen_block_set_vdev false w0 (.ok t)).2 = none)
    (hk : (xen_block_set_vdev false v0 (.ok s)).1.type =
      (xen_block_set_vdev false w0 (.ok t)).1.type)
    (hn : (xen_block_set_vdev false v0 (.ok s)).1.number =
      (xen_block_set_vdev false w0 (.ok t)).1.number) :
    ((xen_block_set_vdev false v0 (.ok s)).1.disk =
        (xen_block_set_vdev false w0 (.ok t)).1.disk ∧
      (xen_block_set_vdev false v0 (.ok s)).1.partition =
        (xen_block_set_vdev false w0 (.ok t)).1.partition) ∧
    (∀ d p n : Nat,
      (set_vdev_number { type := .DP, disk := d, partition := p, number := n }).1.number =
        (set_vdev_number { type := .XVD, disk := d, partition := p, number := n }).1.number ∧
      (set_vdev_number { type := .DP, disk := d, partition := p, number := n }).2 =
        (set_vdev_number { type := .XVD, disk := d, partition := p, number := n }).2) ∧
    (xen_block_set_vdev false v0 (.ok "d3p4".toList)).1.number =
      (xen_block_set_vdev false v0 (.ok "xvdd4".toList)).1.number := by
  refine ⟨?_, ?_, ?_⟩
  · have h1 := packed_number_row v0 s hs
    have h2 := packed_number_row w0 t ht
    rw [← hk, ← hn] at h2
    exact spec_packed_number_inj _ _ _ _ _ _ h1 h2
  · intro d p n
    simp only [set_vdev_number, set_vdev_invalid]
    split_ifs <;> exact ⟨rfl, rfl⟩
  · simp [xen_block_set_vdev, strchr, set_vdev_disk, qemu_strtoul, skip_space, isspace, isdigit,
      strtoul_digits, set_vdev_partition, set_vdev_number, ULONG_MAX, vbd_name_to_disk,
      vbd_name_to_disk_loop, g_ascii_islower, UINT_RANGE]

/-- Witness for C29: `d1p2` and `d01p02` are accepted with the same kind and
number. -/
theorem packed_number_injective_witness :
    (xen_block_set_vdev false { type := .INVALID, disk := 0, partition := 0, number := 0 }
      (.ok "d1p2".toList)).2 = none ∧
    (xen_block_set_vdev false { type := .SD, disk := 5, partition := 5, number := 2133 }
      (.ok "d01p02".toList)).2 = none ∧
    ((xen_block_set_vdev false { type := .INVALID, disk := 0, partition := 0, number := 0 }
        (.ok "d1p2".toList)).1.disk =
      (xen_block_set_vdev false { type := .SD, disk := 5, partition := 5, number := 2133 }
        (.ok "d01p02".toList)).1.disk ∧
    (xen_block_set_vdev false { type := .INVALID, disk := 0, partition := 0, number := 0 }
        (.ok "d1p2".toList)).1.partition =
      (xen_block_set_vdev false { type := .SD, disk := 5, partition := 5, number := 2133 }
        (.ok "d01p02".toList)).1.partition) :=
  ⟨by decide, by decide,
    (packed_number_injective { type := .INVALID, disk := 0, partition := 0, number := 0 }
      { type := .SD, disk := 5, partition := 5, number := 2133 } "d1p2".toList "d01p02".toList
      (by decide) (by decide) (by decide) (by decide)).1⟩

/-- C27. Out-of-range outcome: when the parsed (kind, disk, partition)
satisfies no row of the table, the final `switch` of `xen_block_set_vdev`
sets the invalid-specifier error and kind Invalid and leaves disk, partition
and number as they are; so the string `xen_block_get_vdev` prints for an
out-of-range (kind, disk, partition) decodes to kind Invalid with that disk
and partition, as do `d1048576`, `hde` and `sda16`. -/
theorem out_of_range_outcome (v0 : XenBlockVdev) :
    (∀ v : XenBlockVdev, spec_packed_number v.type v.disk v.partition = none →
      set_vdev_number v = ({ v with type := .INVALID }, some "invalid virtual disk specifier")) ∧
    (∀ (v : XenBlockVdev) (s : List Char), v.partition ≤ ULONG_MAX →
      (v.type = .DP → v.disk ≤ ULONG_MAX) → (v.type ≠ .DP → v.disk + 1 < UINT_RANGE) →
      spec_packed_number v.type v.disk v.partition = none →
      xen_block_get_vdev v = .ok s →
      xen_block_set_vdev false v0 (.ok s) =
        ({ type := .INVALID, disk := v.disk, partition := v.partition, number := v0.number },
          some "invalid virtual disk specifier")) ∧
    xen_block_set_vdev false v0 (.ok "d1048576".toList) =
      ({ type := .INVALID, disk := 1048576, partition := 0, number := v0.number },
        some "invalid virtual disk specifier") ∧
    xen_block_set_vdev false v0 (.ok "hde".toList) =
      ({ type := .INVALID, disk := 4, partition := 0, number := v0.number },
        some "invalid virtual disk specifier") ∧
    xen_block_set_vdev false v0 (.ok "sda16".toList) =
      ({ type := .INVALID, disk := 0, partition := 16, number := v0.number },
        some "invalid virtual disk specifier") := by
  have sw : ∀ v : XenBlockVdev, spec_packed_number v.type v.disk v.partition = none →
      set_vdev_number v =
        ({ v with type := .INVALID }, some "invalid virtual disk specifier") := by
    intro v h
    rw [set_vdev_number_spec]
    simp only [spec_number_outcome, h]
  refine ⟨sw, ?_, ?_, ?_, ?_⟩
  · intro v s hp hd hl hnone hs
    rw [set_vdev_get_vdev v0 v s hp hd hl hs]
    exact sw { type := v.type, disk := v.disk, partition := v.partition, number := v0.number }
      hnone
  all_goals
    simp [xen_block_set_vdev, strchr, set_vdev_disk, qemu_strtoul, skip_space, isspace, isdigit,
      strtoul_digits, set_vdev_partition, set_vdev_number, set_vdev_invalid, ULONG_MAX,
      vbd_name_to_disk, vbd_name_to_disk_loop, g_ascii_islower, UINT_RANGE]

/-- Witness for C27: HD disk 4, printed `hde0`, is outside both HD rows. -/
theorem out_of_range_outcome_witness :
    (0 : Nat) ≤ ULONG_MAX ∧ (4 : Nat) + 1 < UINT_RANGE ∧
    spec_packed_number .HD 4 0 = none ∧
    xen_block_get_vdev { type := .HD, disk := 4, partition := 0, number := 0 } =
      .ok "hde0".toList ∧
    xen_block_set_vdev false { type := .DP, disk := 1, partition := 2, number := 51730 }
      (.ok "hde0".toList) =
      ({ type := .INVALID, disk := 4, partition := 0, number := 51730 },
        some "invalid virtual disk specifier") :=
  have hg : xen_block_get_vdev { type := .HD, disk := 4, partition := 0, number := 0 } =
      .ok "hde0".toList := by
    simp [xen_block_get_vdev, disk_to_vbd_name, fmt_lu, UINT_RANGE]; decide
  ⟨by decide, by decide, by decide, hg,
    (out_of_range_outcome { type := .DP, disk := 1, partition := 2, number := 51730 }).2.1
      { type := .HD, disk := 4, partition := 0, number := 0 } "hde0".toList (by decide)
      (by intro h; exact absurd h (by decide)) (by intro _; decide) (by decide) hg⟩


/-! ## Realize and unrealize -/

theorem xen_disk_realize_calls (dev : XenBlockDev) :
    (xen_disk_realize dev).1.calls = dev.calls ∧
    (xen_disk_realize dev).1.dataplane = dev.dataplane ∧
    (xen_disk_realize dev).1.vdev = dev.vdev ∧
    (xen_disk_realize dev).1.conf = dev.conf := by
  obtain ⟨cls, vdev, ⟨blk, l, p, dg⟩, m, info, dt, dp, calls⟩ := dev
  cases blk <;> exact ⟨rfl, rfl, rfl, rfl⟩

theorem xen_cdrom_realize_calls (rc : RealizeCollab) (dev : XenBlockDev) :
    (∃ evs, (xen_cdrom_realize rc dev).1.calls = dev.calls ++ evs ∧
      (∀ e ∈ evs, e = RealizeEvent.blk_attach_dev)) ∧
    (xen_cdrom_realize rc dev).1.dataplane = dev.dataplane ∧
    (xen_cdrom_realize rc dev).1.vdev = dev.vdev := by
  obtain ⟨cls, vdev, ⟨blk, l, p, dg⟩, m, info, dt, dp, calls⟩ := dev
  cases blk with
  | none =>
    simp only [xen_cdrom_realize]
    split_ifs
    · exact ⟨⟨[RealizeEvent.blk_attach_dev], rfl, by simp⟩, rfl, rfl⟩
    · exact ⟨⟨[RealizeEvent.blk_attach_dev], rfl, by simp⟩, rfl, rfl⟩
  | some b => exact ⟨⟨[], by simp [xen_cdrom_realize], by simp⟩, rfl, rfl⟩

/-- The class-specific realize writes no control-store key and creates no
dataplane. -/
theorem class_realize_calls (rc : RealizeCollab) (dev : XenBlockDev) :
    (∃ evs, (class_realize rc dev).1.calls = dev.calls ++ evs ∧
      (∀ e ∈ evs, is_printf e = false ∧ e ≠ RealizeEvent.dataplane_create)) ∧
    (class_realize rc dev).1.dataplane = dev.dataplane ∧
    (class_realize rc dev).1.vdev = dev.vdev := by
  obtain ⟨cls, vdev, conf, m, info, dt, dp, calls⟩ := dev
  cases cls with
  | disk =>
    obtain ⟨h1, h2, h3, _⟩ := xen_disk_realize_calls
      { cls := .disk, vdev := vdev, conf := conf, max_ring_page_order := m, info := info,
        device_type := dt, dataplane := dp,
        calls := calls ++ [RealizeEvent.class_realize BlockClass.disk] }
    refine ⟨⟨[RealizeEvent.class_realize BlockClass.disk], h1, ?_⟩, h2, h3⟩
    intro e he
    simp at he
    subst he
    exact ⟨rfl, by simp⟩
  | cdrom =>
    obtain ⟨⟨evs, h1, h1b⟩, h2, h3⟩ := xen_cdrom_realize_calls rc
      { cls := .cdrom, vdev := vdev, conf := conf, max_ring_page_order := m, info := info,
        device_type := dt, dataplane := dp,
        calls := calls ++ [RealizeEvent.class_realize BlockClass.cdrom] }
    refine ⟨⟨RealizeEvent.class_realize BlockClass.cdrom :: evs, ?_, ?_⟩, h2, h3⟩
    · simp only [class_realize]
      rw [h1]; simp
    · intro e he
      simp at he
      rcases he with he | he
      · subst he; exact ⟨rfl, by simp⟩
      · rw [h1b e he]; exact ⟨rfl, by simp⟩

/-- A failing `realize_rest` changes nothing but the block sizes. -/
theorem realize_rest_error (rc : RealizeCollab) (dev : XenBlockDev)
    (h : (realize_rest rc dev).2 ≠ none) :
    (realize_rest rc dev).1.calls = dev.calls ∧
    (realize_rest rc dev).1.dataplane = dev.dataplane := by
  obtain ⟨cls, vdev, ⟨blk, l, p, dg⟩, m, info, dt, dp, calls⟩ := dev
  cases blk with
  | none => exact ⟨rfl, rfl⟩
  | some blk =>
    unfold realize_rest at h ⊢
    simp only at h ⊢
    generalize rc.apply_backend_options _ = ab at h ⊢
    generalize (if info &&& VDISK_CDROM = 0 then rc.geometry else none) = g at h ⊢
    split_ifs at h ⊢ <;> cases ab <;> cases g <;>
      first
        | exact ⟨rfl, rfl⟩
        | exact absurd rfl h

/-- Every failure of `xen_block_realize` precedes publication: the calls
made are the class-specific realize and at most `blk_attach_dev`; no
control-store key is written and no dataplane is created. -/
theorem realize_error_no_publication (rc : RealizeCollab) (dev : XenBlockDev)
    (h : (xen_block_realize rc dev).2 ≠ none) :
    (∃ evs, (xen_block_realize rc dev).1.calls = dev.calls ++ evs ∧
      (∀ e ∈ evs, is_printf e = false ∧ e ≠ RealizeEvent.dataplane_create)) ∧
    (xen_block_realize rc dev).1.dataplane = dev.dataplane := by
  unfold xen_block_realize at h ⊢
  split_ifs at h ⊢
  · exact ⟨⟨[], by simp, by simp⟩, rfl⟩
  · obtain ⟨⟨evs, h1, h1b⟩, h2, _⟩ := class_realize_calls rc dev
    cases hcr : class_realize rc dev with
    | mk d err =>
      rw [hcr] at h h1 h2
      cases err with
      | some e => exact ⟨⟨evs, h1, h1b⟩, h2⟩
      | none =>
        dsimp only at h ⊢
        obtain ⟨r1, r2⟩ := realize_rest_error rc d h
        exact ⟨⟨evs, by rw [r1]; exact h1, h1b⟩, by rw [r2]; exact h2⟩


/-- A rejected specifier leaves the vdev kind Invalid. -/
theorem set_vdev_rejected_invalid (v0 : XenBlockVdev) (s : List Char)
    (h : (xen_block_set_vdev false v0 (.ok s)).2 ≠ none) :
    (xen_block_set_vdev false v0 (.ok s)).1.type = .INVALID := by
  rcases set_vdev_cases v0 s with ⟨v, hv⟩ | ⟨v, hv⟩
  · rw [hv]; rfl
  · rw [hv] at h ⊢
    exact ((set_vdev_number_fields v).2.2.2 h).2.1

/-- C30. An Invalid vdev never reaches the guest: `xen_block_realize` on a
device whose vdev kind is Invalid fails with `vdev property not set` and
returns the device untouched (no class-specific realize, no control-store
key, no dataplane), `xen_block_unrealize` on such a device does nothing (no
disconnect, no dataplane destroy), and a specifier that
`xen_block_set_vdev` rejects leaves the kind Invalid. -/
theorem invalid_vdev_never_realized (rc : RealizeCollab) (dev : XenBlockDev)
    (h : dev.vdev.type = .INVALID) :
    xen_block_realize rc dev = (dev, some "vdev property not set") ∧
    xen_block_unrealize dev = (dev, none) ∧
    (∀ (v0 : XenBlockVdev) (s : List Char),
      (xen_block_set_vdev false v0 (.ok s)).2 ≠ none →
      (xen_block_set_vdev false v0 (.ok s)).1.type = .INVALID) := by
  refine ⟨?_, ?_, set_vdev_rejected_invalid⟩
  · simp only [xen_block_realize, h, if_true]
  · simp only [xen_block_unrealize, h, if_true]

/-- Witness for C30: a disk device whose vdev was never set. -/
theorem invalid_vdev_never_realized_witness :
    sample_disk_dev_unset.vdev.type = .INVALID ∧
    xen_block_realize sample_realize_collab sample_disk_dev_unset =
      (sample_disk_dev_unset, some "vdev property not set") ∧
    xen_block_unrealize sample_disk_dev_unset = (sample_disk_dev_unset, none) ∧
    (∀ (v0 : XenBlockVdev) (s : List Char),
      (xen_block_set_vdev false v0 (.ok s)).2 ≠ none →
      (xen_block_set_vdev false v0 (.ok s)).1.type = .INVALID) :=
  ⟨rfl, invalid_vdev_never_realized sample_realize_collab sample_disk_dev_unset rfl⟩

/-- C24. Disk needs media: a disk device with a valid vdev and no drive
configured fails realize with `drive property not set`, the error
`xen_disk_realize` sets; a device whose drive is attached but holds no
medium fails with `device needs media, but drive is empty`; in both cases
the only call made is the class-specific realize, so no control-store key is
written and no dataplane is created. -/
theorem disk_needs_media (rc : RealizeCollab) (dev : XenBlockDev)
    (hv : dev.vdev.type ≠ .INVALID) :
    (dev.cls = .disk → dev.conf.blk = none →
      (xen_disk_realize dev).2 = some "drive property not set" ∧
      (xen_block_realize rc dev).2 = some "drive property not set" ∧
      (xen_block_realize rc dev).1.calls = dev.calls ++ [RealizeEvent.class_realize .disk] ∧
      (xen_block_realize rc dev).1.dataplane = dev.dataplane) ∧
    (∀ blk : BlockBackend, dev.conf.blk = some blk → blk.inserted = false →
      (xen_block_realize rc dev).2 = some "device needs media, but drive is empty" ∧
      (xen_block_realize rc dev).1.calls = dev.calls ++ [RealizeEvent.class_realize dev.cls] ∧
      (xen_block_realize rc dev).1.dataplane = dev.dataplane) := by
  obtain ⟨cls, vdev, ⟨b, l, p, dg⟩, m, info, dt, dp, calls⟩ := dev
  simp only at hv
  refine ⟨?_, ?_⟩
  · intro hc hb
    simp only at hc hb
    subst hc hb
    simp [xen_block_realize, hv, class_realize, xen_disk_realize]
  · intro blk hb hi
    simp only at hb
    subst hb
    cases cls <;>
      simp [xen_block_realize, hv, class_realize, xen_disk_realize, xen_cdrom_realize,
        realize_rest, hi]

/-- Witness for C24: a disk device with no drive configured. -/
theorem disk_needs_media_witness :
    sample_disk_dev.vdev.type ≠ .INVALID ∧ sample_disk_dev.cls = .disk ∧
    sample_disk_dev.conf.blk = none ∧
    (xen_disk_realize sample_disk_dev).2 = some "drive property not set" ∧
    (xen_block_realize sample_realize_collab sample_disk_dev).2 =
      some "drive property not set" ∧
    (xen_block_realize sample_realize_collab sample_disk_dev).1.calls =
      sample_disk_dev.calls ++ [RealizeEvent.class_realize .disk] ∧
    (xen_block_realize sample_realize_collab sample_disk_dev).1.dataplane =
      sample_disk_dev.dataplane :=
  ⟨by decide, rfl, rfl,
    (disk_needs_media sample_realize_collab sample_disk_dev (by decide)).1 rfl rfl⟩

/-- C25. Geometry conflict precedes publication: when the logical block size
exceeds the physical one after `blkconf_blocksizes`, `xen_block_realize`
fails with `logical_block_size > physical_block_size not supported`; like
every failure of `xen_block_realize` it has then written no control-store
key and created no dataplane. -/
theorem geometry_conflict (rc : RealizeCollab) (dev : XenBlockDev) :
    (∀ blk : BlockBackend, dev.vdev.type ≠ .INVALID → dev.cls = .disk →
      dev.conf.blk = some blk → blk.inserted = true →
      rc.apply_backend_options blk.read_only = none → rc.geometry = none →
      (rc.blocksizes dev.conf).logical_block_size >
        (rc.blocksizes dev.conf).physical_block_size →
      (xen_block_realize rc dev).2 =
        some "logical_block_size > physical_block_size not supported") ∧
    ((xen_block_realize rc dev).2 ≠ none →
      (∃ evs, (xen_block_realize rc dev).1.calls = dev.calls ++ evs ∧
        (∀ e ∈ evs, is_printf e = false ∧ e ≠ RealizeEvent.dataplane_create)) ∧
      (xen_block_realize rc dev).1.dataplane = dev.dataplane) := by
  refine ⟨?_, realize_error_no_publication rc dev⟩
  obtain ⟨cls, vdev, ⟨b, l, p, dg⟩, m, info, dt, dp, calls⟩ := dev
  intro blk hv hc hb hi hab hg hsz
  simp only at hv hc hb hsz
  subst hc hb
  have hro : (decide ((if blk.read_only = true then VDISK_READONLY else 0) &&& VDISK_READONLY
      ≠ 0)) = blk.read_only := by
    cases blk.read_only <;> decide
  have hcd : (if blk.read_only = true then VDISK_READONLY else 0) &&& VDISK_CDROM = 0 := by
    cases blk.read_only <;> decide
  simp only [xen_block_realize, hv, if_false, class_realize, xen_disk_realize, realize_rest, hi,
    Bool.not_true, Bool.false_eq_true, hro, hab, hcd, if_true, hg, hsz]

/-- Witness for C25: a disk with logical block size 4096 over physical 512. -/
theorem geometry_conflict_witness :
    (xen_block_realize sample_realize_collab sample_disk_dev_geometry).2 =
      some "logical_block_size > physical_block_size not supported" ∧
    (xen_block_realize sample_realize_collab sample_disk_dev_geometry).2 ≠ none ∧
    (∃ evs, (xen_block_realize sample_realize_collab sample_disk_dev_geometry).1.calls =
        sample_disk_dev_geometry.calls ++ evs ∧
      (∀ e ∈ evs, is_printf e = false ∧ e ≠ RealizeEvent.dataplane_create)) ∧
    (xen_block_realize sample_realize_collab sample_disk_dev_geometry).1.dataplane =
      sample_disk_dev_geometry.dataplane :=
  ⟨(geometry_conflict sample_realize_collab sample_disk_dev_geometry).1
      { inserted := true, read_only := false, length := 1048576 } (by decide) rfl rfl rfl rfl
      rfl (by decide),
    by decide,
    (geometry_conflict sample_realize_collab sample_disk_dev_geometry).2 (by decide)⟩


/-- C26. Device-class flags: after a successful `xen_cdrom_realize` the info
bitmask is exactly `VDISK_READONLY | VDISK_CDROM`, whatever the drive, and
the device type is `cdrom`; after a successful `xen_disk_realize` the info
bitmask has the read-only bit exactly when the backend is read-only, never
the cdrom bit, and the device type is `disk`. -/
theorem device_class_flags (rc : RealizeCollab) (dev : XenBlockDev) :
    ((xen_cdrom_realize rc dev).2 = none →
      (xen_cdrom_realize rc dev).1.info = VDISK_READONLY ||| VDISK_CDROM ∧
      (xen_cdrom_realize rc dev).1.device_type = some "cdrom") ∧
    ((xen_disk_realize dev).2 = none →
      (∃ blk, dev.conf.blk = some blk ∧
        ((xen_disk_realize dev).1.info &&& VDISK_READONLY ≠ 0 ↔ blk.read_only = true)) ∧
      (xen_disk_realize dev).1.info &&& VDISK_CDROM = 0 ∧
      (xen_disk_realize dev).1.device_type = some "disk") := by
  obtain ⟨cls, vdev, ⟨b, l, p, dg⟩, m, info, dt, dp, calls⟩ := dev
  refine ⟨?_, ?_⟩
  · intro h
    cases b with
    | none =>
      simp only [xen_cdrom_realize] at h ⊢
      split_ifs at h ⊢
      exact ⟨rfl, rfl⟩
    | some blk => exact ⟨rfl, rfl⟩
  · intro h
    cases b with
    | none => simp [xen_disk_realize] at h
    | some blk =>
      refine ⟨⟨blk, rfl, ?_⟩, ?_, rfl⟩
      · simp only [xen_disk_realize]
        cases blk.read_only <;> decide
      · simp only [xen_disk_realize]
        cases blk.read_only <;> decide

/-- Witness for C26: a CD-ROM device for which attaching the fresh drive
reports a failure, and a disk with a writable medium. -/
theorem device_class_flags_witness :
    (xen_cdrom_realize sample_realize_collab sample_cdrom_dev).2 = none ∧
    ((xen_cdrom_realize sample_realize_collab sample_cdrom_dev).1.info =
        VDISK_READONLY ||| VDISK_CDROM ∧
      (xen_cdrom_realize sample_realize_collab sample_cdrom_dev).1.device_type =
        some "cdrom") ∧
    (xen_disk_realize sample_disk_dev_geometry).2 = none ∧
    ((∃ blk, sample_disk_dev_geometry.conf.blk = some blk ∧
        ((xen_disk_realize sample_disk_dev_geometry).1.info &&& VDISK_READONLY ≠ 0 ↔
          blk.read_only = true)) ∧
      (xen_disk_realize sample_disk_dev_geometry).1.info &&& VDISK_CDROM = 0 ∧
      (xen_disk_realize sample_disk_dev_geometry).1.device_type = some "disk") :=
  ⟨by decide, (device_class_flags sample_realize_collab sample_cdrom_dev).1 (by decide),
    by decide, (device_class_flags sample_realize_collab sample_disk_dev_geometry).2 (by decide)⟩

/-- C23, counterexample. A CD-ROM device with the valid vdev of `xvda` and no
drive configured does not realize: when `blk_attach_dev` succeeds (returns
0) `xen_cdrom_realize` reports `failed to create drive`, and when it
reports no error the rest of `xen_block_realize` fails because the fresh
drive is empty. -/
theorem empty_cdrom_counterexample :
    sample_cdrom_dev.vdev.type ≠ .INVALID ∧ sample_cdrom_dev.conf.blk = none ∧
    (xen_block_realize sample_realize_collab_ok sample_cdrom_dev).2 =
      some "failed to create drive" ∧
    (xen_cdrom_realize sample_realize_collab sample_cdrom_dev).2 = none ∧
    (xen_block_realize sample_realize_collab sample_cdrom_dev).2 =
      some "device needs media, but drive is empty" := by
  refine ⟨by decide, rfl, by decide, by decide, by decide⟩

/-- C23, amended. A CD-ROM device with a valid vdev and no drive configured
does not realize as an empty device: `xen_cdrom_realize` sets up an empty
drive, and whenever it reports no error the rest of `xen_block_realize`
fails with `device needs media, but drive is empty`; in every case
`xen_block_realize` reports an error, writes no control-store key and
creates no dataplane. -/
theorem empty_cdrom_needs_media (rc : RealizeCollab) (dev : XenBlockDev)
    (hv : dev.vdev.type ≠ .INVALID) (hc : dev.cls = .cdrom) (hb : dev.conf.blk = none) :
    ((xen_cdrom_realize rc dev).2 = none →
      (xen_cdrom_realize rc dev).1.conf.blk = some blk_new ∧
      (xen_block_realize rc dev).2 = some "device needs media, but drive is empty") ∧
    (xen_block_realize rc dev).2 ≠ none ∧
    (∃ evs, (xen_block_realize rc dev).1.calls = dev.calls ++ evs ∧
      (∀ e ∈ evs, is_printf e = false ∧ e ≠ RealizeEvent.dataplane_create)) ∧
    (xen_block_realize rc dev).1.dataplane = dev.dataplane := by
  have herr : (xen_block_realize rc dev).2 ≠ none ∧
      ((xen_cdrom_realize rc dev).2 = none →
        (xen_cdrom_realize rc dev).1.conf.blk = some blk_new ∧
        (xen_block_realize rc dev).2 = some "device needs media, but drive is empty") := by
    obtain ⟨cls, vdev, ⟨b, l, p, dg⟩, m, info, dt, dp, calls⟩ := dev
    simp only at hv hc hb
    subst hc hb
    by_cases hrc : rc.attach_rc = 0
    · simp [xen_block_realize, hv, class_realize, xen_cdrom_realize, hrc]
    · simp [xen_block_realize, hv, class_realize, xen_cdrom_realize, hrc, realize_rest, blk_new]
  exact ⟨herr.2, herr.1, realize_error_no_publication rc dev herr.1⟩

/-- Witness for C23: the sample CD-ROM device, attaching reports `-EBUSY`. -/
theorem empty_cdrom_needs_media_witness :
    sample_cdrom_dev.vdev.type ≠ .INVALID ∧ sample_cdrom_dev.cls = .cdrom ∧
    sample_cdrom_dev.conf.blk = none ∧
    (xen_cdrom_realize sample_realize_collab sample_cdrom_dev).2 = none ∧
    (xen_cdrom_realize sample_realize_collab sample_cdrom_dev).1.conf.blk = some blk_new ∧
    (xen_block_realize sample_realize_collab sample_cdrom_dev).2 =
      some "device needs media, but drive is empty" :=
  ⟨by decide, rfl, rfl, by decide,
    (empty_cdrom_needs_media sample_realize_collab sample_cdrom_dev (by decide) rfl rfl).1
      (by decide)⟩


/-! ## Backend resource orchestration -/

theorem strchr_not_mem (s : List Char) (c : Char) (h : c ∉ s) : strchr s c = none := by
  rw [strchr_eq]; simp [h]

theorem strchr_split (a b : List Char) (c : Char) (h : c ∉ a) :
    strchr (a ++ c :: b) c = some (a, c :: b) := by
  induction a with
  | nil => simp [strchr]
  | cons x xs ih =>
    have hx : x ≠ c := fun e => h (by simp [e])
    have hxs : c ∉ xs := fun e => h (by simp [e])
    have e : (x :: xs) ++ c :: b = x :: (xs ++ c :: b) := rfl
    rw [e, strchr]
    simp only [hx, if_false, ih hxs]

/-- Storage parameters parsing away from the empty string: `params` is split
at its first `:` only; without a `:` the whole (non-empty) string is the file
name and the driver is `raw`; with a `:` the part after the first one is the
file name and the part before it the driver, except that `aio` maps to `raw`
and `vhd` to `vpc`; the driver and file name reach `qmp_blockdev_add` as
such; with `params` absent `xen_block_drive_create` fails with `no filename`
and makes no call. -/
theorem drive_params_split (c : OrchCollab) (id : String) (opts : QDict) :
    (∀ p : List Char, ':' ∉ p → p ≠ [] →
      drive_params c (some (String.mk p)) = (some "raw", some (String.mk p))) ∧
    (∀ a b : List Char, ':' ∉ a →
      drive_params c (some (String.mk (a ++ ':' :: b))) =
        (some (if String.mk a = "aio" then "raw"
               else if String.mk a = "vhd" then "vpc" else String.mk a),
          some (String.mk b))) ∧
    drive_params c (some "aio:/tmp/a:b.img") = (some "raw", some "/tmp/a:b.img") ∧
    drive_params c (some "vhd:disk.vhd") = (some "vpc", some "disk.vhd") ∧
    drive_params c (some "qcow2:disk.qcow2") = (some "qcow2", some "disk.qcow2") ∧
    drive_params c (some "/dev/vg/lv") = (some "raw", some "/dev/vg/lv") ∧
    (opts "params" = none → xen_block_drive_create c id opts = (.error "no filename", [])) ∧
    (∀ driver filename : String,
      drive_params c (opts "params") = (some driver, some filename) →
      (drive_options c id opts driver filename).driver = driver ∧
      (drive_options c id opts driver filename).filename = filename ∧
      (drive_options c id opts driver filename).node_name = id ++ "-" ++ driver ∧
      xen_block_drive_create c id opts =
        match xen_block_blockdev_add c (drive_options c id opts driver filename) with
        | (.error e, evs) => (.error e, evs)
        | (.ok node_name, evs) => (.ok { id := id, node_name := some node_name }, evs)) := by
  refine ⟨?_, ?_, rfl, rfl, rfl, rfl, ?_, ?_⟩
  · intro p hp hne
    have e : (String.mk p).toList = p := rfl
    simp only [drive_params, g_strsplit2, e, strchr_not_mem p ':' hp, hne, if_false]
  · intro a b ha
    have e : (String.mk (a ++ ':' :: b)).toList = a ++ ':' :: b := rfl
    simp only [drive_params, g_strsplit2, e, strchr_split a b ':' ha, List.tail_cons]
  · intro h
    simp only [xen_block_drive_create, h, drive_params]
  · intro driver filename h
    refine ⟨rfl, rfl, rfl, ?_⟩
    simp only [xen_block_drive_create, h, Option.getD_some]

/-- C20, at the failing input: `params` is the empty string. It holds no
`:`, and the claim takes the whole string as the file name with the driver
`raw`. `g_strsplit` returns the empty vector, so `v[0]` is its terminating
null pointer and the test of `v[1]` reads past its end; where that read
finds a null pointer the file name is the copy of the null `v[0]`, and
`xen_block_drive_create` fails with `no filename` without calling
`qmp_blockdev_add`. A non-empty string without `:` (`/dev/vg/lv`) is taken
whole. -/
theorem storage_params_empty_string :
    ':' ∉ "".toList ∧
    g_strsplit2 "".toList = [] ∧
    (∀ c : OrchCollab, drive_params c (some "") = c.stray_params) ∧
    drive_params sample_orch (some "") ≠ (some "raw", some "") ∧
    sample_opts_empty_params "params" = some "" ∧
    xen_block_drive_create sample_orch "xvda" sample_opts_empty_params =
      (.error "no filename", []) ∧
    drive_params sample_orch (some "/dev/vg/lv") = (some "raw", some "/dev/vg/lv") := by
  refine ⟨by decide, by decide, fun _ => rfl, by decide, rfl, rfl, by decide⟩

/-- C21, at the failing input: a realized device with a drive and an I/O
context, where deleting the I/O context fails. `xen_block_device_destroy`
reports `failed to destroy iothread: ...` and returns at once: the record of
calls ends with the `object_del`, and the drive node `xvda-raw` is never
deleted. On the `fail:` path of `xen_block_device_create` the same failure
does not stop the drive from being destroyed. -/
theorem destroy_stops_after_iothread_failure :
    xen_block_device_destroy sample_orch_del_fails sample_realized_dev
        (some { id := "xvda", node_name := some "xvda-raw" }) (some { id := "xvda" }) =
      (some "failed to destroy iothread: object not found",
        [OrchEvent.object_unparent, OrchEvent.device RealizeEvent.dataplane_stop,
          OrchEvent.device RealizeEvent.dataplane_destroy,
          OrchEvent.device (RealizeEvent.class_unrealize .disk),
          OrchEvent.object_del "xvda"]) ∧
    OrchEvent.blockdev_del "xvda-raw" ∉
      (xen_block_device_destroy sample_orch_del_fails sample_realized_dev
        (some { id := "xvda", node_name := some "xvda-raw" }) (some { id := "xvda" })).2 ∧
    (create_fail sample_orch_del_fails "e" [] true (some { id := "xvda" })
        (some { id := "xvda", node_name := some "xvda-raw" })).trace =
      [OrchEvent.object_unparent, OrchEvent.object_del "xvda",
        OrchEvent.blockdev_del "xvda-raw"] := by
  refine ⟨by decide, by decide, by decide⟩

/-- The error of a rejected specifier is the invalid-specifier error. -/
theorem set_vdev_rejected_error (v0 : XenBlockVdev) (s : List Char)
    (h : (xen_block_set_vdev false v0 (.ok s)).2 ≠ none) :
    (xen_block_set_vdev false v0 (.ok s)).2 = some "invalid virtual disk specifier" := by
  rcases set_vdev_cases v0 s with ⟨v, hv⟩ | ⟨v, hv⟩
  · rw [hv]; rfl
  · rw [hv] at h ⊢
    exact ((set_vdev_number_fields v).2.2.2 h).1

/-- C18, counterexample. For the creation request `dev=zzd5`,
`device-type=disk`, `params=raw:/img`, whose specifier the codec rejects,
`xen_block_device_create` first adds the block node `zzd5-raw` and the I/O
context `zzd5` and creates the device; only then does setting the vdev
property fail, and the three are destroyed again. -/
theorem create_bad_specifier_counterexample :
    (xen_block_set_vdev false { type := .INVALID, disk := 0, partition := 0, number := 0 }
      (.ok "zzd5".toList)).2 = some "invalid virtual disk specifier" ∧
    xen_block_device_create sample_orch "0" (sample_opts "zzd5") =
      { err := some "failed to set 'vdev': invalid virtual disk specifier"
        registered := false
        trace :=
          [OrchEvent.blockdev_add ⟨"zzd5-raw", "raw", "/img", false, false, false⟩,
            OrchEvent.object_add "zzd5", OrchEvent.qdev_create "xen-disk",
            OrchEvent.set_prop "vdev" "zzd5", OrchEvent.object_unparent,
            OrchEvent.object_del "zzd5", OrchEvent.blockdev_del "zzd5-raw"] } := by
  refine ⟨by decide, by decide⟩

/-- C18, amended. Given a dev specifier that the vdev codec rejects (with a
backend name that parses, a valid device type, and drive and I/O context
creation succeeding), `xen_block_device_create` fails with the
invalid-specifier error, as `failed to set 'vdev': invalid virtual disk
specifier`, when it sets the vdev property of the new device: after the
drive and the I/O context were created; it then unparents the device,
destroys the I/O context and the drive, and does not register the device. -/
theorem create_bad_specifier (c : OrchCollab) (name vdev device_type : String) (opts : QDict)
    (drive : XenBlockDrive) (evs : List OrchEvent)
    (hname : qemu_strtoul_whole name.toList = 0)
    (hdev : opts "dev" = some vdev) (hdt : opts "device-type" = some device_type)
    (hty : device_type = "disk" ∨ device_type = "cdrom")
    (hrej : (xen_block_set_vdev false { type := .INVALID, disk := 0, partition := 0, number := 0 }
      (.ok vdev.toList)).2 ≠ none)
    (hdrive : xen_block_drive_create c vdev opts = (.ok drive, evs))
    (hio : c.object_add vdev = none) :
    (xen_block_device_create c name opts).err =
      some "failed to set 'vdev': invalid virtual disk specifier" ∧
    (xen_block_device_create c name opts).registered = false ∧
    (xen_block_device_create c name opts).trace =
      evs ++ [OrchEvent.object_add vdev,
        OrchEvent.qdev_create
          (if device_type = "disk" then TYPE_XEN_DISK_DEVICE else TYPE_XEN_CDROM_DEVICE),
        OrchEvent.set_prop "vdev" vdev, OrchEvent.object_unparent, OrchEvent.object_del vdev] ++
      (xen_block_drive_destroy c drive).2 := by
  have herr := set_vdev_rejected_error _ _ hrej
  have hty2 : ¬ (device_type ≠ "disk" ∧ device_type ≠ "cdrom") := by
    rcases hty with h | h <;> simp [h]
  simp only [xen_block_device_create, hname, hdev, hdt, hty2, hdrive, xen_block_iothread_create,
    hio, create_device, herr, create_fail, xen_block_iothread_destroy, ne_eq, not_true_eq_false,
    if_false, if_true]
  refine ⟨rfl, trivial, ?_⟩
  simp

/-- Witness for C18: the request `dev=zzd5` on `raw:/img`. -/
theorem create_bad_specifier_witness :
    qemu_strtoul_whole "0".toList = 0 ∧
    (xen_block_set_vdev false { type := .INVALID, disk := 0, partition := 0, number := 0 }
      (.ok "zzd5".toList)).2 ≠ none ∧
    (xen_block_device_create sample_orch "0" (sample_opts "zzd5")).err =
      some "failed to set 'vdev': invalid virtual disk specifier" ∧
    (xen_block_device_create sample_orch "0" (sample_opts "zzd5")).registered = false :=
  have h := create_bad_specifier sample_orch "0" "zzd5" "disk" (sample_opts "zzd5")
    { id := "zzd5", node_name := some "zzd5-raw" }
    [OrchEvent.blockdev_add ⟨"zzd5-raw", "raw", "/img", false, false, false⟩]
    (by decide) rfl rfl (Or.inl rfl) (by decide) (by rfl) rfl
  ⟨by decide, by decide, h.1, h.2.1⟩


/-- The three outcomes of `xen_block_drive_create`: an error before any
call, a failed `qmp_blockdev_add`, or a drive whose node was added. -/
theorem drive_create_cases (c : OrchCollab) (id : String) (opts : QDict) :
    (∃ e, xen_block_drive_create c id opts = (.error e, [])) ∨
    (∃ e o, c.blockdev_add o = some e ∧
      xen_block_drive_create c id opts = (.error e, [OrchEvent.blockdev_add o])) ∨
    (∃ o, c.blockdev_add o = none ∧
      xen_block_drive_create c id opts =
        (.ok { id := id, node_name := some o.node_name }, [OrchEvent.blockdev_add o])) := by
  unfold xen_block_drive_create
  cases hp : drive_params c (opts "params") with
  | mk driver filename =>
    cases filename with
    | none => exact Or.inl ⟨_, rfl⟩
    | some f =>
      simp only [xen_block_blockdev_add]
      cases hv : c.visit_options (drive_options c id opts (driver.getD "") f) with
      | some e => exact Or.inl ⟨e, rfl⟩
      | none =>
        cases ha : c.blockdev_add (drive_options c id opts (driver.getD "") f) with
        | some e => exact Or.inr (Or.inl ⟨e, _, ha, rfl⟩)
        | none => exact Or.inr (Or.inr ⟨_, ha, rfl⟩)

theorem spec_live_append (c : OrchCollab) (a b : List OrchEvent) :
    spec_live c (a ++ b) = b.foldl (spec_live_step c) (spec_live c a) := by
  simp [spec_live, List.foldl_append]

/-- Replaying deletions of I/O contexts: the device and the nodes are left
alone, and an I/O context that is still alive and was among those deleted is
one whose deletion reported an error. -/
theorem live_object_dels (c : OrchCollab) (ids : List String) (m : Live) :
    (List.foldl (spec_live_step c) m (ids.map OrchEvent.object_del)).device = m.device ∧
    (List.foldl (spec_live_step c) m (ids.map OrchEvent.object_del)).nodes = m.nodes ∧
    ∀ x ∈ (List.foldl (spec_live_step c) m (ids.map OrchEvent.object_del)).iothreads,
      x ∈ m.iothreads ∧ (x ∈ ids → c.object_del x ≠ none) := by
  induction ids generalizing m with
  | nil => simp
  | cons id ids ih =>
    simp only [List.map_cons, List.foldl_cons]
    obtain ⟨h1, h2, h3⟩ := ih (spec_live_step c m (OrchEvent.object_del id))
    by_cases hdel : c.object_del id = none
    · have hm : spec_live_step c m (OrchEvent.object_del id) =
          { m with iothreads := m.iothreads.filter (fun x => x != id) } := by
        simp [spec_live_step, hdel]
      rw [hm] at h1 h2 h3 ⊢
      refine ⟨h1, h2, ?_⟩
      intro x hx
      obtain ⟨hx1, hx2⟩ := h3 x hx
      simp only [List.mem_filter, bne_iff_ne, ne_eq] at hx1
      refine ⟨hx1.1, ?_⟩
      intro hxm
      rcases List.mem_cons.mp hxm with h | h
      · exact absurd h hx1.2
      · exact hx2 h
    · have hm : spec_live_step c m (OrchEvent.object_del id) = m := by
        simp [spec_live_step, hdel]
      rw [hm] at h1 h2 h3 ⊢
      refine ⟨h1, h2, ?_⟩
      intro x hx
      obtain ⟨hx1, hx2⟩ := h3 x hx
      refine ⟨hx1, ?_⟩
      intro hxm
      rcases List.mem_cons.mp hxm with h | h
      · rw [h]; exact hdel
      · exact hx2 h

/-- Replaying deletions of block nodes: the device and the I/O contexts are
left alone, and a node that is still alive and was among those deleted is
one whose deletion reported an error. -/
theorem live_blockdev_dels (c : OrchCollab) (ns : List String) (m : Live) :
    (List.foldl (spec_live_step c) m (ns.map OrchEvent.blockdev_del)).device = m.device ∧
    (List.foldl (spec_live_step c) m (ns.map OrchEvent.blockdev_del)).iothreads =
      m.iothreads ∧
    ∀ x ∈ (List.foldl (spec_live_step c) m (ns.map OrchEvent.blockdev_del)).nodes,
      x ∈ m.nodes ∧ (x ∈ ns → c.blockdev_del x ≠ none) := by
  induction ns generalizing m with
  | nil => simp
  | cons n ns ih =>
    simp only [List.map_cons, List.foldl_cons]
    obtain ⟨h1, h2, h3⟩ := ih (spec_live_step c m (OrchEvent.blockdev_del n))
    by_cases hdel : c.blockdev_del n = none
    · have hm : spec_live_step c m (OrchEvent.blockdev_del n) =
          { m with nodes := m.nodes.filter (fun x => x != n) } := by
        simp [spec_live_step, hdel]
      rw [hm] at h1 h2 h3 ⊢
      refine ⟨h1, h2, ?_⟩
      intro x hx
      obtain ⟨hx1, hx2⟩ := h3 x hx
      simp only [List.mem_filter, bne_iff_ne, ne_eq] at hx1
      refine ⟨hx1.1, ?_⟩
      intro hxm
      rcases List.mem_cons.mp hxm with h | h
      · exact absurd h hx1.2
      · exact hx2 h
    · have hm : spec_live_step c m (OrchEvent.blockdev_del n) = m := by
        simp [spec_live_step, hdel]
      rw [hm] at h1 h2 h3 ⊢
      refine ⟨h1, h2, ?_⟩
      intro x hx
      obtain ⟨hx1, hx2⟩ := h3 x hx
      refine ⟨hx1, ?_⟩
      intro hxm
      rcases List.mem_cons.mp hxm with h | h
      · rw [h]; exact hdel
      · exact hx2 h

/-- After the destroy calls for the resources alive, no device object is
left, and what is left of the drives and the I/O contexts are those whose
deletion reported an error. -/
theorem rollback_leaves_failed (c : OrchCollab) (l : Live) :
    ((spec_rollback l).foldl (spec_live_step c) l).device = false ∧
    (∀ n ∈ ((spec_rollback l).foldl (spec_live_step c) l).nodes, c.blockdev_del n ≠ none) ∧
    (∀ id ∈ ((spec_rollback l).foldl (spec_live_step c) l).iothreads,
      c.object_del id ≠ none) := by
  have h0 : (if l.device then [OrchEvent.object_unparent] else []).foldl (spec_live_step c) l =
      { l with device := false } := by
    cases l with
    | mk nodes iothreads device => cases device <;> rfl
  unfold spec_rollback
  rw [List.foldl_append, List.foldl_append, h0]
  obtain ⟨a1, a2, a3⟩ := live_object_dels c l.iothreads { l with device := false }
  obtain ⟨b1, b2, b3⟩ := live_blockdev_dels c l.nodes
    (List.foldl (spec_live_step c) { l with device := false }
      (l.iothreads.map OrchEvent.object_del))
  refine ⟨?_, ?_, ?_⟩
  · rw [b1, a1]
  · intro n hn
    obtain ⟨hn1, hn2⟩ := b3 n hn
    rw [a2] at hn1
    exact hn2 hn1
  · intro id hid
    rw [b2] at hid
    obtain ⟨hid1, hid2⟩ := a3 id hid
    exact hid2 hid1

theorem spec_rollback_destroys (l : Live) : ∀ e ∈ spec_rollback l, is_destroy e = true := by
  intro e he
  unfold spec_rollback at he
  simp only [List.mem_append, List.mem_map] at he
  rcases he with (he | ⟨id, _, rfl⟩) | ⟨n, _, rfl⟩
  · split_ifs at he
    · rw [List.mem_singleton.mp he]; rfl
    · exact absurd he (List.not_mem_nil _)
  · rfl
  · rfl

/-- A record of calls made of a creation part followed by the destroy calls
for the resources alive after it is unwound. -/
theorem unwound_of_trace (c : OrchCollab) (r : CreateResult) (pre : List OrchEvent)
    (hreg : r.registered = false) (htr : r.trace = pre ++ spec_rollback (spec_live c pre))
    (hd : ∀ e ∈ pre, is_destroy e = false) (hs : OrchEvent.backend_set_device ∉ pre) :
    spec_unwound c r := by
  obtain ⟨h1, h2, h3⟩ := rollback_leaves_failed c (spec_live c pre)
  refine ⟨hreg, ?_, ?_, ?_, ?_, pre, htr, hd⟩
  · rw [htr, List.mem_append]
    rintro (h | h)
    · exact hs h
    · have := spec_rollback_destroys _ _ h
      simp [is_destroy] at this
  · rw [htr, spec_live_append]; exact h1
  · rw [htr, spec_live_append]; exact h2
  · rw [htr, spec_live_append]; exact h3

/-- With deletions that succeed, an unwound request leaves no resource. -/
theorem unwound_nothing_left (c : OrchCollab) (r : CreateResult) (h : spec_unwound c r)
    (hb : ∀ n, c.blockdev_del n = none) (hi : ∀ id, c.object_del id = none) :
    spec_live c r.trace = { nodes := [], iothreads := [], device := false } := by
  obtain ⟨_, _, h1, h2, h3, _⟩ := h
  cases hl : spec_live c r.trace with
  | mk nodes iothreads device =>
    rw [hl] at h1 h2 h3
    simp only at h1 h2 h3
    have hn : nodes = [] := by
      cases nodes with
      | nil => rfl
      | cons n ns => exact absurd (hb n) (h2 n (by simp))
    have hio : iothreads = [] := by
      cases iothreads with
      | nil => rfl
      | cons i is => exact absurd (hi i) (h3 i (by simp))
    rw [hn, hio, h1]

theorem create_fail_nothing (c : OrchCollab) (e : Error) (evs : List OrchEvent)
    (h : spec_live c evs = { nodes := [], iothreads := [], device := false })
    (hd : ∀ x ∈ evs, is_destroy x = false) (hs : OrchEvent.backend_set_device ∉ evs) :
    spec_unwound c (create_fail c e evs false none none) := by
  refine unwound_of_trace c _ evs rfl ?_ hd hs
  simp [create_fail, h, spec_rollback]

/-- The device stage of `xen_block_device_create` unwinds the device, the I/O
context and the drive on every failure. -/
theorem create_device_unwound (c : OrchCollab) (vdev type : String) (o : BlockdevOptions)
    (ho : c.blockdev_add o = none) (hio : c.object_add vdev = none)
    (h : (create_device c vdev type [OrchEvent.blockdev_add o, OrchEvent.object_add vdev]
      { id := vdev } { id := vdev, node_name := some o.node_name }).err ≠ none) :
    spec_unwound c (create_device c vdev type
      [OrchEvent.blockdev_add o, OrchEvent.object_add vdev]
      { id := vdev } { id := vdev, node_name := some o.node_name }) := by
  unfold create_device at h ⊢
  simp only at h ⊢
  generalize (xen_block_set_vdev false _ _).2 = r1 at h ⊢
  generalize c.set_drive _ = r2 at h ⊢
  generalize c.set_iothread _ = r3 at h ⊢
  generalize c.realize = r4 at h ⊢
  cases r1 with
  | some e =>
    refine unwound_of_trace c _ [OrchEvent.blockdev_add o, OrchEvent.object_add vdev,
      OrchEvent.qdev_create type, OrchEvent.set_prop "vdev" vdev] rfl ?_ ?_ ?_
    · simp [create_fail, xen_block_iothread_destroy, xen_block_drive_destroy, spec_live,
        spec_live_step, ho, hio, spec_rollback]
    · simp [is_destroy]
    · simp
  | none =>
    cases r2 with
    | some e =>
      refine unwound_of_trace c _ [OrchEvent.blockdev_add o, OrchEvent.object_add vdev,
        OrchEvent.qdev_create type, OrchEvent.set_prop "vdev" vdev,
        OrchEvent.set_prop "drive" o.node_name] rfl ?_ ?_ ?_
      · simp [create_fail, xen_block_iothread_destroy, xen_block_drive_destroy, spec_live,
          spec_live_step, ho, hio, spec_rollback]
      · simp [is_destroy]
      · simp
    | none =>
      cases r3 with
      | some e =>
        refine unwound_of_trace c _ [OrchEvent.blockdev_add o, OrchEvent.object_add vdev,
          OrchEvent.qdev_create type, OrchEvent.set_prop "vdev" vdev,
          OrchEvent.set_prop "drive" o.node_name, OrchEvent.set_prop "iothread" vdev] rfl
          ?_ ?_ ?_
        · simp [create_fail, xen_block_iothread_destroy, xen_block_drive_destroy, spec_live,
            spec_live_step, ho, hio, spec_rollback]
        · simp [is_destroy]
        · simp
      | none =>
        cases r4 with
        | some e =>
          refine unwound_of_trace c _ [OrchEvent.blockdev_add o, OrchEvent.object_add vdev,
            OrchEvent.qdev_create type, OrchEvent.set_prop "vdev" vdev,
            OrchEvent.set_prop "drive" o.node_name, OrchEvent.set_prop "iothread" vdev,
            OrchEvent.set_prop "realized" "true"] rfl ?_ ?_ ?_
          · simp [create_fail, xen_block_iothread_destroy, xen_block_drive_destroy, spec_live,
              spec_live_step, ho, hio, spec_rollback]
          · simp [is_destroy]
          · simp
        | none => simp at h

/-- The stages of `xen_block_device_create` after the request was checked. -/
theorem create_stages_unwound (c : OrchCollab) (vdev type : String) (opts : QDict)
    (h : (match xen_block_drive_create c vdev opts with
      | (.error e, evs) => create_fail c ("failed to create drive: " ++ e) evs false none none
      | (.ok drive, evs) =>
        match xen_block_iothread_create c vdev with
        | (.error e, evs2) =>
          create_fail c ("failed to create iothread: " ++ e) (evs ++ evs2) false none (some drive)
        | (.ok iothread, evs2) => create_device c vdev type (evs ++ evs2) iothread drive).err
      ≠ none) :
    spec_unwound c (match xen_block_drive_create c vdev opts with
      | (.error e, evs) => create_fail c ("failed to create drive: " ++ e) evs false none none
      | (.ok drive, evs) =>
        match xen_block_iothread_create c vdev with
        | (.error e, evs2) =>
          create_fail c ("failed to create iothread: " ++ e) (evs ++ evs2) false none (some drive)
        | (.ok iothread, evs2) => create_device c vdev type (evs ++ evs2) iothread drive) := by
  rcases drive_create_cases c vdev opts with ⟨e, hd⟩ | ⟨e, o, ho, hd⟩ | ⟨o, ho, hd⟩
  · rw [hd]
    exact create_fail_nothing c _ [] rfl (by simp) (by simp)
  · rw [hd]
    exact create_fail_nothing c _ _ (by simp [spec_live, spec_live_step, ho])
      (by simp [is_destroy]) (by simp)
  · rw [hd] at h ⊢
    simp only [xen_block_iothread_create] at h ⊢
    cases hio : c.object_add vdev with
    | some e =>
      refine unwound_of_trace c _ [OrchEvent.blockdev_add o, OrchEvent.object_add vdev] rfl
        ?_ ?_ ?_
      · simp [create_fail, xen_block_drive_destroy, spec_live, spec_live_step, ho, hio,
          spec_rollback]
      · simp [is_destroy]
      · simp
    | none =>
      rw [hio] at h
      exact create_device_unwound c vdev type o ho hio h

/-- Every failing `xen_block_device_create` is unwound. -/
theorem create_unwound (c : OrchCollab) (name : String) (opts : QDict)
    (herr : (xen_block_device_create c name opts).err ≠ none) :
    spec_unwound c (xen_block_device_create c name opts) := by
  unfold xen_block_device_create at herr ⊢
  by_cases hname : qemu_strtoul_whole name.toList ≠ 0
  · rw [if_pos hname]
    exact create_fail_nothing c _ [] rfl (by simp) (by simp)
  · rw [if_neg hname] at herr ⊢
    cases hdev : opts "dev" with
    | none => exact create_fail_nothing c _ [] rfl (by simp) (by simp)
    | some vdev =>
      rw [hdev] at herr
      simp only at herr ⊢
      cases hdt : opts "device-type" with
      | none => exact create_fail_nothing c _ [] rfl (by simp) (by simp)
      | some device_type =>
        rw [hdt] at herr
        simp only at herr ⊢
        by_cases hty : device_type ≠ "disk" ∧ device_type ≠ "cdrom"
        · rw [if_pos hty]
          exact create_fail_nothing c _ [] rfl (by simp) (by simp)
        · rw [if_neg hty] at herr ⊢
          exact create_stages_unwound c vdev _ opts herr

/-- C19, counterexample. The I/O context cannot be created after the drive
was, and the deletion of the drive's node fails: `xen_block_device_create`
returns its error, having dropped the error of the deletion, and the node
`xvda-raw` it created is still alive. -/
theorem create_rollback_counterexample :
    xen_block_device_create sample_orch_add_del_fail "0" (sample_opts "xvda") =
      { err := some "failed to create iothread: duplicate ID", registered := false,
        trace := [OrchEvent.blockdev_add
            { node_name := "xvda-raw", driver := "raw", filename := "/img",
              read_only := false, direct := false, discard_unmap := false },
          OrchEvent.object_add "xvda", OrchEvent.blockdev_del "xvda-raw"] } ∧
    (xen_block_drive_destroy sample_orch_add_del_fail
      { id := "xvda", node_name := some "xvda-raw" }).1 = some "node is in use" ∧
    spec_live sample_orch_add_del_fail
        (xen_block_device_create sample_orch_add_del_fail "0" (sample_opts "xvda")).trace =
      { nodes := ["xvda-raw"], iothreads := [], device := false } := by
  have h : xen_block_device_create sample_orch_add_del_fail "0" (sample_opts "xvda") =
      { err := some "failed to create iothread: duplicate ID", registered := false,
        trace := [OrchEvent.blockdev_add
            { node_name := "xvda-raw", driver := "raw", filename := "/img",
              read_only := false, direct := false, discard_unmap := false },
          OrchEvent.object_add "xvda", OrchEvent.blockdev_del "xvda-raw"] } := by decide
  refine ⟨h, rfl, ?_⟩
  rw [h]
  decide

/-- C19, amended. Create rollback: whenever `xen_block_device_create` returns
an error, the device is not registered and the record of calls is a creation
part, in which nothing is destroyed, followed by the destroy calls for
exactly the resources then alive, in reverse order of creation (device
unparented, then I/O context deleted, then drive node deleted); the errors
of these deletions are dropped, so a drive or an I/O context is left alive
only where its deletion reported an error, and none is left when the
deletions succeed; in particular, when the I/O context cannot be created
after the drive was, the deletion of the drive's node is called before the
call returns. -/
theorem create_rollback (c : OrchCollab) (name : String) (opts : QDict) :
    ((xen_block_device_create c name opts).err ≠ none →
      spec_unwound c (xen_block_device_create c name opts)) ∧
    ((xen_block_device_create c name opts).err ≠ none →
      (∀ n, c.blockdev_del n = none) → (∀ id, c.object_del id = none) →
      spec_live c (xen_block_device_create c name opts).trace =
        { nodes := [], iothreads := [], device := false }) ∧
    (∀ l : Live, spec_rollback l =
      (if l.device then [OrchEvent.object_unparent] else []) ++
        l.iothreads.map OrchEvent.object_del ++ l.nodes.map OrchEvent.blockdev_del) ∧
    (∀ (vdev device_type e : String) (o : BlockdevOptions),
      qemu_strtoul_whole name.toList = 0 → opts "dev" = some vdev →
      opts "device-type" = some device_type →
      (device_type = "disk" ∨ device_type = "cdrom") →
      xen_block_drive_create c vdev opts =
        (.ok { id := vdev, node_name := some o.node_name }, [OrchEvent.blockdev_add o]) →
      c.object_add vdev = some e →
      xen_block_device_create c name opts =
        { err := some ("failed to create iothread: " ++ e), registered := false,
          trace := [OrchEvent.blockdev_add o, OrchEvent.object_add vdev,
            OrchEvent.blockdev_del o.node_name] }) := by
  refine ⟨create_unwound c name opts, ?_, fun _ => rfl, ?_⟩
  · intro herr hb hi
    exact unwound_nothing_left c _ (create_unwound c name opts herr) hb hi
  · intro vdev device_type e o hname hdev hdt hty hdrive hio
    have hty2 : ¬ (device_type ≠ "disk" ∧ device_type ≠ "cdrom") := by
      rcases hty with h | h <;> simp [h]
    simp only [xen_block_device_create, hname, hdev, hdt, hty2, hdrive,
      xen_block_iothread_create, hio, create_fail, xen_block_drive_destroy, ne_eq,
      not_true_eq_false, if_false]
    simp

/-- Witness for C19: the I/O context cannot be created; with deletions that
succeed nothing is left, and with a failing node deletion the request is
still unwound as far as its deletions went. -/
theorem create_rollback_witness :
    ((xen_block_device_create sample_orch_add_fails "0" (sample_opts "xvda")).err ≠ none ∧
      (∀ n, sample_orch_add_fails.blockdev_del n = none) ∧
      (∀ id, sample_orch_add_fails.object_del id = none) ∧
      spec_live sample_orch_add_fails
          (xen_block_device_create sample_orch_add_fails "0" (sample_opts "xvda")).trace =
        { nodes := [], iothreads := [], device := false }) ∧
    ((xen_block_device_create sample_orch_add_del_fail "0" (sample_opts "xvda")).err ≠ none ∧
      spec_unwound sample_orch_add_del_fail
        (xen_block_device_create sample_orch_add_del_fail "0" (sample_opts "xvda"))) :=
  ⟨⟨by decide, fun _ => rfl, fun _ => rfl,
      (create_rollback sample_orch_add_fails "0" (sample_opts "xvda")).2.1 (by decide)
        (fun _ => rfl) (fun _ => rfl)⟩,
    ⟨by decide,
      (create_rollback sample_orch_add_del_fail "0" (sample_opts "xvda")).1 (by decide)⟩⟩

end XenBlock
